import Mathlib

/-!
# StandaloneSonarSystems: retry and fallback behaviour of the Sonar service layer

A shallow embedding of the three service modules

* `ChatSubsystem/sonarChatService.js` (`fetchChatResponse`, `fetchCommandResponse`),
* `IQSubsystem/sonarIQService.js` (`fetchCategoryResponse`),
* `NewsSubsystem/sonarNewsService.js` (`fetchNewsRaw`),

and of the controllers `IQSubsystem/IQScoreController.js` (`processIQScoreRequest`)
and `NewsSubsystem/newsController.js` (`processNewsRequest`), followed by theorems
about the retry loops, the fallbacks, the catalog lookup, the batch result, the
prompt and the replies of the controllers.

Conventions of the embedding.

* A JavaScript value that can come out of `JSON.parse` (a request body, a response
  body) is a `JsVal`.  Numbers are integer valued and of magnitude below 10^21,
  the range in which the engine prints an integer in decimal; strings are
  sequences of Unicode scalar values and their `length` is counted in UTF-16 code
  units.
* An `async` function is a function to a `Run`: how the promise settles
  (`returned v` / `threw e`) together with the trace of observable steps
  (`post` = one call of `axios.post`, `sleep` = one `setTimeout` wait).
* The transport is an oracle `Nat → TransportOutcome`: the outcome of the n-th
  call of `axios.post` made by the run (n = 1, 2, ...).
* `console.log` / `console.error` / `console.warn` have no effect on control flow;
  what is embedded of a logging statement is whether evaluating its argument throws.
-/

namespace Sonar

/-! ## JavaScript values -/

/-- A JavaScript value as produced by `JSON.parse`, plus `undefined`.
An object is the list of its own properties (distinct keys). -/
inductive JsVal where
  | undefined
  | null
  | bool (b : Bool)
  | num (n : Int)
  | str (s : String)
  | arr (items : List JsVal)
  | obj (fields : List (String × JsVal))

namespace JsVal

/-- The test `v === undefined || v === null`, which is what `?.` short-circuits on
and what makes a plain property access throw a TypeError. -/
def isNullish : JsVal → Bool
  | undefined => true
  | null => true
  | _ => false

end JsVal

/-- The `length` of a JavaScript string: its number of UTF-16 code units. -/
def jsLength (s : String) : Nat :=
  (s.data.map (fun c => if 65536 ≤ c.toNat then 2 else 1)).sum

/-- The characters removed by `String.prototype.trim`: ECMAScript WhiteSpace and
LineTerminator. -/
def isJsWhiteSpace (c : Char) : Bool :=
  let n := c.toNat
  n == 9 || n == 10 || n == 11 || n == 12 || n == 13 || n == 32 || n == 160 ||
  n == 5760 || (8192 ≤ n && n ≤ 8202) || n == 8232 || n == 8233 || n == 8239 ||
  n == 8287 || n == 12288 || n == 65279

/-- The method `String.prototype.trim`. -/
def jsTrim (s : String) : String :=
  ⟨((s.data.dropWhile isJsWhiteSpace).reverse.dropWhile isJsWhiteSpace).reverse⟩

namespace JsVal

/-- The conversion ToBoolean (the truthiness used by `!v`, `v || w`, `c ? a : b`). -/
def truthy : JsVal → Bool
  | undefined => false
  | null => false
  | bool b => b
  | num n => n != 0
  | str s => s != ""
  | arr _ => true
  | obj _ => true

/-- The property read `v.name` on a value that is not nullish, for a name that no
built-in prototype defines (`choices`, `message`, `content`) or for `length`. -/
def getField (name : String) : JsVal → JsVal
  | obj fields => (fields.lookup name).getD undefined
  | str s => if name == "length" then num (jsLength s) else undefined
  | arr items => if name == "length" then num items.length else undefined
  | _ => undefined

/-- The element read `v[0]` on a value that is not nullish.  On a non-empty string
it is a one-unit string; only the fact that it is a string is used downstream. -/
def getIndex0 : JsVal → JsVal
  | arr items => items.headD undefined
  | obj fields => (fields.lookup "0").getD undefined
  | str s => match s.data with
    | [] => undefined
    | c :: _ => str (String.singleton c)
  | _ => undefined

/-- The optional access `v?.step`: `undefined` when `v` is nullish. -/
def optional (step : JsVal → JsVal) (v : JsVal) : JsVal :=
  if v.isNullish then undefined else step v

mutual
/-- The conversion ToString, `none` when it throws a TypeError.  A parsed JSON
object with an own property `toString` has a non-callable `toString`, and
`Object.prototype.valueOf` returns the object itself, so no primitive is found;
an array is joined with commas, `null` and `undefined` elements giving the
empty string.  A number is printed in decimal, which is what the engine does for
an integer of magnitude below 10^21 (from there on it prints an exponent form,
which is outside the embedding). -/
def toJsString : JsVal → Option String
  | undefined => some "undefined"
  | null => some "null"
  | bool b => some (if b then "true" else "false")
  | num n => some (toString n)
  | str s => some s
  | arr items => joinItems "," items
  | obj fields => if fields.any (fun kv => kv.1 == "toString") then none else some "[object Object]"
/-- The method `Array.prototype.join` with the given separator, `none` when the
conversion of an element throws. -/
def joinItems (sep : String) : List JsVal → Option String
  | [] => some ""
  | [v] => if v.isNullish then some "" else toJsString v
  | v :: w :: rest =>
    match (if v.isNullish then some "" else toJsString v), joinItems sep (w :: rest) with
    | some a, some b => some (a ++ sep ++ b)
    | _, _ => none
end

/-- The expression `data.choices?.[0]?.message?.content` on a `data` that is not
nullish. -/
def messageContent (data : JsVal) : JsVal :=
  optional (getField "content") (optional (getField "message")
    (optional getIndex0 (getField "choices" data)))

end JsVal

/-! ## Runs, traces and the transport -/

/-- The module's surroundings: the two environment variables it reads and the
engine's Unicode case mappings `String.prototype.toLowerCase` / `toUpperCase`. -/
structure Runtime where
  SONAR_API_KEY : Option String
  SONAR_API_URL : Option String
  toLowerCase : String → String
  toUpperCase : String → String

/-- The expression `process.env.SONAR_API_URL || 'https://api.perplexity.ai/chat/completions'`. -/
def Runtime.apiUrl (rt : Runtime) : String :=
  match rt.SONAR_API_URL with
  | some u => if u = "" then "https://api.perplexity.ai/chat/completions" else u
  | none => "https://api.perplexity.ai/chat/completions"

/-- The header value built by the template literal with `Bearer` and `apiKey`. -/
def Runtime.bearer (rt : Runtime) : String :=
  "Bearer " ++ rt.SONAR_API_KEY.getD "undefined"

/-- What one call of `axios.post` is given: URL, authorization header, and the
payload fields `model`, `messages[1].content` (the user prompt), `max_tokens`,
plus the `timeout` option.  The system prompt, the JSON schema, the temperature
and the date filters of the news payload are fixed per module and left out. -/
structure Request where
  url : String
  authorization : String
  model : String
  userPrompt : String
  maxTokens : Nat
  timeout : Nat
  deriving DecidableEq

/-- An observable step of a run. -/
inductive Event where
  | post (req : Request)
  | sleep (ms : Nat)
  deriving DecidableEq

/-- Whether the step is a call of `axios.post`. -/
def Event.isPost : Event → Bool
  | .post _ => true
  | .sleep _ => false

/-- A thrown value: `new Error(message)`, or a TypeError raised by the engine
(whose message is engine specific). -/
inductive Thrown where
  | error (message : String)
  | typeError
  deriving DecidableEq

/-- How the promise of an `async` function settles. -/
inductive Completion where
  | returned (value : JsVal)
  | threw (e : Thrown)

/-- One execution of an `async` function. -/
structure Run where
  completion : Completion
  trace : List Event

/-- The number of transport invocations of a run. -/
def Run.invocations (r : Run) : Nat := r.trace.countP Event.isPost

/-- The waits of a run, in order. -/
def Run.delays (r : Run) : List Nat :=
  r.trace.filterMap (fun e => match e with
    | .sleep ms => some ms
    | .post _ => none)

/-- The trace with each request forgotten: `none` for a post, `some ms` for a wait. -/
def Run.shape (r : Run) : List (Option Nat) :=
  r.trace.map (fun e => match e with
    | .post _ => none
    | .sleep ms => some ms)

/-- How one call of `axios.post` settles: fulfilled with a response whose body is
`data`; rejected with an error carrying `error.response.status`; rejected with an
error that has no `response` (timeout, network failure). -/
inductive TransportOutcome where
  | resolved (data : JsVal)
  | httpError (status : Int)
  | failed

/-- The transport oracle: the outcome of the n-th invocation. -/
abbrev Transport := Nat → TransportOutcome

/-! ## Catalogs -/

/-- An entry of `COMMAND_CONFIGS` / `CATEGORY_CONFIGS`: the fields `category`,
`model` and `prompt`.  The `description` is never read and the `schema` is only
copied into the payload; both are left out. -/
structure Config where
  category : String
  model : String
  prompt : String
  deriving DecidableEq

/-- The object literal `COMMAND_CONFIGS` of sonarChatService.js, as the list of its
own properties. -/
def COMMAND_CONFIGS : List (String × Config) :=
  [("DROP",
    ⟨"Drop", "sonar",
     "Search for emerging cryptocurrencies with strong airdrop buzz and wallet growth recently. Respond with a JSON object containing:\n- drop_status: \"Found\" or \"Not Found\"\n- coins: Array of objects, each with:\n  - title: String, descriptive title of the coin’s airdrop event or social activity\n  - summary: String, 50-150 words, including coin name, market cap, 24h airdrop mentions on X, 7-day wallet growth (%), and context\n  - source: String, valid URL to the source\n  - publish_date: String, publication date (e.g., 05/03/2025)\n- reason: String, explanation if no coins found\n- sources: Array of strings, valid URLs to sources\nEnsure the JSON is valid and matches the schema."⟩),
   ("DYNAMO",
    ⟨"Dynamo", "sonar",
     "Search for emerging DeFi cryptocurrencies with strong on-chain activity recently. Respond with a JSON object containing:\n- dynamo_status: \"Found\" or \"Not Found\"\n- coins: Array of objects, each with:\n  - title: String, descriptive title of the coin’s DeFi activity or market movement\n  - summary: String, 50-150 words, including coin name, market cap, TVL, 7-day TVL growth (%), transaction count, and context\n  - source: String, valid URL to the source\n  - publish_date: String, publication date (e.g., 05/03/2025)\n- reason: String, explanation if no coins found\n- sources: Array of strings, valid URLs to sources\nEnsure the JSON is valid and matches the schema."⟩),
   ("FLASH",
    ⟨"Flash", "sonar",
     "Search for smaller cryptocurrencies that have shown a sharp recovery after a price drop in the last 24 hours. Respond with a JSON object containing:\n- flash_status: \"Found\" or \"Not Found\"\n- coins: Array of objects, each with:\n  - title: String, descriptive title of the coin’s recovery event or market movement\n  - summary: String, 50-150 words, including coin name, market cap, 12h price drop (%), 2h price recovery (%), X sentiment score (quantitative or qualitative, e.g., positive sentiment), and context\n  - source: String, valid URL to the source\n  - publish_date: String, publication date (e.g., 05/03/2025)\n- reason: String, explanation if no coins found\n- sources: Array of strings, valid URLs to sources\nEnsure the JSON is valid and matches the schema."⟩),
   ("GHOST",
    ⟨"Ghost", "sonar",
     "Search for low-cap cryptocurrencies with sudden blockchain activity and price gains in the last 24 hours. Respond with a JSON object containing:\n- ghost_status: \"Found\" or \"Not Found\"\n- coins: Array of objects, each with:\n  - title: String, descriptive title of the coin’s activity surge or market movement\n  - summary: String, 50-150 words, including coin name, market cap, 24h transaction count, 24h price change (%), and context\n  - source: String, valid URL to the source\n  - publish_date: String, publication date (e.g., 05/03/2025)\n- reason: String, explanation if no coins found\n- sources: Array of strings, valid URLs to sources\nEnsure the JSON is valid and matches the schema."⟩),
   ("GREEN",
    ⟨"Green", "sonar",
     "Search for emerging eco-friendly cryptocurrencies with strong adoption recently. Respond with a JSON object containing:\n- green_status: \"Found\" or \"Not Found\"\n- coins: Array of objects, each with:\n  - title: String, descriptive title of the coin’s adoption or market movement\n  - summary: String, 50-150 words, including coin name, market cap, active addresses, 7-day transaction growth (%), and context\n  - source: String, valid URL to the source\n  - publish_date: String, publication date (e.g., 05/03/2025)\n- reason: String, explanation if no coins found\n- sources: Array of strings, valid URLs to sources\nEnsure the JSON is valid and matches the schema."⟩),
   ("MEME",
    ⟨"Meme", "sonar",
     "Search for emerging meme coins with strong social media hype in the last 24 hours. Respond with a JSON object containing:\n- meme_status: \"Found\" or \"Not Found\"\n- coins: Array of objects, each with:\n  - title: String, descriptive title of the coin’s social hype or market movement\n  - summary: String, 50-150 words, including coin name, market cap, X follower count, 24h hashtag mentions, and context\n  - source: String, valid URL to the source\n  - publish_date: String, publication date (e.g., 05/03/2025)\n- reason: String, explanation if no coins found\n- sources: Array of strings, valid URLs to sources\nEnsure the JSON is valid and matches the schema."⟩),
   ("MOON",
    ⟨"Moon", "sonar",
     "Search for micro-cap cryptocurrencies with strong price spikes and active development in the last 48 hours. Respond with a JSON object containing:\n- moon_status: \"Found\" or \"Not Found\"\n- coins: Array of objects, each with:\n  - title: String, descriptive title of the coin’s price spike or developer activity\n  - summary: String, 50-150 words, including coin name, market cap, 48h price change (%), GitHub activity (quantitative or qualitative, e.g., notable commits), and context\n  - source: String, valid URL to the source\n  - publish_date: String, publication date (e.g., 05/03/2025)\n- reason: String, explanation if no coins found\n- sources: Array of strings, valid URLs to sources\nEnsure the JSON is valid and matches the schema."⟩),
   ("NUGS",
    ⟨"Nugs", "sonar",
     "Search for emerging NFT-related cryptocurrencies with strong marketplace activity recently. Respond with a JSON object containing:\n- nugs_status: \"Found\" or \"Not Found\"\n- coins: Array of objects, each with:\n  - title: String, descriptive title of the coin’s NFT activity or market movement\n  - summary: String, 50-150 words, including coin name, market cap, 7-day NFT sales volume, sales count growth (%), and context\n  - source: String, valid URL to the source\n  - publish_date: String, publication date (e.g., 05/03/2025)\n- reason: String, explanation if no coins found\n- sources: Array of strings, valid URLs to sources\nEnsure the JSON is valid and matches the schema."⟩),
   ("PUMP",
    ⟨"Pump", "sonar",
     "Search for mid-cap cryptocurrencies with over 15% price surge this week and strong wallet holder retention. Respond with a JSON object containing:\n- pump_status: \"Found\" or \"Not Found\"\n- coins: Array of objects, each with:\n  - title: String, descriptive title of the coin’s price surge or holder activity\n  - summary: String, 50-150 words, including coin name, market cap, 7-day price change (%), wallet retention rate (%), and context\n  - source: String, valid URL to the source\n  - publish_date: String, publication date (e.g., 05/03/2025)\n- reason: String, explanation if no coins found\n- sources: Array of strings, valid URLs to sources\nEnsure the JSON is valid and matches the schema."⟩),
   ("STABLE",
    ⟨"Stable", "sonar",
     "Search for lesser-known stablecoins with notable supply growth and high trading volume recently. Respond with a JSON object containing:\n- stable_status: \"Found\" or \"Not Found\"\n- coins: Array of objects, each with:\n  - title: String, descriptive title of the coin’s circulation or trading activity\n  - summary: String, 50-150 words, including coin name, market cap, 7-day supply growth (%), 24h trading volume, and context\n  - source: String, valid URL to the source\n  - publish_date: String, publication date (e.g., 05/03/2025)\n- reason: String, explanation if no coins found\n- sources: Array of strings, valid URLs to sources\nEnsure the JSON is valid and matches the schema."⟩),
   ("ZOMBIE",
    ⟨"Zombie", "sonar",
     "Search for smaller older cryptocurrencies with strong trading activity and price gains in the last 24 hours. Respond with a JSON object containing:\n- zombie_status: \"Found\" or \"Not Found\"\n- coins: Array of objects, each with:\n  - title: String, descriptive title of the coin’s trading activity or market movement\n  - summary: String, 50-150 words, including coin name, market cap, launch year, 24h volume, 24h price change (%), and context\n  - source: String, valid URL to the source\n  - publish_date: String, publication date (e.g., 05/03/2025)\n- reason: String, explanation if no coins found\n- sources: Array of strings, valid URLs to sources\nEnsure the JSON is valid and matches the schema."⟩)]

/-- The object literal `CATEGORY_CONFIGS` of sonarIQService.js, as the list of its
own properties. -/
def CATEGORY_CONFIGS : List (String × Config) :=
  [("audit",
    ⟨"Audit", "sonar-pro",
     "Search for smart contract audit reports for \"\x7b\x7bcoinName\x7d\x7d\" on the \"\x7b\x7bchain\x7d\x7d\" blockchain, focusing on firms like Certik, OpenZeppelin, Hacken, Trail of Bits, Chainsecurity, Cyberscope, EtherAuthority, Callisto, NCC Group, or Certora. Respond with a JSON object containing:\n- audit_status: \"Found\" or \"Not Found\"\n- audits: Array of objects, each with:\n  - firm: String, name of the auditing firm\n  - year: Integer, year conducted (YYYY)\n  - scope: String, technical focus (e.g., \"token minting\")\n  - findings: Object with keys critical, high, medium, low, informational (integers or \"Unspecified\"), and resolved (boolean or \"Unknown\")\n  - source: String, valid URL to the audit report (e.g., https://example.com/report.pdf)\n  - score: Integer, 0-100 based on findings and resolution (Unspecified/Unknown=70, No findings=80, All resolved=100, Unresolved threats=0-50 by severity)\n- final_score: Integer, 0-100, average of audit scores or 50 if no data\n- reason: String, explanation if no audits found\n- sources: Array of strings, valid URLs to sources (e.g., https://example.com)\nEnsure the JSON is valid and matches the schema."⟩),
   ("code_quality",
    ⟨"CodeQuality", "sonar-pro",
     "Analyze the code quality of \"\x7b\x7bcoinName\x7d\x7d\" on the \"\x7b\x7bchain\x7d\x7d\" blockchain, focusing on GitHub repositories or public codebases. Respond with a JSON object containing:\n- code_quality_status: \"High Quality\", \"Moderate Quality\", \"Low Quality\", or \"No Codebase Found\"\n- code_quality: Array of objects, each with:\n  - type: String, e.g., \"GitHub Activity\"\n  - description: String, details of the aspect\n  - strength: String, \"High\", \"Medium\", or \"Low\"\n  - source: String, valid URL to the source (e.g., https://example.com/repository)\n  - score: Integer, 0-100 (High=80-100, Moderate=50-79, Low=0-49)\n- final_score: Integer, 0-100, average of code_quality scores or 50 if no data\n- reason: String, explanation if no codebase found\n- sources: Array of strings, valid URLs to sources (e.g., https://example.com)\nEnsure the JSON is valid and matches the schema."⟩),
   ("ecosystem_adoption",
    ⟨"EcosystemAdoption", "sonar-pro",
     "Analyze the ecosystem adoption of \"\x7b\x7bcoinName\x7d\x7d\" on the \"\x7b\x7bchain\x7d\x7d\" blockchain. Respond with a JSON object containing:\n- adoption_status: \"High Adoption\", \"Moderate Adoption\", \"Low Adoption\", or \"No Adoption Found\"\n- adoption: Array of objects, each with:\n  - type: String, e.g., \"Partnerships\"\n  - description: String, details of the metric\n  - significance: String, \"High\", \"Medium\", or \"Low\"\n  - source: String, valid URL to the source (e.g., https://example.com/report)\n  - score: Integer, 0-100 (High=80-100, Moderate=50-79, Low=0-49)\n- final_score: Integer, 0-100, average of adoption scores or 50 if no data\n- reason: String, explanation if no adoption data found\n- sources: Array of strings, valid URLs to sources (e.g., https://example.com)\nEnsure the JSON is valid and matches the schema."⟩),
   ("goal",
    ⟨"Goal", "sonar-pro",
     "Analyze \"\x7b\x7bcoinName\x7d\x7d\" on the \"\x7b\x7bchain\x7d\x7d\" blockchain for stated project goals. Respond with a JSON object containing:\n- goal_status: \" REDUCEGoals Found\" or \"No Goals Found\"\n- goals: Array of objects, each with:\n  - type: String, e.g., \"Decentralization\"\n  - description: String, details of the goal\n  - feasibility: String, \"High\", \"Medium\", or \"Low\"\n  - source: String, valid URL to the source (e.g., https://example.com/document)\n  - score: Integer, 0-100 (High=80-100, Medium=50-79, Low=20-49, Unclear=0-19)\n- final_score: Integer, 0-100, average of goal scores or 50 if no data\n- reason: String, explanation if no goals found\n- sources: Array of strings, valid URLs to sources (e.g., https://example.com)\nEnsure the JSON is valid and matches the schema."⟩),
   ("governance",
    ⟨"Governance", "sonar-pro",
     "Analyze the governance model of \"\x7b\x7bcoinName\x7d\x7d\" on the \"\x7b\x7bchain\x7d\x7d\" blockchain. Respond with a JSON object containing:\n- governance_status: \"Active Governance\", \"Partial Governance\", or \"No Governance Found\"\n- governance: Array of objects, each with:\n  - type: String, e.g., \"On-Chain Voting\"\n  - description: String, details of the aspect\n  - strength: String, \"High\", \"Medium\", or \"Low\"\n  - source: String, valid URL to the source (e.g., https://example.com/governance)\n  - score: Integer, 0-100 (Strong=80-100, Moderate=50-79, Weak=0-49)\n- final_score: Integer, 0-100, average of governance scores or 50 if no data\n- reason: String, explanation if no governance found\n- sources: Array of strings, valid URLs to sources (e.g., https://example.com)\nEnsure the JSON is valid and matches the schema."⟩),
   ("market",
    ⟨"Market", "sonar-pro",
     "Analyze \"\x7b\x7bcoinName\x7d\x7d\" on the \"\x7b\x7bchain\x7d\x7d\" blockchain for market activity metrics like volume, market cap, volatility, moving average, and trend direction. Respond with a JSON object containing:\n- market_status: \"Active Market\", \"Stable Market\", \"Volatile Market\", or \"No Market Data Found\"\n- market_activities: Array of objects, each with:\n  - type: String, e.g., \"Trading Volume\"\n  - description: String, details of the metric\n  - significance: String, \"High\", \"Medium\", or \"Low\"\n  - source: String, valid URL to the source (e.g., https://example.com/article)\n  - score: Integer, -100 to 100 based on market health\n- final_score: Integer, -100 to 100, average of market_activities scores or 0 if no data\n- reason: String, explanation if no market data found\n- sources: Array of strings, valid URLs to sources (e.g., https://example.com)\nEnsure the JSON is valid and matches the schema."⟩),
   ("regulatory_compliance",
    ⟨"RegulatoryCompliance", "sonar-pro",
     "Analyze the regulatory compliance of \"\x7b\x7bcoinName\x7d\x7d\" on the \"\x7b\x7bchain\x7d\x7d\" blockchain. Respond with a JSON object containing:\n- compliance_status: \"Compliant\", \"Partially Compliant\", \"Non-Compliant\", or \"No Compliance Data Found\"\n- compliance: Array of objects, each with:\n  - type: String, e.g., \"KYC/AML Policies\"\n  - description: String, details of the aspect\n  - significance: String, \"High\", \"Medium\", or \"Low\"\n  - source: String, valid URL to the source (e.g., https://example.com/report)\n  - score: Integer, 0-100 (Compliant=80-100, Partial=50-79, Non-Compliant=0-49)\n- final_score: Integer, 0-100, average of compliance scores or 50 if no data\n- reason: String, explanation if no compliance data found\n- sources: Array of strings, valid URLs to sources (e.g., https://example.com)\nEnsure the JSON is valid and matches the schema."⟩),
   ("scam",
    ⟨"Scam", "sonar-pro",
     "Analyze \"\x7b\x7bcoinName\x7d\x7d\" on the \"\x7b\x7bchain\x7d\x7d\" blockchain for scam indicators. Respond with a JSON object containing:\n- scam_status: \"Indicators Found\" or \"No Indicators Found\"\n- indicators: Array of up to 5 objects, each with:\n  - type: String, e.g., \"Fake Team\"\n  - description: String, details of the indicator, properly escaped to avoid JSON syntax errors (e.g., escape quotes, ampersands)\n  - severity: String, \"Critical\", \"High\", \"Medium\", or \"Low\"\n  - source: String, valid URL to the source (e.g., https://example.com/report), properly escaped\n  - score: Integer, 0-100 (Critical=100-80, High=79-60, Medium=59-40, Low=39-20, No issues=19-0)\n- final_score: Integer, 0-100, 100 if no indicators, otherwise 100 minus average of indicator scores plus 25, clamped to 0-100\n- reason: String, explanation if no indicators found\n- sources: Array of strings, valid URLs to sources (e.g., https://example.com), properly escaped. If no specific URL is available, use the project’s official website.\nEnsure the JSON is valid, with all strings properly escaped to prevent syntax errors. URLs must start with http:// or https:// and be accessible."⟩),
   ("sentiment",
    ⟨"Sentiment", "sonar-pro",
     "Analyze \"\x7b\x7bcoinName\x7d\x7d\" on the \"\x7b\x7bchain\x7d\x7d\" blockchain for current sentiment and trends. Respond with a JSON object containing:\n- sentiment_status: \"Positive Sentiment\", \"Negative Sentiment\", \"Neutral Sentiment\", or \"No Sentiment Found\"\n- sentiments: Array of objects, each with:\n  - type: String, e.g., \"Community Support\"\n  - description: String, details of the sentiment\n  - strength: String, \"High\", \"Medium\", or \"Low\"\n  - source: String, valid URL to the source (e.g., https://example.com/article)\n  - score: Integer, 0-100 (Positive=80-100, Neutral=50-79, Negative=20-49, Unclear=0-19)\n- final_score: Integer, 0-100, average of sentiment scores or 50 if no data\n- reason: String, explanation if no sentiment found\n- sources: Array of strings, valid URLs to sources (e.g., https://example.com)\nEnsure the JSON is valid and matches the schema."⟩),
   ("team",
    ⟨"Team", "sonar-pro",
     "Search for information about the core team or developers of \"\x7b\x7bcoinName\x7d\x7d\" on the \"\x7b\x7bchain\x7d\x7d\" blockchain, focusing on official project websites, GitHub, LinkedIn, or credible sources like CoinMarketCap or CoinGecko. Respond with a JSON object containing:\n- team_status: \"Found\" or \"Not Found\"\n- team: Array of objects, each with:\n  - name: String, individual or team name\n  - role: String, e.g., \"Lead Developer\"\n  - background: String, professional background\n  - validity: String, \"Valid\", \"Invalid\", or \"Unverified\"\n  - source: String, valid URL to the source (e.g., https://example.com/profile)\n  - score: Integer, 0-100 (Valid=90-100, Unverified=60-80, Invalid=0-49)\n- final_score: Integer, 0-100, average of team scores or 50 if no data\n- reason: String, explanation if no team info found\n- sources: Array of strings, valid URLs to sources (e.g., https://example.com)\nEnsure the JSON is valid and matches the schema."⟩),
   ("tokenomics",
    ⟨"Tokenomics", "sonar-pro",
     "Analyze the tokenomics of \"\x7b\x7bcoinName\x7d\x7d\" on the \"\x7b\x7bchain\x7d\x7d\" blockchain. Respond with a JSON object containing:\n- tokenomics_status: \"Detailed Found\", \"Partial Found\", or \"Not Found\"\n- tokenomics: Array of objects, each with:\n  - type: String, e.g., \"Supply Distribution\"\n  - description: String, details of the aspect\n  - significance: String, \"High\", \"Medium\", or \"Low\"\n  - source: String, valid URL to the source (e.g., https://example.com/tokenomics)\n  - score: Integer, 0-100 (Balanced=80-100, Moderate=50-79, Poor=0-49)\n- final_score: Integer, 0-100, average of tokenomics scores or 50 if no data\n- reason: String, explanation if no data found\n- sources: Array of strings, valid URLs to sources (e.g., https://example.com)\nEnsure the JSON is valid and matches the schema."⟩),
   ("value",
    ⟨"Value", "sonar-reasoning-pro",
     "Analyze \"\x7b\x7bcoinName\x7d\x7d\" on the \"\x7b\x7bchain\x7d\x7d\" blockchain for comprehensive value metrics, considering market activity, sentiment, project goals, adoption, technology, and risks. Respond with a JSON object containing:\n- value_status: \"High Value\", \"Moderate Value\", \"Low Value\", or \"No Value Data Found\"\n- value_metrics: Array of objects, each with:\n  - type: String, e.g., \"Market Performance\"\n  - description: String, details of the metric\n  - significance: String, \"High\", \"Medium\", or \"Low\"\n  - source: String, valid URL to the source (e.g., https://example.com/analysis)\n  - score: Integer, -100 to 100 (Strong=80-100, Moderate=50-79, Weak=20-49, Negative=-20 to -100)\n- final_score: Integer, -100 to 100, average of value_metrics scores or 0 if no data\n- reason: String, explanation if no value data found\n- sources: Array of strings, valid URLs to sources (e.g., https://example.com)\nEnsure the JSON is valid and matches the schema."⟩),
   ("whitepaper",
    ⟨"Whitepaper", "sonar-pro",
     "Search for the whitepaper for \"\x7b\x7bcoinName\x7d\x7d\" on the \"\x7b\x7bchain\x7d\x7d\" blockchain, checking official project websites, blockchain explorers, or repositories like GitHub. Respond with a JSON object containing:\n- whitepaper_status: \"Found\" or \"Not Found\"\n- whitepapers: Array of objects, each with:\n  - summary: String, 100-200 word summary of the project’s purpose, technology, and key features\n  - source: String, valid URL to the whitepaper (e.g., https://example.com/whitepaper.pdf)\n  - score: Integer, 100 if found, 0 if not\n- final_score: Integer, 0-100, average of whitepaper scores or 50 if no data\n- reason: String, explanation if no whitepaper found\n- sources: Array of strings, valid URLs to sources (e.g., https://example.com)\nEnsure the JSON is valid and matches the schema."⟩)]

/-- The array `ALLOWED_INTERESTS` of sonarNewsService.js. -/
def ALLOWED_INTERESTS : List String :=
  ["Web3", "Blockchain", "DeFi", "NFT", "Hybrid DeFi Products", "Blockchain-based KYC Solutions",
   "AI-Powered Smart Contracts", "Crypto Tax Reporting Tools", "Tokenized Money Market Funds",
   "Digital Gold Tokens", "Decentralized Crypto Accounting", "Cross-Border Crypto Payments",
   "Blockchain IoT Security", "Immutable Medical Records", "Smart Contract Formal Verification",
   "Decentralized Autonomous Supply Chains", "Blockchain-based Voting Systems",
   "Permissioned Blockchain Networks", "Fair Value Crypto Accounting",
   "Crypto Asset Management Platforms", "On-Chain Derivatives Trading",
   "Privacy-Preserving DeFi Protocols", "Blockchain Regulatory Compliance Tools",
   "Real-World Asset Tokenization (RWA)", "Decentralized Identity", "DAO Governance Tools",
   "Cross-Chain Yield Aggregator", "Layer 2 Scaling Solutions", "On-Chain Social Feeds",
   "DeFi Lending Protocols", "NFT Utility Platforms", "Play-to-Earn Blockchain Games",
   "Decentralized Autonomous Organizations (DAOs)", "Crypto Staking Pools",
   "Liquidity Mining Strategies", "Decentralized Insurance", "Web3 Creator Economy",
   "Interoperable NFTs", "Privacy Coins", "Decentralized Exchanges (DEXs)",
   "Smart Contract Security Audits", "Blockchain Oracles", "Digital Asset Management Platforms",
   "Institutional Crypto Custody Solutions"]

/-- The string-keyed properties every plain object inherits from `Object.prototype`. -/
def objectPrototypeNames : List String :=
  ["constructor", "__defineGetter__", "__defineSetter__", "hasOwnProperty",
   "__lookupGetter__", "__lookupSetter__", "isPrototypeOf", "propertyIsEnumerable",
   "toString", "valueOf", "__proto__", "toLocaleString"]

/-- The result of the property read `TABLE[key]` on a catalog object literal: an
own entry, a value inherited from `Object.prototype` (a function, or the prototype
object itself: truthy, and without `category` or `prompt`), or `undefined`. -/
inductive Lookup where
  | own (config : Config)
  | inherited
  | absent

/-- The property read `TABLE[key]`. -/
def lookupProperty (table : List (String × Config)) (key : String) : Lookup :=
  match table.lookup key with
  | some config => .own config
  | none => if objectPrototypeNames.contains key then .inherited else .absent

/-! ## String helpers of the engine -/

/-- The substitution of the replacement text for one match of a regular expression
without capture groups (ECMAScript GetSubstitution): `$$` is a dollar sign, `$&`
the matched text, dollar-backquote the text before the match, dollar-quote the
text after it; every other character, a lone `$` included, stands for itself. -/
def expandReplacement (matched before after : List Char) : List Char → List Char
  | [] => []
  | [c] => [c]
  | c :: d :: rest =>
    if c.toNat = 36 then
      if d.toNat = 36 then d :: expandReplacement matched before after rest
      else if d.toNat = 38 then matched ++ expandReplacement matched before after rest
      else if d.toNat = 96 then before ++ expandReplacement matched before after rest
      else if d.toNat = 39 then after ++ expandReplacement matched before after rest
      else c :: expandReplacement matched before after (d :: rest)
    else c :: expandReplacement matched before after (d :: rest)

/-- The scan of `replaceLiteralAll`: `skip` characters of the current match are
still to be passed over, `before` is the text already scanned. -/
def replaceScan (pat repl : List Char) : Nat → List Char → List Char → List Char
  | _, _, [] => []
  | skip + 1, before, c :: rest => replaceScan pat repl skip (before ++ [c]) rest
  | 0, before, c :: rest =>
    if pat.isPrefixOf (c :: rest) then
      expandReplacement pat before ((c :: rest).drop pat.length) repl ++
        replaceScan pat repl (pat.length - 1) (before ++ [c]) rest
    else c :: replaceScan pat repl 0 (before ++ [c]) rest

/-- The call `s.replace(/pat/g, repl)` for a regular expression that matches the
non-empty literal text `pat` and a string `repl`: every match, from left to right
and without overlap, is replaced by the expansion of `repl`. -/
def replaceLiteralAll (pat repl s : String) : String :=
  ⟨replaceScan pat.data repl.data 0 [] s.data⟩

/-- The number read by `parseInt(s, 10)` from a string, `none` for NaN: leading
white space is skipped, then an optional sign, then the longest run of decimal
digits; no digit gives NaN. -/
def parseIntString (s : String) : Option Int :=
  let t := s.data.dropWhile isJsWhiteSpace
  let negative := t.head? == some (Char.ofNat 45)
  let unsigned := if t.head? == some (Char.ofNat 45) || t.head? == some (Char.ofNat 43) then t.tail else t
  let digits := unsigned.takeWhile Char.isDigit
  if digits.isEmpty then none
  else
    let magnitude : Nat := digits.foldl (fun acc c => 10 * acc + (c.toNat - 48)) 0
    some (if negative then -(magnitude : Int) else (magnitude : Int))

/-- The call `parseInt(v, 10)`: `v` is converted with ToString first.  The outer
`none` is a TypeError thrown by that conversion, the inner `none` is NaN. -/
def jsParseInt (v : JsVal) : Option (Option Int) :=
  v.toJsString.map parseIntString

/-! ## The retry loops

Each `for (let attempt = 1; attempt <= retries; attempt++)` loop is a recursive
function whose first numeric argument is `retries + 1 - attempt`, the number of
iterations the loop condition still admits, and whose second is `attempt`.  At 0
the condition `attempt <= retries` is false: the loop ends and the `async`
function, having no `return` after the loop, resolves to `undefined`.

The `try` block of an iteration is a function of the transport outcome to
`Except (Option Int) JsVal`: `ok v` when the block reaches `return v`, and
`error status` when control passes to the `catch` clause, `status` being what the
clause reads as `error.response?.status` (`none` for `undefined`: a transport
error without response, or an Error or TypeError thrown inside the block). -/

/-- The `try` block of fetchChatResponse (sonarChatService.js, lines 460-484).
Reading `response.data.choices` throws when the body is nullish; `content?.trim()`
throws when `content` is neither nullish nor a string; an `undefined`, empty or
short `chatContent` throws `Invalid response from Sonar API`. -/
def fetchChatResponse.tryBlock : TransportOutcome → Except (Option Int) JsVal
  | .httpError status => .error (some status)
  | .failed => .error none
  | .resolved data =>
    if data.isNullish then .error none
    else
      match data.messageContent with
      | .undefined => .error none
      | .null => .error none
      | .str content =>
        let chatContent := jsTrim content
        if chatContent = "" ∨ jsLength chatContent < 20 then .error none
        else .ok (.str chatContent)
      | _ => .error none

/-- The retry loop of fetchChatResponse (lines 459-497). -/
def fetchChatResponse.loop (req : Request) (transport : Transport) (retries : Nat) :
    Nat → Nat → List Event → Run
  | 0, _, trace => ⟨.returned .undefined, trace⟩
  | remaining + 1, attempt, trace =>
    match fetchChatResponse.tryBlock (transport attempt) with
    | .ok chatContent => ⟨.returned chatContent, trace ++ [.post req]⟩
    | .error status =>
      if status = some 429 then
        ⟨.threw (.error "Sonar API rate limit exceeded"), trace ++ [.post req]⟩
      else if attempt = retries then
        ⟨.returned (.str "Sorry, our chat service is temporarily unavailable. Please try again later."),
          trace ++ [.post req]⟩
      else
        fetchChatResponse.loop req transport retries remaining (attempt + 1)
          (trace ++ [.post req, .sleep (500 * attempt)])

/-- The function `fetchChatResponse(userPrompt)` of sonarChatService.js. -/
def fetchChatResponse (rt : Runtime) (transport : Transport) (userPrompt : JsVal) : Run :=
  match userPrompt with
  | .str s =>
    if s = "" ∨ jsLength (jsTrim s) = 0 then ⟨.threw (.error "Invalid user prompt"), []⟩
    else
      let trimmedPrompt := jsTrim s
      if jsLength trimmedPrompt > 1000 then ⟨.threw (.error "User prompt too long"), []⟩
      else
        fetchChatResponse.loop ⟨rt.apiUrl, rt.bearer, "sonar", trimmedPrompt, 500, 90000⟩
          transport 3 3 1 []
  | _ => ⟨.threw (.error "Invalid user prompt"), []⟩

/-- Whether the success log line shared by fetchCommandResponse,
fetchCategoryResponse and fetchNewsRaw throws a TypeError.  It evaluates
`Object.keys(response.data)`, which throws on a nullish body, and interpolates
`response.data.choices?.[0]?.message?.content?.length || 0` into a template
literal, which throws when that value has no string conversion. -/
def successLogThrows (data : JsVal) : Bool :=
  data.isNullish ||
    (let contentLength := JsVal.optional (JsVal.getField "length") data.messageContent
     (if contentLength.truthy then contentLength else JsVal.num 0).toJsString.isNone)

/-- The `try` block shared, up to the text of the log line, by
fetchCommandResponse (lines 539-561), fetchCategoryResponse (lines 466-489) and
fetchNewsRaw (lines 139-147): post, log, `return response.data`. -/
def rawTryBlock : TransportOutcome → Except (Option Int) JsVal
  | .httpError status => .error (some status)
  | .failed => .error none
  | .resolved data => if successLogThrows data then .error none else .ok data

/-- The fallback object literal `{ choices: [], usage: { prompt_tokens: 0,
completion_tokens: 0, total_tokens: 0 }, error }`. -/
def fallbackObject (error : String) : JsVal :=
  .obj [("choices", .arr []),
        ("usage", .obj [("prompt_tokens", .num 0), ("completion_tokens", .num 0),
                        ("total_tokens", .num 0)]),
        ("error", .str error)]

/-- The retry loop of fetchCommandResponse (lines 538-578). -/
def fetchCommandResponse.loop (req : Request) (transport : Transport) (retries : Nat) :
    Nat → Nat → List Event → Run
  | 0, _, trace => ⟨.returned .undefined, trace⟩
  | remaining + 1, attempt, trace =>
    match rawTryBlock (transport attempt) with
    | .ok data => ⟨.returned data, trace ++ [.post req]⟩
    | .error status =>
      if status = some 429 then
        ⟨.threw (.error "Sonar API rate limit exceeded"), trace ++ [.post req]⟩
      else if attempt = retries then
        ⟨.returned (fallbackObject "Chat command service is temporarily unavailable."),
          trace ++ [.post req]⟩
      else
        fetchCommandResponse.loop req transport retries remaining (attempt + 1)
          (trace ++ [.post req, .sleep (500 * attempt)])

/-- The function `fetchCommandResponse(command)` of sonarChatService.js.  The first
log line interpolates `command`, which throws when it has no string conversion;
an inherited `config` has no `category`, so `config.category.toUpperCase()` throws. -/
def fetchCommandResponse (rt : Runtime) (transport : Transport) (command : JsVal) : Run :=
  match command.toJsString with
  | none => ⟨.threw .typeError, []⟩
  | some _ =>
    match command with
    | .str s =>
      if s = "" ∨ jsLength (jsTrim s) = 0 then ⟨.threw (.error "Invalid command"), []⟩
      else
        let trimmedCommand := rt.toUpperCase (jsTrim s)
        match lookupProperty COMMAND_CONFIGS trimmedCommand with
        | .absent => ⟨.threw (.error ("Invalid command: " ++ trimmedCommand)), []⟩
        | .inherited => ⟨.threw .typeError, []⟩
        | .own config =>
          if trimmedCommand ≠ rt.toUpperCase config.category then
            ⟨.threw (.error ("Invalid " ++ trimmedCommand ++ " command")), []⟩
          else
            fetchCommandResponse.loop
              ⟨rt.apiUrl, rt.bearer, config.model, config.prompt, 1000, 90000⟩
              transport 3 3 1 []
    | _ => ⟨.threw (.error "Invalid command"), []⟩

/-- The retry loop of fetchCategoryResponse (sonarIQService.js, lines 465-511). -/
def fetchCategoryResponse.loop (req : Request) (transport : Transport) (retries : Nat) :
    Nat → Nat → List Event → Run
  | 0, _, trace => ⟨.returned .undefined, trace⟩
  | remaining + 1, attempt, trace =>
    match rawTryBlock (transport attempt) with
    | .ok data => ⟨.returned data, trace ++ [.post req]⟩
    | .error status =>
      if status = some 429 then
        ⟨.threw (.error "Sonar API rate limit exceeded"), trace ++ [.post req]⟩
      else if status = some 401 then
        ⟨.threw (.error "Sonar API authentication failed: Invalid or missing API key"),
          trace ++ [.post req]⟩
      else if attempt = retries then
        ⟨.returned (fallbackObject "Analysis service temporarily unavailable."),
          trace ++ [.post req]⟩
      else
        fetchCategoryResponse.loop req transport retries remaining (attempt + 1)
          (trace ++ [.post req, .sleep (500 * attempt)])

/-- A validation failure whose `console.error` line interpolates the offending
value: a TypeError when the value has no string conversion, otherwise the Error
with the message built from that conversion. -/
def rejectLogged (v : JsVal) (message : String → String) : Run :=
  match v.toJsString with
  | none => ⟨.threw .typeError, []⟩
  | some shown => ⟨.threw (.error (message shown)), []⟩

/-- The test `!v || typeof v !== 'string' || v.trim().length === 0`. -/
def isBlank : JsVal → Bool
  | .str s => s == "" || jsLength (jsTrim s) == 0
  | _ => true

/-- The text of a string value (the empty string for any other value). -/
def JsVal.text : JsVal → String
  | .str s => s
  | _ => ""

/-- The function `fetchCategoryResponse(coinName, chain, category)` of
sonarIQService.js.  An inherited `config` has no `prompt`, so `config.prompt.replace`
throws. -/
def fetchCategoryResponse (rt : Runtime) (transport : Transport)
    (coinName chain category : JsVal) : Run :=
  if isBlank coinName then rejectLogged coinName (fun _ => "Invalid coin name")
  else if isBlank chain then rejectLogged chain (fun _ => "Invalid chain")
  else
    match category with
    | .str cat =>
      if cat = "" then ⟨.threw (.error "Invalid category: "), []⟩
      else
        let trimmedCoinName := jsTrim coinName.text
        let trimmedChain := jsTrim chain.text
        let categoryLower := rt.toLowerCase cat
        match lookupProperty CATEGORY_CONFIGS categoryLower with
        | .absent =>
          ⟨.threw (.error ("Configuration not found for category: " ++ categoryLower)), []⟩
        | .inherited => ⟨.threw .typeError, []⟩
        | .own config =>
          let userPrompt := replaceLiteralAll "\x7b\x7bchain\x7d\x7d" trimmedChain
            (replaceLiteralAll "\x7b\x7bcoinName\x7d\x7d" trimmedCoinName config.prompt)
          match rt.SONAR_API_KEY with
          | none => ⟨.threw (.error "Sonar API key missing"), []⟩
          | some apiKey =>
            if apiKey = "" then ⟨.threw (.error "Sonar API key missing"), []⟩
            else
              fetchCategoryResponse.loop
                ⟨rt.apiUrl, rt.bearer, config.model, userPrompt, 1000, 120000⟩
                transport 3 3 1 []
    | _ => rejectLogged category (fun shown => "Invalid category: " ++ shown)

/-- The retry loop of fetchNewsRaw (sonarNewsService.js, lines 137-166). -/
def fetchNewsRaw.loop (req : Request) (transport : Transport) (retries : Nat) :
    Nat → Nat → List Event → Run
  | 0, _, trace => ⟨.returned .undefined, trace⟩
  | remaining + 1, attempt, trace =>
    match rawTryBlock (transport attempt) with
    | .ok data => ⟨.returned data, trace ++ [.post req]⟩
    | .error status =>
      if status = some 429 then
        ⟨.threw (.error "Sonar API rate limit exceeded"), trace ++ [.post req]⟩
      else if status = some 401 then
        ⟨.threw (.error "Sonar API authentication failed: Invalid or missing API key"),
          trace ++ [.post req]⟩
      else if attempt = retries then
        ⟨.returned (fallbackObject "News service temporarily unavailable."),
          trace ++ [.post req]⟩
      else
        fetchNewsRaw.loop req transport retries remaining (attempt + 1)
          (trace ++ [.post req, .sleep (500 * attempt)])

/-- The expression `Array.isArray(interests) && interests.length > 0 ?
interests.join(', ') : 'cryptocurrency market trends'`, `none` when `join` throws. -/
def newsNiche : JsVal → Option String
  | .arr [] => some "cryptocurrency market trends"
  | .arr items => JsVal.joinItems ", " items
  | _ => some "cryptocurrency market trends"

/-- The test `ALLOWED_INTERESTS.includes(interest)`. -/
def isAllowedInterest : JsVal → Bool
  | .str s => ALLOWED_INTERESTS.contains s
  | _ => false

/-- The first element at which the validation loop over `interests` throws, if any;
the loop is skipped when `interests` is not an array. -/
def firstInvalidInterest : JsVal → Option JsVal
  | .arr items => items.find? (fun interest => !isAllowedInterest interest)
  | _ => none

/-- The template literal `userPrompt` of fetchNewsRaw (lines 109-111). -/
def newsUserPrompt (niche : String) (targetDays : Int) : String :=
  "\n  Fetch up to 8 recent, specific items (articles, discussions, or reports) for \"" ++ niche ++
  "\" published within the last " ++ toString targetDays ++
  " days. Ensure diverse domains and subtopics, avoiding generic news roundups, paywalled content, or repetitive sources. Respond with a JSON object matching the provided schema.\n  "

/-- The function `fetchNewsRaw(interests, days)` of sonarNewsService.js. -/
def fetchNewsRaw (rt : Runtime) (transport : Transport) (interests days : JsVal) : Run :=
  match newsNiche interests with
  | none => ⟨.threw .typeError, []⟩
  | some niche =>
    match jsParseInt days with
    | none => ⟨.threw .typeError, []⟩
    | some none => ⟨.threw (.error "Days must be between 1 and 30"), []⟩
    | some (some targetDays) =>
      if targetDays < 1 ∨ targetDays > 30 then
        ⟨.threw (.error "Days must be between 1 and 30"), []⟩
      else
        match firstInvalidInterest interests with
        | some interest =>
          rejectLogged interest (fun shown => "Invalid interest: " ++ shown ++
            ". Must be one of " ++ ", ".intercalate ALLOWED_INTERESTS)
        | none =>
          match rt.SONAR_API_KEY with
          | none => ⟨.threw (.error "Sonar API key is not configured"), []⟩
          | some apiKey =>
            if apiKey = "" then ⟨.threw (.error "Sonar API key is not configured"), []⟩
            else
              fetchNewsRaw.loop
                ⟨rt.apiUrl, rt.bearer, "sonar", newsUserPrompt niche targetDays, 1000, 120000⟩
                transport 3 3 1 []

/-! ## Vocabulary of the statements -/

/-- The transport call is rejected with an error that is not one of the given
terminal HTTP statuses: an HTTP error with any other status, or an error without
response (timeout, network failure). -/
def TransportOutcome.isTransientError (terminal : List Int) : TransportOutcome → Bool
  | .httpError status => !terminal.contains status
  | .failed => true
  | .resolved _ => false

/-- Attempts 1 to k-1 are all rejected with transient errors. -/
def transientBefore (terminal : List Int) (transport : Transport) (k : Nat) : Prop :=
  ∀ i, 1 ≤ i → i < k → (transport i).isTransientError terminal = true

/-- Whether `!apiKey` is false, that is `SONAR_API_KEY` is set and not empty. -/
def Runtime.hasApiKey (rt : Runtime) : Bool :=
  match rt.SONAR_API_KEY with
  | some apiKey => apiKey != ""
  | none => false

/-- The inputs of fetchChatResponse that pass its validation: a string that is
not blank and whose trimmed length is at most 1000. -/
def chatAccepted (userPrompt : JsVal) : Bool :=
  !isBlank userPrompt && decide (jsLength (jsTrim userPrompt.text) ≤ 1000)

/-- The inputs of fetchCommandResponse that pass its validation: a non-blank
string whose trimmed upper-cased form is an own key of COMMAND_CONFIGS and equals
the upper-cased `category` of that entry. -/
def commandAccepted (rt : Runtime) (command : JsVal) : Bool :=
  !isBlank command &&
    (match lookupProperty COMMAND_CONFIGS (rt.toUpperCase (jsTrim command.text)) with
     | .own config => rt.toUpperCase (jsTrim command.text) == rt.toUpperCase config.category
     | _ => false)

/-- The inputs of fetchCategoryResponse that pass its validation: non-blank
strings `coinName` and `chain`, a non-empty string `category` whose lower-cased
form is an own key of CATEGORY_CONFIGS, and a configured API key. -/
def categoryAccepted (rt : Runtime) (coinName chain category : JsVal) : Bool :=
  !isBlank coinName && !isBlank chain &&
    (match category with
     | .str cat => cat != "" &&
        (match lookupProperty CATEGORY_CONFIGS (rt.toLowerCase cat) with
         | .own _ => true
         | _ => false)
     | _ => false) &&
    rt.hasApiKey

/-- The inputs of fetchNewsRaw that pass its validation: `interests` can be joined,
`parseInt(days, 10)` is between 1 and 30, every interest is allowed, and the API
key is configured. -/
def newsAccepted (rt : Runtime) (interests days : JsVal) : Bool :=
  (newsNiche interests).isSome &&
    (match jsParseInt days with
     | some (some targetDays) => decide (1 ≤ targetDays ∧ targetDays ≤ 30)
     | _ => false) &&
    (firstInvalidInterest interests).isNone &&
    rt.hasApiKey

/-- The trace of a run that makes k attempts: a post per attempt and, before
attempt n + 1, a wait of 500 n milliseconds. -/
def retryTrace (req : Request) : Nat → List Event
  | 0 => []
  | 1 => [.post req]
  | n + 2 => retryTrace req (n + 1) ++ [.sleep (500 * (n + 1)), .post req]

/-- A runtime for concrete evaluations: an API key, the default URL, and the case
mappings of the engine restricted to what they do on ASCII letters. -/
def asciiRuntime : Runtime :=
  ⟨some "test-key", none, fun s => ⟨s.data.map Char.toLower⟩, fun s => ⟨s.data.map Char.toUpper⟩⟩

/-- The trace shape of a run in which all three attempts are made. -/
def fullShape : List (Option Nat) := [none, some 500, none, some 1000, none]

/-- An attempt of the command, category or news path that ends in the `catch`
clause without a terminal status: a transient transport error, or a response on
which the success log line throws. -/
def rawAttemptFails (terminal : List Int) : TransportOutcome → Bool
  | .resolved data => successLogThrows data
  | outcome => outcome.isTransientError terminal

/-- The text of `choices[0].message.content` of a response body, when the body is
not nullish and that content is a string. -/
def contentText (data : JsVal) : Option String :=
  if data.isNullish then none
  else
    match data.messageContent with
    | .str content => some content
    | _ => none

/-- The content of a response body is missing (or not a string), empty, or shorter
than 20 UTF-16 code units after trimming. -/
def contentUnusable (data : JsVal) : Bool :=
  match contentText data with
  | none => true
  | some content => decide (jsLength (jsTrim content) < 20)

/-- An attempt of fetchChatResponse that fails without a terminal status: a
transient transport error, or a response with unusable content. -/
def chatAttemptFails : TransportOutcome → Bool
  | .resolved data => contentUnusable data
  | outcome => outcome.isTransientError [429]

/-! ## The four loops as one

The loops differ in three places only: the `try` block, the statuses the `catch`
clause turns into a thrown error, and the fallback value.  `retryLoop` abstracts
over them; each loop of the source is proved equal to an instance of it, and the
properties of the loops are proved once. -/

/-- What one iteration does with a transport outcome: settle the promise, or go on
to the `attempt === retries` test. -/
inductive Verdict where
  | settle (c : Completion)
  | retry

/-- The verdict of an iteration with the given `try` block and terminal statuses. -/
def verdict (tryBlock : TransportOutcome → Except (Option Int) JsVal)
    (terminal : Option Int → Option String) (outcome : TransportOutcome) : Verdict :=
  match tryBlock outcome with
  | .ok value => .settle (.returned value)
  | .error status =>
    match terminal status with
    | some message => .settle (.threw (.error message))
    | none => .retry

/-- The retry loop with its three varying parts as parameters. -/
def retryLoop (tryBlock : TransportOutcome → Except (Option Int) JsVal)
    (terminal : Option Int → Option String) (fallback : JsVal)
    (req : Request) (transport : Transport) (retries : Nat) :
    Nat → Nat → List Event → Run
  | 0, _, trace => ⟨.returned .undefined, trace⟩
  | remaining + 1, attempt, trace =>
    match verdict tryBlock terminal (transport attempt) with
    | .settle c => ⟨c, trace ++ [.post req]⟩
    | .retry =>
      if attempt = retries then ⟨.returned fallback, trace ++ [.post req]⟩
      else
        retryLoop tryBlock terminal fallback req transport retries remaining (attempt + 1)
          (trace ++ [.post req, .sleep (500 * attempt)])

/-- The terminal statuses of the chat paths: 429 only. -/
def terminalRateLimit (status : Option Int) : Option String :=
  if status = some 429 then some "Sonar API rate limit exceeded" else none

/-- The terminal statuses of the category and news paths: 429 and 401. -/
def terminalRateLimitOrAuth (status : Option Int) : Option String :=
  if status = some 429 then some "Sonar API rate limit exceeded"
  else if status = some 401 then
    some "Sonar API authentication failed: Invalid or missing API key"
  else none

/-- The fallback string of fetchChatResponse. -/
def chatFallback : JsVal :=
  .str "Sorry, our chat service is temporarily unavailable. Please try again later."

/-! ## The sanitizer of the chat service -/

/-- The image of a character under `.replace(/"/g, '\\"')`: a double quote becomes
a backslash followed by the quote (the replacement text holds no `$`). -/
def escapeQuote (c : Char) : List Char :=
  if c.toNat = 34 then [Char.ofNat 92, c] else [c]

/-- The image of a character under `.replace(/[\n\r\t]/g, ' ')`. -/
def blankControl (c : Char) : List Char :=
  if c.toNat = 10 ∨ c.toNat = 13 ∨ c.toNat = 9 then [Char.ofNat 32] else [c]

/-- The image of a character under `.replace(/[^\x20-\x7E]/g, '')`.  The regular
expression has no `u` flag, so a character outside the Basic Multilingual Plane is
two code units, each of them outside the class: it is removed as a whole. -/
def dropNonPrintable (c : Char) : List Char :=
  if 32 ≤ c.toNat ∧ c.toNat ≤ 126 then [c] else []

/-- The function `sanitizeJsonString(str)` of sonarChatService.js (lines 425-431):
a value that is not a string is returned as it is, a string goes through the three
`replace` calls in order. -/
def sanitizeJsonString : JsVal → JsVal
  | .str s =>
    .str ⟨((s.data.flatMap escapeQuote).flatMap blankControl).flatMap dropNonPrintable⟩
  | v => v

/-! ## The IQScore controller -/

/-- The array `VALID_CATEGORIES` of IQScoreController.js. -/
def VALID_CATEGORIES : List String :=
  ["audit", "code_quality", "ecosystem_adoption", "goal", "governance", "market",
   "regulatory_compliance", "scam", "sentiment", "team", "tokenomics", "value", "whitepaper"]

/-- The value a unit leaves in `results`: `success response` is the object
`{ status: 'success', response }`, and `error e` is the object
`{ status: 'error', response: { error: e.message } }`. -/
inductive Entry where
  | success (response : JsVal)
  | error (e : Thrown)

/-- The `status` field of an entry. -/
def Entry.status : Entry → String
  | .success _ => "success"
  | .error _ => "error"

/-- How a promise of `analysisPromises` settles, as `Promise.allSettled` reports it:
fulfilled with `{ category, status, response }`, or rejected with a reason. -/
inductive Settled where
  | fulfilled (category : String) (entry : Entry)
  | rejected (reason : Thrown)

/-- The chain `fetchCategoryResponse(...).then(...).catch(...)` of one unit (lines
59-61): a returned response is tagged `success`, a thrown error is caught and
tagged `error`. -/
def analysisPromise (category : String) (run : Run) : Settled :=
  match run.completion with
  | .returned response => .fulfilled category (.success response)
  | .threw error => .fulfilled category (.error error)

/-- The assignment `results[key] = value` on an object built from string keys other
than `__proto__`: an existing property keeps its place and takes the new value, a
new property is added last. -/
def setProperty (results : List (String × Entry)) (key : String) (value : Entry) :
    List (String × Entry) :=
  if results.any (fun kv => kv.1 == key) then
    results.map (fun kv => if kv.1 == key then (key, value) else kv)
  else results ++ [(key, value)]

/-- The entry written in the `rejected` branch (lines 73-75): the error text is
`result.reason?.message || 'Unknown error'`. -/
def rejectionEntry : Thrown → Entry
  | .error message => .error (.error (if message = "" then "Unknown error" else message))
  | .typeError => .error .typeError

/-- The callback of `analysisResults.forEach` (lines 67-78).  A rejection reason is
an Error, which has no `category`, so the `rejected` branch writes under
`'unknown'`. -/
def recordResult (results : List (String × Entry)) : Settled → List (String × Entry)
  | .fulfilled category entry => setProperty results category entry
  | .rejected reason => setProperty results "unknown" (rejectionEntry reason)

/-- The body of a reply sent with `res.status(...).json(...)`: the object
`{ message, errorCode }`, a raw payload, the object `{ results }`, or the object
`{ message, errorCode }` whose message is the engine's text of a TypeError. -/
inductive ReplyBody where
  | failure (message errorCode : String)
  | raw (payload : JsVal)
  | results (results : List (String × Entry))
  | engineFailure (errorCode : String)

/-- How a request handler ends: it sends a reply, or it throws before sending one
(outside any `try`). -/
inductive HandlerOutcome where
  | replied (status : Nat) (body : ReplyBody)
  | threw (e : Thrown)

/-- One execution of a request handler: how it ends, and the runs of the service
calls it launched, in launch order. -/
structure Handled where
  outcome : HandlerOutcome
  units : List Run

/-- The number of transport invocations made on behalf of a handled request. -/
def Handled.invocations (h : Handled) : Nat := (h.units.map Run.invocations).sum

/-- The test `typeof v !== 'string' || v.trim().length === 0 || v.trim().length > 100`
applied to `asset` and `network`. -/
def isInvalidName : JsVal → Bool
  | .str s => jsLength (jsTrim s) == 0 || decide (jsLength (jsTrim s) > 100)
  | _ => true

/-- The call `items.map(c => c.toLowerCase())`, `none` when it throws a TypeError:
an element that is not a string has no callable `toLowerCase`. -/
def lowerAll (rt : Runtime) : List JsVal → Option (List String)
  | [] => some []
  | .str c :: rest => (lowerAll rt rest).map (fun lowered => rt.toLowerCase c :: lowered)
  | _ :: _ => none

/-- The variable `selectedCategories` after line 44: the request's categories, or
VALID_CATEGORIES when `categories` is not a non-empty array, lower-cased. -/
def selectedCategories (rt : Runtime) : JsVal → Option (List String)
  | .arr [] => some (VALID_CATEGORIES.map rt.toLowerCase)
  | .arr items => lowerAll rt items
  | _ => some (VALID_CATEGORIES.map rt.toLowerCase)

/-- The units launched by `selectedCategories.map(...)` (lines 58-62), each with
its category.  The units run concurrently; `transports i` is the oracle for the
calls of `axios.post` made by the unit at position i. -/
def launchUnits (rt : Runtime) (transports : Nat → Transport) (asset network : String) :
    Nat → List String → List (String × Run)
  | _, [] => []
  | i, category :: rest =>
    (category, fetchCategoryResponse rt (transports i) (.str asset) (.str network)
      (.str category)) :: launchUnits rt transports asset network (i + 1) rest

/-- The object `results` after the `forEach` (lines 64-78). -/
def collectResults (units : List (String × Run)) : List (String × Entry) :=
  (units.map (fun unit => analysisPromise unit.1 unit.2)).foldl recordResult []

/-- The handler `processIQScoreRequest(req, res, next)` of IQScoreController.js, as
a function of the fields `asset`, `network` and `categories` of `req.body`
(`undefined` when absent).  The `console.error` lines of the asset and network
checks interpolate the value, which throws when it has no string conversion.
No statement of the `try` block throws (the arguments of every call are strings
and every unit promise is fulfilled), so its `catch` clause is never entered. -/
def processIQScoreRequest (rt : Runtime) (transports : Nat → Transport)
    (asset network categories : JsVal) : Handled :=
  if !asset.truthy || !network.truthy then
    ⟨.replied 400 (.failure "Asset and network are required." "INVALID_INPUT"), []⟩
  else if isInvalidName asset then
    match asset.toJsString with
    | none => ⟨.threw .typeError, []⟩
    | some _ =>
      ⟨.replied 400 (.failure "Asset must be a string between 1 and 100 characters."
        "INVALID_ASSET"), []⟩
  else if isInvalidName network then
    match network.toJsString with
    | none => ⟨.threw .typeError, []⟩
    | some _ =>
      ⟨.replied 400 (.failure "Network must be a string between 1 and 100 characters."
        "INVALID_NETWORK"), []⟩
  else
    match selectedCategories rt categories with
    | none => ⟨.threw .typeError, []⟩
    | some selected =>
      let invalidCategories := selected.filter (fun c => !VALID_CATEGORIES.contains c)
      if invalidCategories.length > 0 then
        ⟨.replied 400 (.failure
          ("Invalid categories: " ++ ", ".intercalate invalidCategories ++
            ". Must be one of " ++ ", ".intercalate VALID_CATEGORIES ++ ".")
          "INVALID_CATEGORIES"), []⟩
      else
        let units := launchUnits rt transports (jsTrim asset.text) (jsTrim network.text)
          0 selected
        ⟨.replied 200 (.results (collectResults units)), units.map (fun unit => unit.2)⟩

/-! ## Vocabulary of the statements, continued -/

/-- The user prompts of the requests posted by a run, in order. -/
def Run.prompts (r : Run) : List String :=
  r.trace.filterMap (fun e => match e with
    | .post req => some req.userPrompt
    | .sleep _ => none)

/-- Two characters that are equal or are the upper-case and lower-case form of the
same ASCII letter. -/
def sameLetter (c d : Char) : Prop :=
  c = d ∨ (65 ≤ c.toNat ∧ c.toNat ≤ 90 ∧ d.toNat = c.toNat + 32) ∨
    (65 ≤ d.toNat ∧ d.toNat ≤ 90 ∧ c.toNat = d.toNat + 32)

/-- Two strings that differ only in letter case: the same length and, position by
position, the same letter. -/
def differOnlyInCase (a b : String) : Prop :=
  List.Forall₂ sameLetter a.data b.data

/-- The case mappings of the runtime send strings that differ only in letter case
to the same lower-case form and to the same upper-case form. -/
def Runtime.caseInsensitive (rt : Runtime) : Prop :=
  ∀ a b, differOnlyInCase a b →
    rt.toLowerCase a = rt.toLowerCase b ∧ rt.toUpperCase a = rt.toUpperCase b

/-- The scan of `substituteLiteral`: `skip` characters of the current occurrence
are still to be passed over. -/
def substituteScan (pat value : List Char) : Nat → List Char → List Char
  | _, [] => []
  | skip + 1, _ :: rest => substituteScan pat value skip rest
  | 0, c :: rest =>
    if pat.isPrefixOf (c :: rest) then
      value ++ substituteScan pat value (pat.length - 1) rest
    else c :: substituteScan pat value 0 rest

/-- The text `s` with every occurrence of the non-empty text `pat`, from left to
right and without overlap, replaced by the literal text `value`. -/
def substituteLiteral (pat value s : String) : String :=
  ⟨substituteScan pat.data value.data 0 s.data⟩

/-- The image of a character under the sanitization rule of the specification: a
tab, newline or carriage return becomes one space, any other character outside
0x20-0x7E is removed; on printable characters the rule says nothing, and
`sanitizeJsonString` keeps them except that it escapes the double quote. -/
def sanitizedImage (c : Char) : List Char :=
  if c.toNat = 9 ∨ c.toNat = 10 ∨ c.toNat = 13 then [Char.ofNat 32]
  else if c.toNat = 34 then [Char.ofNat 92, c]
  else if 32 ≤ c.toNat ∧ c.toNat ≤ 126 then [c]
  else []

/-- Every character of the string is printable ASCII (0x20-0x7E). -/
def isPrintableAscii (s : String) : Prop :=
  ∀ c ∈ s.data, 32 ≤ c.toNat ∧ c.toNat ≤ 126

/-- The entry a unit leaves in `results` when its promise is fulfilled: tagged
`success` when fetchCategoryResponse returned, `error` when it threw. -/
def Run.entry (r : Run) : Entry :=
  match r.completion with
  | .returned response => .success response
  | .threw error => .error error

/-- The request passes the validation of processIQScoreRequest, `selected` being
its lower-cased category list: `asset` and `network` are strings of trimmed length
1 to 100, `categories` can be lower-cased, and every lower-cased category is in
VALID_CATEGORIES. -/
def iqAccepted (rt : Runtime) (asset network categories : JsVal)
    (selected : List String) : Prop :=
  isInvalidName asset = false ∧ isInvalidName network = false ∧
    selectedCategories rt categories = some selected ∧ ∀ c ∈ selected, c ∈ VALID_CATEGORIES

/-! ## The news controller -/

/-- The scan of `jsIncludes`: the text, or one of its suffixes, starts with `sub`. -/
def includesScan (sub : List Char) : List Char → Bool
  | [] => sub.isEmpty
  | c :: rest => sub.isPrefixOf (c :: rest) || includesScan sub rest

/-- The call `s.includes(sub)` of String.prototype. -/
def jsIncludes (s sub : String) : Bool := includesScan sub.data s.data

/-- The status code and the error code the `catch` clause of processNewsRequest
picks from `error.message` (newsController.js, lines 46-47): the test for
`'API key'` comes first. -/
def newsErrorStatus (message : String) : Nat × String :=
  if jsIncludes message "API key" then (401, "AUTH_FAILED")
  else if jsIncludes message "rate limit" then (429, "RATE_LIMIT_EXCEEDED")
  else (500, "PROCESS_NEWS_ERROR")

/-- The variable `interestArray` after line 31: the array itself, a truthy value
that is not an array wrapped in an array, and the default topic for a falsy value
or an empty array. -/
def newsInterestArray : JsVal → List JsVal
  | .arr [] => [.str "cryptocurrency market trends"]
  | .arr items => items
  | v => if v.truthy then [v] else [.str "cryptocurrency market trends"]

/-- The expression `parseInt(days, 10) || 7` on the number read by parseInt: NaN
and 0 are falsy, so both give 7. -/
def newsTargetDays : Option Int → Int
  | some n => if n = 0 then 7 else n
  | none => 7

/-- The reply of the `catch` clause of processNewsRequest (lines 44-49).  The
message of a TypeError is the text of the engine; it is taken to contain neither
`'API key'` nor `'rate limit'`. -/
def newsCatch : Thrown → HandlerOutcome
  | .error message =>
    .replied (newsErrorStatus message).1 (.failure message (newsErrorStatus message).2)
  | .typeError => .replied 500 (.engineFailure "PROCESS_NEWS_ERROR")

/-- The handler `processNewsRequest(req, res, next)` of newsController.js, as a
function of the fields `interests` and `days` of `req.body` (`undefined` when
absent).  Inside the `try` block `parseInt(days, 10)` converts `days` to a string,
the log line of line 40 joins `interestArray`, and the log line of line 42 calls
`Object.keys(rawResponse)`: each of them can throw a TypeError, which the `catch`
clause answers like any other error. -/
def processNewsRequest (rt : Runtime) (transport : Transport)
    (interests days : JsVal) : Handled :=
  if !interests.truthy && !days.truthy then
    ⟨.replied 400 (.failure "Either interests or days must be provided." "INVALID_INPUT"), []⟩
  else
    let interestArray := newsInterestArray interests
    match jsParseInt days with
    | none => ⟨newsCatch .typeError, []⟩
    | some parsed =>
      let targetDays := newsTargetDays parsed
      if targetDays < 1 ∨ targetDays > 30 then
        ⟨.replied 400 (.failure "Days must be between 1 and 30." "INVALID_DAYS"), []⟩
      else
        match JsVal.joinItems ", " interestArray with
        | none => ⟨newsCatch .typeError, []⟩
        | some _ =>
          let run := fetchNewsRaw rt transport (.arr interestArray) (.num targetDays)
          match run.completion with
          | .returned rawResponse =>
            if rawResponse.isNullish then ⟨newsCatch .typeError, [run]⟩
            else ⟨.replied 200 (.raw rawResponse), [run]⟩
          | .threw error => ⟨newsCatch error, [run]⟩

/-- The case mappings of the runtime act on a string of ASCII characters as the
ASCII case mappings do, character by character. -/
def Runtime.mapsAsciiCase (rt : Runtime) : Prop :=
  ∀ s : String, (∀ c ∈ s.data, c.toNat < 128) →
    rt.toLowerCase s = ⟨s.data.map Char.toLower⟩ ∧
      rt.toUpperCase s = ⟨s.data.map Char.toUpper⟩

/-- The three ways a call that entered its retry loop completes: the error of a
terminal status met on one of the attempts 1 to 3 is thrown, the fallback is
returned, or the value that the `try` block of one of the attempts 1 to 3 returns
is returned. -/
def completesWith (tryBlock : TransportOutcome → Except (Option Int) JsVal)
    (terminal : Option Int → Option String) (fallback : JsVal) (t : Transport)
    (c : Completion) : Prop :=
  (∃ k status message, 1 ≤ k ∧ k ≤ 3 ∧ tryBlock (t k) = .error status ∧
      terminal status = some message ∧ c = .threw (.error message)) ∨
    c = .returned fallback ∨
    (∃ k value, 1 ≤ k ∧ k ≤ 3 ∧ tryBlock (t k) = .ok value ∧ c = .returned value)

/-- A transport for concrete evaluations: every call succeeds with a body whose
`choices` is empty. -/
def emptyChoices : Transport := fun _ => .resolved (.obj [("choices", .arr [])])

/-! ## The loops of the source are instances of the generic loop -/

theorem fetchChatResponse_loop_eq (req : Request) (t : Transport) (retries : Nat) :
    ∀ (remaining attempt : Nat) (trace : List Event),
      fetchChatResponse.loop req t retries remaining attempt trace =
        retryLoop fetchChatResponse.tryBlock terminalRateLimit chatFallback
          req t retries remaining attempt trace := by
  intro remaining
  induction remaining with
  | zero => intro attempt trace; rfl
  | succ n ih =>
    intro attempt trace
    simp only [fetchChatResponse.loop, retryLoop, verdict, terminalRateLimit, chatFallback, ih]
    cases fetchChatResponse.tryBlock (t attempt) with
    | ok v => rfl
    | error status =>
      by_cases h : status = some 429 <;> simp [h]

theorem fetchCommandResponse_loop_eq (req : Request) (t : Transport) (retries : Nat) :
    ∀ (remaining attempt : Nat) (trace : List Event),
      fetchCommandResponse.loop req t retries remaining attempt trace =
        retryLoop rawTryBlock terminalRateLimit
          (fallbackObject "Chat command service is temporarily unavailable.")
          req t retries remaining attempt trace := by
  intro remaining
  induction remaining with
  | zero => intro attempt trace; rfl
  | succ n ih =>
    intro attempt trace
    simp only [fetchCommandResponse.loop, retryLoop, verdict, terminalRateLimit, ih]
    cases rawTryBlock (t attempt) with
    | ok v => rfl
    | error status =>
      by_cases h : status = some 429 <;> simp [h]

theorem fetchCategoryResponse_loop_eq (req : Request) (t : Transport) (retries : Nat) :
    ∀ (remaining attempt : Nat) (trace : List Event),
      fetchCategoryResponse.loop req t retries remaining attempt trace =
        retryLoop rawTryBlock terminalRateLimitOrAuth
          (fallbackObject "Analysis service temporarily unavailable.")
          req t retries remaining attempt trace := by
  intro remaining
  induction remaining with
  | zero => intro attempt trace; rfl
  | succ n ih =>
    intro attempt trace
    simp only [fetchCategoryResponse.loop, retryLoop, verdict, terminalRateLimitOrAuth, ih]
    cases rawTryBlock (t attempt) with
    | ok v => rfl
    | error status =>
      by_cases h : status = some 429 <;> by_cases h2 : status = some 401 <;> simp [h, h2]

theorem fetchNewsRaw_loop_eq (req : Request) (t : Transport) (retries : Nat) :
    ∀ (remaining attempt : Nat) (trace : List Event),
      fetchNewsRaw.loop req t retries remaining attempt trace =
        retryLoop rawTryBlock terminalRateLimitOrAuth
          (fallbackObject "News service temporarily unavailable.")
          req t retries remaining attempt trace := by
  intro remaining
  induction remaining with
  | zero => intro attempt trace; rfl
  | succ n ih =>
    intro attempt trace
    simp only [fetchNewsRaw.loop, retryLoop, verdict, terminalRateLimitOrAuth, ih]
    cases rawTryBlock (t attempt) with
    | ok v => rfl
    | error status =>
      by_cases h : status = some 429 <;> by_cases h2 : status = some 401 <;> simp [h, h2]

/-! ## From the functions to their loops -/

theorem fetchChatResponse_cases (rt : Runtime) (t : Transport) (userPrompt : JsVal) :
    (fetchChatResponse rt t userPrompt).trace = [] ∨
      ∃ req, fetchChatResponse rt t userPrompt =
        retryLoop fetchChatResponse.tryBlock terminalRateLimit chatFallback req t 3 3 1 [] := by
  unfold fetchChatResponse
  split
  · split
    · exact Or.inl rfl
    · dsimp only
      split
      · exact Or.inl rfl
      · exact Or.inr ⟨_, fetchChatResponse_loop_eq _ _ _ _ _ _⟩
  · exact Or.inl rfl

theorem fetchChatResponse_accepted (rt : Runtime) (t : Transport) (userPrompt : JsVal)
    (h : chatAccepted userPrompt = true) :
    ∃ req, fetchChatResponse rt t userPrompt =
      retryLoop fetchChatResponse.tryBlock terminalRateLimit chatFallback req t 3 3 1 [] := by
  cases userPrompt with
  | str s =>
    simp [chatAccepted, isBlank, JsVal.text] at h
    refine ⟨⟨rt.apiUrl, rt.bearer, "sonar", jsTrim s, 500, 90000⟩, ?_⟩
    rw [← fetchChatResponse_loop_eq]
    simp [fetchChatResponse, h]
  | _ => simp [chatAccepted, isBlank] at h

theorem rejectLogged_trace (v : JsVal) (message : String → String) :
    (rejectLogged v message).trace = [] := by
  unfold rejectLogged
  split <;> rfl

theorem fetchCommandResponse_cases (rt : Runtime) (t : Transport) (command : JsVal) :
    (fetchCommandResponse rt t command).trace = [] ∨
      ∃ req, fetchCommandResponse rt t command =
        retryLoop rawTryBlock terminalRateLimit
          (fallbackObject "Chat command service is temporarily unavailable.") req t 3 3 1 [] := by
  unfold fetchCommandResponse
  split
  · exact Or.inl rfl
  · split
    · split
      · exact Or.inl rfl
      · dsimp only
        split
        · exact Or.inl rfl
        · exact Or.inl rfl
        · split
          · exact Or.inl rfl
          · exact Or.inr ⟨_, fetchCommandResponse_loop_eq _ _ _ _ _ _⟩
    · exact Or.inl rfl

theorem fetchCommandResponse_accepted (rt : Runtime) (t : Transport) (command : JsVal)
    (h : commandAccepted rt command = true) :
    ∃ req, fetchCommandResponse rt t command =
      retryLoop rawTryBlock terminalRateLimit
        (fallbackObject "Chat command service is temporarily unavailable.") req t 3 3 1 [] := by
  cases command with
  | str s =>
    simp only [commandAccepted, isBlank, JsVal.text, Bool.and_eq_true, Bool.not_eq_true',
      Bool.or_eq_false_iff, beq_eq_false_iff_ne, ne_eq] at h
    obtain ⟨⟨h1, h2⟩, h3⟩ := h
    split at h3
    · rename_i config hcfg
      refine ⟨⟨rt.apiUrl, rt.bearer, config.model, config.prompt, 1000, 90000⟩, ?_⟩
      rw [← fetchCommandResponse_loop_eq]
      have h2' : ¬ jsLength (jsTrim s) = 0 := by simpa using h2
      have h3' : rt.toUpperCase (jsTrim s) = rt.toUpperCase config.category := by simpa using h3
      simp [fetchCommandResponse, JsVal.toJsString, h1, h2', hcfg, ← h3']
    · simp at h3
  | _ => simp [commandAccepted, isBlank] at h

theorem fetchCategoryResponse_cases (rt : Runtime) (t : Transport)
    (coinName chain category : JsVal) :
    (fetchCategoryResponse rt t coinName chain category).trace = [] ∨
      ∃ req, fetchCategoryResponse rt t coinName chain category =
        retryLoop rawTryBlock terminalRateLimitOrAuth
          (fallbackObject "Analysis service temporarily unavailable.") req t 3 3 1 [] := by
  unfold fetchCategoryResponse
  split
  · exact Or.inl (rejectLogged_trace _ _)
  · split
    · exact Or.inl (rejectLogged_trace _ _)
    · split
      · split
        · exact Or.inl rfl
        · dsimp only
          split
          · exact Or.inl rfl
          · exact Or.inl rfl
          · split
            · exact Or.inl rfl
            · split
              · exact Or.inl rfl
              · exact Or.inr ⟨_, fetchCategoryResponse_loop_eq _ _ _ _ _ _⟩
      · exact Or.inl (rejectLogged_trace _ _)

theorem fetchCategoryResponse_accepted (rt : Runtime) (t : Transport)
    (coinName chain category : JsVal)
    (h : categoryAccepted rt coinName chain category = true) :
    ∃ req, fetchCategoryResponse rt t coinName chain category =
      retryLoop rawTryBlock terminalRateLimitOrAuth
        (fallbackObject "Analysis service temporarily unavailable.") req t 3 3 1 [] := by
  simp only [categoryAccepted, Bool.and_eq_true, Bool.not_eq_true', Runtime.hasApiKey] at h
  obtain ⟨⟨⟨h1, h2⟩, h3⟩, h4⟩ := h
  cases category with
  | str cat =>
    simp only [Bool.and_eq_true, bne_iff_ne, ne_eq] at h3
    obtain ⟨h3a, h3b⟩ := h3
    split at h3b
    · rename_i config hcfg
      split at h4
      · rename_i apiKey hkey
        have h4' : ¬ apiKey = "" := by simpa using h4
        refine ⟨⟨rt.apiUrl, rt.bearer, config.model,
          replaceLiteralAll "\x7b\x7bchain\x7d\x7d" (jsTrim chain.text)
            (replaceLiteralAll "\x7b\x7bcoinName\x7d\x7d" (jsTrim coinName.text) config.prompt),
          1000, 120000⟩, ?_⟩
        rw [← fetchCategoryResponse_loop_eq]
        simp [fetchCategoryResponse, h1, h2, h3a, hcfg, hkey, h4']
      · simp at h4
    · simp at h3b
  | _ => simp at h3

theorem fetchNewsRaw_cases (rt : Runtime) (t : Transport) (interests days : JsVal) :
    (fetchNewsRaw rt t interests days).trace = [] ∨
      ∃ req, fetchNewsRaw rt t interests days =
        retryLoop rawTryBlock terminalRateLimitOrAuth
          (fallbackObject "News service temporarily unavailable.") req t 3 3 1 [] := by
  unfold fetchNewsRaw
  split
  · exact Or.inl rfl
  · split
    · exact Or.inl rfl
    · exact Or.inl rfl
    · split
      · exact Or.inl rfl
      · split
        · exact Or.inl (rejectLogged_trace _ _)
        · split
          · exact Or.inl rfl
          · split
            · exact Or.inl rfl
            · exact Or.inr ⟨_, fetchNewsRaw_loop_eq _ _ _ _ _ _⟩

theorem fetchNewsRaw_accepted (rt : Runtime) (t : Transport) (interests days : JsVal)
    (h : newsAccepted rt interests days = true) :
    ∃ req, fetchNewsRaw rt t interests days =
      retryLoop rawTryBlock terminalRateLimitOrAuth
        (fallbackObject "News service temporarily unavailable.") req t 3 3 1 [] := by
  simp only [newsAccepted, Bool.and_eq_true, Runtime.hasApiKey] at h
  obtain ⟨⟨⟨h1, h2⟩, h3⟩, h4⟩ := h
  obtain ⟨niche, hniche⟩ := Option.isSome_iff_exists.mp h1
  have hinv : firstInvalidInterest interests = none := by simpa using h3
  split at h2
  · rename_i targetDays hdays
    have hd : 1 ≤ targetDays ∧ targetDays ≤ 30 := by simpa using h2
    split at h4
    · rename_i apiKey hkey
      have h4' : ¬ apiKey = "" := by simpa using h4
      refine ⟨⟨rt.apiUrl, rt.bearer, "sonar", newsUserPrompt niche targetDays, 1000, 120000⟩, ?_⟩
      rw [← fetchNewsRaw_loop_eq]
      have hlt : ¬ (targetDays < 1 ∨ targetDays > 30) := by omega
      simp [fetchNewsRaw, hniche, hdays, hinv, hkey, h4', hlt]
    · simp at h4
  · simp at h2

/-! ## Properties of the generic loop -/

theorem retryLoop_invocations_le (tryBlock : TransportOutcome → Except (Option Int) JsVal)
    (terminal : Option Int → Option String) (fallback : JsVal)
    (req : Request) (t : Transport) (retries : Nat) :
    ∀ (remaining attempt : Nat) (trace : List Event),
      (retryLoop tryBlock terminal fallback req t retries remaining attempt trace).invocations
        ≤ trace.countP Event.isPost + remaining := by
  intro remaining
  induction remaining with
  | zero => intro attempt trace; simp [retryLoop, Run.invocations]
  | succ n ih =>
    intro attempt trace
    rw [retryLoop]
    split
    · simp [Run.invocations, Event.isPost]
    · split
      · simp [Run.invocations, Event.isPost]
      · refine le_trans (ih _ _) ?_
        simp [Event.isPost]
        omega

theorem retryLoop_settle (tryBlock : TransportOutcome → Except (Option Int) JsVal)
    (terminal : Option Int → Option String) (fallback : JsVal)
    (req : Request) (t : Transport) (k : Nat) (c : Completion)
    (hk1 : 1 ≤ k) (hk3 : k ≤ 3)
    (hprev : ∀ i, 1 ≤ i → i < k → verdict tryBlock terminal (t i) = .retry)
    (hk : verdict tryBlock terminal (t k) = .settle c) :
    retryLoop tryBlock terminal fallback req t 3 3 1 [] = ⟨c, retryTrace req k⟩ := by
  interval_cases k
  · simp [retryLoop, hk, retryTrace]
  · have h1 := hprev 1 (by omega) (by omega)
    simp [retryLoop, hk, h1, retryTrace]
  · have h1 := hprev 1 (by omega) (by omega)
    have h2 := hprev 2 (by omega) (by omega)
    simp [retryLoop, hk, h1, h2, retryTrace]

theorem retryLoop_exhausted (tryBlock : TransportOutcome → Except (Option Int) JsVal)
    (terminal : Option Int → Option String) (fallback : JsVal)
    (req : Request) (t : Transport)
    (hall : ∀ i, 1 ≤ i → i ≤ 3 → verdict tryBlock terminal (t i) = .retry) :
    retryLoop tryBlock terminal fallback req t 3 3 1 [] =
      ⟨.returned fallback, retryTrace req 3⟩ := by
  have h1 := hall 1 (by omega) (by omega)
  have h2 := hall 2 (by omega) (by omega)
  have h3 := hall 3 (by omega) (by omega)
  simp [retryLoop, h1, h2, h3, retryTrace]

theorem retryLoop_reaches (tryBlock : TransportOutcome → Except (Option Int) JsVal)
    (terminal : Option Int → Option String) (fallback : JsVal)
    (req : Request) (t : Transport) (k : Nat) (hk3 : k ≤ 3)
    (hprev : ∀ i, 1 ≤ i → i < k → verdict tryBlock terminal (t i) = .retry) :
    ∃ rest, (retryLoop tryBlock terminal fallback req t 3 3 1 []).trace =
      retryTrace req k ++ rest := by
  interval_cases k
  · exact ⟨_, rfl⟩
  · simp only [retryLoop]
    split
    · exact ⟨_, rfl⟩
    · split
      · exact ⟨_, rfl⟩
      · split
        · exact ⟨_, rfl⟩
        · split
          · exact ⟨_, rfl⟩
          · split
            · exact ⟨_, rfl⟩
            · split
              · exact ⟨_, rfl⟩
              · exact ⟨_, rfl⟩
  · have h1 := hprev 1 (by omega) (by omega)
    simp only [retryLoop, h1]
    split
    · omega
    · split
      · exact ⟨_, rfl⟩
      · split
        · exact ⟨_, rfl⟩
        · split
          · exact ⟨_, rfl⟩
          · split
            · exact ⟨_, rfl⟩
            · exact ⟨_, rfl⟩
  · have h1 := hprev 1 (by omega) (by omega)
    have h2 := hprev 2 (by omega) (by omega)
    simp only [retryLoop, h1, h2]
    split
    · omega
    · split
      · omega
      · split
        · exact ⟨_, rfl⟩
        · split
          · exact ⟨_, rfl⟩
          · exact ⟨_, rfl⟩

theorem retryTrace_invocations (req : Request) (c : Completion) (k : Nat) :
    (Run.mk c (retryTrace req k)).invocations = k := by
  induction k using Nat.strongRecOn with
  | _ k ih =>
    match k with
    | 0 => rfl
    | 1 => rfl
    | n + 2 =>
      have := ih (n + 1) (by omega)
      simp [Run.invocations, retryTrace, Event.isPost] at this ⊢
      omega

theorem retryLoop_shape (tryBlock : TransportOutcome → Except (Option Int) JsVal)
    (terminal : Option Int → Option String) (fallback : JsVal)
    (req : Request) (t : Transport) :
    (retryLoop tryBlock terminal fallback req t 3 3 1 []).shape ∈
      [[none], [none, some 500, none], [none, some 500, none, some 1000, none]] := by
  simp only [retryLoop]
  split
  · simp [Run.shape]
  · split
    · simp [Run.shape]
    · split
      · simp [Run.shape]
      · split
        · simp [Run.shape]
        · split
          · simp [Run.shape]
          · split
            · simp [Run.shape]
            · simp_all

/-! ## Verdicts of particular outcomes -/

theorem verdict_chat_transient (o : TransportOutcome) (h : o.isTransientError [429] = true) :
    verdict fetchChatResponse.tryBlock terminalRateLimit o = .retry := by
  cases o with
  | resolved data => simp [TransportOutcome.isTransientError] at h
  | httpError status =>
    have hs : ¬ status = 429 := by simpa [TransportOutcome.isTransientError] using h
    simp [verdict, fetchChatResponse.tryBlock, terminalRateLimit, hs]
  | failed => simp [verdict, fetchChatResponse.tryBlock, terminalRateLimit]

theorem verdict_raw_transient (o : TransportOutcome) (h : o.isTransientError [429] = true) :
    verdict rawTryBlock terminalRateLimit o = .retry := by
  cases o with
  | resolved data => simp [TransportOutcome.isTransientError] at h
  | httpError status =>
    have hs : ¬ status = 429 := by simpa [TransportOutcome.isTransientError] using h
    simp [verdict, rawTryBlock, terminalRateLimit, hs]
  | failed => simp [verdict, rawTryBlock, terminalRateLimit]

theorem verdict_raw_transient_auth (o : TransportOutcome)
    (h : o.isTransientError [429, 401] = true) :
    verdict rawTryBlock terminalRateLimitOrAuth o = .retry := by
  cases o with
  | resolved data => simp [TransportOutcome.isTransientError] at h
  | httpError status =>
    have hs : ¬ status = 429 ∧ ¬ status = 401 := by
      simpa [TransportOutcome.isTransientError] using h
    simp [verdict, rawTryBlock, terminalRateLimitOrAuth, hs.1, hs.2]
  | failed => simp [verdict, rawTryBlock, terminalRateLimitOrAuth]

theorem verdict_chat_429 :
    verdict fetchChatResponse.tryBlock terminalRateLimit (.httpError 429) =
      .settle (.threw (.error "Sonar API rate limit exceeded")) := rfl

theorem verdict_raw_429 :
    verdict rawTryBlock terminalRateLimit (.httpError 429) =
      .settle (.threw (.error "Sonar API rate limit exceeded")) := rfl

theorem verdict_raw_auth_429 :
    verdict rawTryBlock terminalRateLimitOrAuth (.httpError 429) =
      .settle (.threw (.error "Sonar API rate limit exceeded")) := rfl

theorem verdict_raw_auth_401 :
    verdict rawTryBlock terminalRateLimitOrAuth (.httpError 401) =
      .settle (.threw (.error "Sonar API authentication failed: Invalid or missing API key")) := rfl

theorem retryTrace_shape (req : Request) (c : Completion) (k : Nat) (hk : k ≤ 3) :
    (Run.mk c (retryTrace req k)).shape = fullShape.take (2 * k - 1) := by
  interval_cases k <;> rfl

/-! ## Accepted inputs: what the run is, from the verdicts of its attempts -/

theorem fetchChatResponse_settles (rt : Runtime) (t : Transport) (userPrompt : JsVal)
    (hacc : chatAccepted userPrompt = true) (k : Nat) (c : Completion) (hk1 : 1 ≤ k) (hk3 : k ≤ 3)
    (hprev : ∀ i, 1 ≤ i → i < k → verdict fetchChatResponse.tryBlock terminalRateLimit (t i) = .retry)
    (hk : verdict fetchChatResponse.tryBlock terminalRateLimit (t k) = .settle c) :
    ∃ req, fetchChatResponse rt t userPrompt = ⟨c, retryTrace req k⟩ := by
  obtain ⟨req, h⟩ := fetchChatResponse_accepted rt t userPrompt hacc
  exact ⟨req, h.trans (retryLoop_settle _ _ _ _ _ k c hk1 hk3 hprev hk)⟩

theorem fetchChatResponse_exhausts (rt : Runtime) (t : Transport) (userPrompt : JsVal)
    (hacc : chatAccepted userPrompt = true)
    (hall : ∀ i, 1 ≤ i → i ≤ 3 → verdict fetchChatResponse.tryBlock terminalRateLimit (t i) = .retry) :
    ∃ req, fetchChatResponse rt t userPrompt = ⟨.returned chatFallback, retryTrace req 3⟩ := by
  obtain ⟨req, h⟩ := fetchChatResponse_accepted rt t userPrompt hacc
  exact ⟨req, h.trans (retryLoop_exhausted _ _ _ _ _ hall)⟩

theorem fetchChatResponse_reaches (rt : Runtime) (t : Transport) (userPrompt : JsVal)
    (hacc : chatAccepted userPrompt = true) (k : Nat) (hk3 : k ≤ 3)
    (hprev : ∀ i, 1 ≤ i → i < k → verdict fetchChatResponse.tryBlock terminalRateLimit (t i) = .retry) :
    ∃ rest, (fetchChatResponse rt t userPrompt).shape = fullShape.take (2 * k - 1) ++ rest := by
  obtain ⟨req, h⟩ := fetchChatResponse_accepted rt t userPrompt hacc
  obtain ⟨rest, hr⟩ := retryLoop_reaches fetchChatResponse.tryBlock terminalRateLimit chatFallback req t k hk3 hprev
  refine ⟨rest.map (fun e => match e with
    | .post _ => none
    | .sleep ms => some ms), ?_⟩
  rw [h, Run.shape, hr, List.map_append]
  exact congrArg (· ++ _) (retryTrace_shape req (.returned .undefined) k hk3)

theorem fetchChatResponse_shape (rt : Runtime) (t : Transport) (userPrompt : JsVal) :
    (fetchChatResponse rt t userPrompt).shape ∈
      [[], [none], [none, some 500, none], [none, some 500, none, some 1000, none]] := by
  rcases fetchChatResponse_cases rt t userPrompt with h | ⟨req, h⟩
  · simp [Run.shape, h]
  · rw [h]
    exact List.mem_cons_of_mem _ (retryLoop_shape _ _ _ _ _)

theorem fetchCommandResponse_settles (rt : Runtime) (t : Transport) (command : JsVal)
    (hacc : commandAccepted rt command = true) (k : Nat) (c : Completion) (hk1 : 1 ≤ k) (hk3 : k ≤ 3)
    (hprev : ∀ i, 1 ≤ i → i < k → verdict rawTryBlock terminalRateLimit (t i) = .retry)
    (hk : verdict rawTryBlock terminalRateLimit (t k) = .settle c) :
    ∃ req, fetchCommandResponse rt t command = ⟨c, retryTrace req k⟩ := by
  obtain ⟨req, h⟩ := fetchCommandResponse_accepted rt t command hacc
  exact ⟨req, h.trans (retryLoop_settle _ _ _ _ _ k c hk1 hk3 hprev hk)⟩

theorem fetchCommandResponse_exhausts (rt : Runtime) (t : Transport) (command : JsVal)
    (hacc : commandAccepted rt command = true)
    (hall : ∀ i, 1 ≤ i → i ≤ 3 → verdict rawTryBlock terminalRateLimit (t i) = .retry) :
    ∃ req, fetchCommandResponse rt t command = ⟨.returned (fallbackObject "Chat command service is temporarily unavailable."), retryTrace req 3⟩ := by
  obtain ⟨req, h⟩ := fetchCommandResponse_accepted rt t command hacc
  exact ⟨req, h.trans (retryLoop_exhausted _ _ _ _ _ hall)⟩

theorem fetchCommandResponse_reaches (rt : Runtime) (t : Transport) (command : JsVal)
    (hacc : commandAccepted rt command = true) (k : Nat) (hk3 : k ≤ 3)
    (hprev : ∀ i, 1 ≤ i → i < k → verdict rawTryBlock terminalRateLimit (t i) = .retry) :
    ∃ rest, (fetchCommandResponse rt t command).shape = fullShape.take (2 * k - 1) ++ rest := by
  obtain ⟨req, h⟩ := fetchCommandResponse_accepted rt t command hacc
  obtain ⟨rest, hr⟩ := retryLoop_reaches rawTryBlock terminalRateLimit (fallbackObject "Chat command service is temporarily unavailable.") req t k hk3 hprev
  refine ⟨rest.map (fun e => match e with
    | .post _ => none
    | .sleep ms => some ms), ?_⟩
  rw [h, Run.shape, hr, List.map_append]
  exact congrArg (· ++ _) (retryTrace_shape req (.returned .undefined) k hk3)

theorem fetchCommandResponse_shape (rt : Runtime) (t : Transport) (command : JsVal) :
    (fetchCommandResponse rt t command).shape ∈
      [[], [none], [none, some 500, none], [none, some 500, none, some 1000, none]] := by
  rcases fetchCommandResponse_cases rt t command with h | ⟨req, h⟩
  · simp [Run.shape, h]
  · rw [h]
    exact List.mem_cons_of_mem _ (retryLoop_shape _ _ _ _ _)

theorem fetchCategoryResponse_settles (rt : Runtime) (t : Transport) (coinName chain category : JsVal)
    (hacc : categoryAccepted rt coinName chain category = true) (k : Nat) (c : Completion) (hk1 : 1 ≤ k) (hk3 : k ≤ 3)
    (hprev : ∀ i, 1 ≤ i → i < k → verdict rawTryBlock terminalRateLimitOrAuth (t i) = .retry)
    (hk : verdict rawTryBlock terminalRateLimitOrAuth (t k) = .settle c) :
    ∃ req, fetchCategoryResponse rt t coinName chain category = ⟨c, retryTrace req k⟩ := by
  obtain ⟨req, h⟩ := fetchCategoryResponse_accepted rt t coinName chain category hacc
  exact ⟨req, h.trans (retryLoop_settle _ _ _ _ _ k c hk1 hk3 hprev hk)⟩

theorem fetchCategoryResponse_exhausts (rt : Runtime) (t : Transport) (coinName chain category : JsVal)
    (hacc : categoryAccepted rt coinName chain category = true)
    (hall : ∀ i, 1 ≤ i → i ≤ 3 → verdict rawTryBlock terminalRateLimitOrAuth (t i) = .retry) :
    ∃ req, fetchCategoryResponse rt t coinName chain category = ⟨.returned (fallbackObject "Analysis service temporarily unavailable."), retryTrace req 3⟩ := by
  obtain ⟨req, h⟩ := fetchCategoryResponse_accepted rt t coinName chain category hacc
  exact ⟨req, h.trans (retryLoop_exhausted _ _ _ _ _ hall)⟩

theorem fetchCategoryResponse_reaches (rt : Runtime) (t : Transport) (coinName chain category : JsVal)
    (hacc : categoryAccepted rt coinName chain category = true) (k : Nat) (hk3 : k ≤ 3)
    (hprev : ∀ i, 1 ≤ i → i < k → verdict rawTryBlock terminalRateLimitOrAuth (t i) = .retry) :
    ∃ rest, (fetchCategoryResponse rt t coinName chain category).shape = fullShape.take (2 * k - 1) ++ rest := by
  obtain ⟨req, h⟩ := fetchCategoryResponse_accepted rt t coinName chain category hacc
  obtain ⟨rest, hr⟩ := retryLoop_reaches rawTryBlock terminalRateLimitOrAuth (fallbackObject "Analysis service temporarily unavailable.") req t k hk3 hprev
  refine ⟨rest.map (fun e => match e with
    | .post _ => none
    | .sleep ms => some ms), ?_⟩
  rw [h, Run.shape, hr, List.map_append]
  exact congrArg (· ++ _) (retryTrace_shape req (.returned .undefined) k hk3)

theorem fetchCategoryResponse_shape (rt : Runtime) (t : Transport) (coinName chain category : JsVal) :
    (fetchCategoryResponse rt t coinName chain category).shape ∈
      [[], [none], [none, some 500, none], [none, some 500, none, some 1000, none]] := by
  rcases fetchCategoryResponse_cases rt t coinName chain category with h | ⟨req, h⟩
  · simp [Run.shape, h]
  · rw [h]
    exact List.mem_cons_of_mem _ (retryLoop_shape _ _ _ _ _)

theorem fetchNewsRaw_settles (rt : Runtime) (t : Transport) (interests days : JsVal)
    (hacc : newsAccepted rt interests days = true) (k : Nat) (c : Completion) (hk1 : 1 ≤ k) (hk3 : k ≤ 3)
    (hprev : ∀ i, 1 ≤ i → i < k → verdict rawTryBlock terminalRateLimitOrAuth (t i) = .retry)
    (hk : verdict rawTryBlock terminalRateLimitOrAuth (t k) = .settle c) :
    ∃ req, fetchNewsRaw rt t interests days = ⟨c, retryTrace req k⟩ := by
  obtain ⟨req, h⟩ := fetchNewsRaw_accepted rt t interests days hacc
  exact ⟨req, h.trans (retryLoop_settle _ _ _ _ _ k c hk1 hk3 hprev hk)⟩

theorem fetchNewsRaw_exhausts (rt : Runtime) (t : Transport) (interests days : JsVal)
    (hacc : newsAccepted rt interests days = true)
    (hall : ∀ i, 1 ≤ i → i ≤ 3 → verdict rawTryBlock terminalRateLimitOrAuth (t i) = .retry) :
    ∃ req, fetchNewsRaw rt t interests days = ⟨.returned (fallbackObject "News service temporarily unavailable."), retryTrace req 3⟩ := by
  obtain ⟨req, h⟩ := fetchNewsRaw_accepted rt t interests days hacc
  exact ⟨req, h.trans (retryLoop_exhausted _ _ _ _ _ hall)⟩

theorem fetchNewsRaw_reaches (rt : Runtime) (t : Transport) (interests days : JsVal)
    (hacc : newsAccepted rt interests days = true) (k : Nat) (hk3 : k ≤ 3)
    (hprev : ∀ i, 1 ≤ i → i < k → verdict rawTryBlock terminalRateLimitOrAuth (t i) = .retry) :
    ∃ rest, (fetchNewsRaw rt t interests days).shape = fullShape.take (2 * k - 1) ++ rest := by
  obtain ⟨req, h⟩ := fetchNewsRaw_accepted rt t interests days hacc
  obtain ⟨rest, hr⟩ := retryLoop_reaches rawTryBlock terminalRateLimitOrAuth (fallbackObject "News service temporarily unavailable.") req t k hk3 hprev
  refine ⟨rest.map (fun e => match e with
    | .post _ => none
    | .sleep ms => some ms), ?_⟩
  rw [h, Run.shape, hr, List.map_append]
  exact congrArg (· ++ _) (retryTrace_shape req (.returned .undefined) k hk3)

theorem fetchNewsRaw_shape (rt : Runtime) (t : Transport) (interests days : JsVal) :
    (fetchNewsRaw rt t interests days).shape ∈
      [[], [none], [none, some 500, none], [none, some 500, none, some 1000, none]] := by
  rcases fetchNewsRaw_cases rt t interests days with h | ⟨req, h⟩
  · simp [Run.shape, h]
  · rw [h]
    exact List.mem_cons_of_mem _ (retryLoop_shape _ _ _ _ _)

/-! ## The claims -/

/-- C1: whatever the runtime, the transport outcomes and the arguments, a single
call of fetchChatResponse, fetchCommandResponse, fetchCategoryResponse or
fetchNewsRaw invokes the transport at most 3 times. -/
theorem C1_at_most_three_invocations (rt : Runtime) (t : Transport)
    (userPrompt command coinName chain category interests days : JsVal) :
    (fetchChatResponse rt t userPrompt).invocations ≤ 3 ∧
    (fetchCommandResponse rt t command).invocations ≤ 3 ∧
    (fetchCategoryResponse rt t coinName chain category).invocations ≤ 3 ∧
    (fetchNewsRaw rt t interests days).invocations ≤ 3 := by
  refine ⟨?_, ?_, ?_, ?_⟩
  · rcases fetchChatResponse_cases rt t userPrompt with h | ⟨req, h⟩
    · simp [Run.invocations, h]
    · rw [h]; exact retryLoop_invocations_le _ _ _ _ _ _ _ _ _
  · rcases fetchCommandResponse_cases rt t command with h | ⟨req, h⟩
    · simp [Run.invocations, h]
    · rw [h]; exact retryLoop_invocations_le _ _ _ _ _ _ _ _ _
  · rcases fetchCategoryResponse_cases rt t coinName chain category with h | ⟨req, h⟩
    · simp [Run.invocations, h]
    · rw [h]; exact retryLoop_invocations_le _ _ _ _ _ _ _ _ _
  · rcases fetchNewsRaw_cases rt t interests days with h | ⟨req, h⟩
    · simp [Run.invocations, h]
    · rw [h]; exact retryLoop_invocations_le _ _ _ _ _ _ _ _ _


/-- C2: in each of the four retry loops the trace is a post, then possibly a wait
of 500 ms and a second post, then possibly a wait of 1000 ms and a third post:
nothing precedes attempt 1 and the wait before attempt n is 500 (n - 1) ms.  When
the inputs are accepted and every attempt is rejected with a transient error,
the run makes exactly 3 invocations, with waits 500 then 1000 between them and
none after the third. -/
theorem C2_backoff_schedule (rt : Runtime) (t : Transport)
    (userPrompt command coinName chain category interests days : JsVal) :
    ((fetchChatResponse rt t userPrompt).shape ∈
        [[], [none], [none, some 500, none], [none, some 500, none, some 1000, none]] ∧
      (fetchCommandResponse rt t command).shape ∈
        [[], [none], [none, some 500, none], [none, some 500, none, some 1000, none]] ∧
      (fetchCategoryResponse rt t coinName chain category).shape ∈
        [[], [none], [none, some 500, none], [none, some 500, none, some 1000, none]] ∧
      (fetchNewsRaw rt t interests days).shape ∈
        [[], [none], [none, some 500, none], [none, some 500, none, some 1000, none]]) ∧
    (chatAccepted userPrompt = true →
      (∀ i, 1 ≤ i → i ≤ 3 → (t i).isTransientError [429] = true) →
      (fetchChatResponse rt t userPrompt).invocations = 3 ∧
      (fetchChatResponse rt t userPrompt).delays = [500, 1000] ∧
      (fetchChatResponse rt t userPrompt).shape = [none, some 500, none, some 1000, none]) ∧
    (commandAccepted rt command = true →
      (∀ i, 1 ≤ i → i ≤ 3 → (t i).isTransientError [429] = true) →
      (fetchCommandResponse rt t command).invocations = 3 ∧
      (fetchCommandResponse rt t command).delays = [500, 1000] ∧
      (fetchCommandResponse rt t command).shape = [none, some 500, none, some 1000, none]) ∧
    (categoryAccepted rt coinName chain category = true →
      (∀ i, 1 ≤ i → i ≤ 3 → (t i).isTransientError [429, 401] = true) →
      (fetchCategoryResponse rt t coinName chain category).invocations = 3 ∧
      (fetchCategoryResponse rt t coinName chain category).delays = [500, 1000] ∧
      (fetchCategoryResponse rt t coinName chain category).shape =
        [none, some 500, none, some 1000, none]) ∧
    (newsAccepted rt interests days = true →
      (∀ i, 1 ≤ i → i ≤ 3 → (t i).isTransientError [429, 401] = true) →
      (fetchNewsRaw rt t interests days).invocations = 3 ∧
      (fetchNewsRaw rt t interests days).delays = [500, 1000] ∧
      (fetchNewsRaw rt t interests days).shape = [none, some 500, none, some 1000, none]) := by
  refine ⟨⟨fetchChatResponse_shape _ _ _, fetchCommandResponse_shape _ _ _,
    fetchCategoryResponse_shape _ _ _ _ _, fetchNewsRaw_shape _ _ _ _⟩, ?_, ?_, ?_, ?_⟩
  · intro hacc hall
    obtain ⟨req, h⟩ := fetchChatResponse_exhausts rt t userPrompt hacc
      (fun i h1 h3 => verdict_chat_transient _ (hall i h1 h3))
    rw [h]
    exact ⟨rfl, rfl, rfl⟩
  · intro hacc hall
    obtain ⟨req, h⟩ := fetchCommandResponse_exhausts rt t command hacc
      (fun i h1 h3 => verdict_raw_transient _ (hall i h1 h3))
    rw [h]
    exact ⟨rfl, rfl, rfl⟩
  · intro hacc hall
    obtain ⟨req, h⟩ := fetchCategoryResponse_exhausts rt t coinName chain category hacc
      (fun i h1 h3 => verdict_raw_transient_auth _ (hall i h1 h3))
    rw [h]
    exact ⟨rfl, rfl, rfl⟩
  · intro hacc hall
    obtain ⟨req, h⟩ := fetchNewsRaw_exhausts rt t interests days hacc
      (fun i h1 h3 => verdict_raw_transient_auth _ (hall i h1 h3))
    rw [h]
    exact ⟨rfl, rfl, rfl⟩

/-- Witness of C2: the four functions on accepted inputs, with a transport that
times out on every call. -/
theorem C2_backoff_schedule_witness :
    (fetchChatResponse asciiRuntime (fun _ => .failed) (.str "What is Bitcoin?")).shape =
      [none, some 500, none, some 1000, none] ∧
    (fetchCommandResponse asciiRuntime (fun _ => .failed) (.str "flash")).shape =
      [none, some 500, none, some 1000, none] ∧
    (fetchCategoryResponse asciiRuntime (fun _ => .failed)
        (.str "Ethereum") (.str "Ethereum") (.str "audit")).shape =
      [none, some 500, none, some 1000, none] ∧
    (fetchNewsRaw asciiRuntime (fun _ => .failed) (.arr [.str "DeFi"]) (.num 7)).shape =
      [none, some 500, none, some 1000, none] :=
  have h := C2_backoff_schedule asciiRuntime (fun _ => .failed) (.str "What is Bitcoin?")
    (.str "flash") (.str "Ethereum") (.str "Ethereum") (.str "audit") (.arr [.str "DeFi"]) (.num 7)
  ⟨(h.2.1 (by decide) (fun _ _ _ => rfl)).2.2,
   (h.2.2.1 (by decide) (fun _ _ _ => rfl)).2.2,
   (h.2.2.2.1 (by decide) (fun _ _ _ => rfl)).2.2,
   (h.2.2.2.2 (by decide) (fun _ _ _ => rfl)).2.2⟩


theorem verdict_raw_fails (o : TransportOutcome) (h : rawAttemptFails [429] o = true) :
    verdict rawTryBlock terminalRateLimit o = .retry := by
  cases o with
  | resolved data =>
    have hd : successLogThrows data = true := h
    simp [verdict, rawTryBlock, terminalRateLimit, hd]
  | httpError status => exact verdict_raw_transient _ h
  | failed => exact verdict_raw_transient _ h

theorem verdict_raw_fails_auth (o : TransportOutcome)
    (h : rawAttemptFails [429, 401] o = true) :
    verdict rawTryBlock terminalRateLimitOrAuth o = .retry := by
  cases o with
  | resolved data =>
    have hd : successLogThrows data = true := h
    simp [verdict, rawTryBlock, terminalRateLimitOrAuth, hd]
  | httpError status => exact verdict_raw_transient_auth _ h
  | failed => exact verdict_raw_transient_auth _ h

/-- C3: for k = 1, 2, 3, when attempts 1 to k-1 are rejected with transient errors
and attempt k is rejected with HTTP status 429, each of the four fetch functions
(on accepted inputs) makes exactly k transport invocations and throws
Error('Sonar API rate limit exceeded'); in particular it does not return, so it
does not return the fallback, also for k = 3. -/
theorem C3_rate_limit_is_terminal (rt : Runtime) (t : Transport)
    (userPrompt command coinName chain category interests days : JsVal)
    (k : Nat) (hk1 : 1 ≤ k) (hk3 : k ≤ 3) (h429 : t k = .httpError 429) :
    (chatAccepted userPrompt = true → transientBefore [429] t k →
      (fetchChatResponse rt t userPrompt).invocations = k ∧
      (fetchChatResponse rt t userPrompt).completion =
        .threw (.error "Sonar API rate limit exceeded")) ∧
    (commandAccepted rt command = true → transientBefore [429] t k →
      (fetchCommandResponse rt t command).invocations = k ∧
      (fetchCommandResponse rt t command).completion =
        .threw (.error "Sonar API rate limit exceeded")) ∧
    (categoryAccepted rt coinName chain category = true → transientBefore [429, 401] t k →
      (fetchCategoryResponse rt t coinName chain category).invocations = k ∧
      (fetchCategoryResponse rt t coinName chain category).completion =
        .threw (.error "Sonar API rate limit exceeded")) ∧
    (newsAccepted rt interests days = true → transientBefore [429, 401] t k →
      (fetchNewsRaw rt t interests days).invocations = k ∧
      (fetchNewsRaw rt t interests days).completion =
        .threw (.error "Sonar API rate limit exceeded")) := by
  refine ⟨?_, ?_, ?_, ?_⟩
  · intro hacc hprev
    obtain ⟨req, h⟩ := fetchChatResponse_settles rt t userPrompt hacc k _ hk1 hk3
      (fun i h1 h2 => verdict_chat_transient _ (hprev i h1 h2)) (h429 ▸ verdict_chat_429)
    rw [h]
    exact ⟨retryTrace_invocations _ _ _, rfl⟩
  · intro hacc hprev
    obtain ⟨req, h⟩ := fetchCommandResponse_settles rt t command hacc k _ hk1 hk3
      (fun i h1 h2 => verdict_raw_transient _ (hprev i h1 h2)) (h429 ▸ verdict_raw_429)
    rw [h]
    exact ⟨retryTrace_invocations _ _ _, rfl⟩
  · intro hacc hprev
    obtain ⟨req, h⟩ := fetchCategoryResponse_settles rt t coinName chain category hacc k _
      hk1 hk3 (fun i h1 h2 => verdict_raw_transient_auth _ (hprev i h1 h2))
      (h429 ▸ verdict_raw_auth_429)
    rw [h]
    exact ⟨retryTrace_invocations _ _ _, rfl⟩
  · intro hacc hprev
    obtain ⟨req, h⟩ := fetchNewsRaw_settles rt t interests days hacc k _ hk1 hk3
      (fun i h1 h2 => verdict_raw_transient_auth _ (hprev i h1 h2))
      (h429 ▸ verdict_raw_auth_429)
    rw [h]
    exact ⟨retryTrace_invocations _ _ _, rfl⟩

/-- Witness of C3: two timeouts, then 429 on the third and last attempt. -/
theorem C3_rate_limit_is_terminal_witness :
    (fetchChatResponse asciiRuntime (fun i => if i = 3 then .httpError 429 else .failed)
        (.str "What is Bitcoin?")).completion =
      .threw (.error "Sonar API rate limit exceeded") ∧
    (fetchCommandResponse asciiRuntime (fun i => if i = 3 then .httpError 429 else .failed)
        (.str "flash")).completion =
      .threw (.error "Sonar API rate limit exceeded") ∧
    (fetchCategoryResponse asciiRuntime (fun i => if i = 3 then .httpError 429 else .failed)
        (.str "Ethereum") (.str "Ethereum") (.str "audit")).completion =
      .threw (.error "Sonar API rate limit exceeded") ∧
    (fetchNewsRaw asciiRuntime (fun i => if i = 3 then .httpError 429 else .failed)
        (.arr [.str "DeFi"]) (.num 7)).completion =
      .threw (.error "Sonar API rate limit exceeded") :=
  have h := C3_rate_limit_is_terminal asciiRuntime
    (fun i => if i = 3 then .httpError 429 else .failed) (.str "What is Bitcoin?")
    (.str "flash") (.str "Ethereum") (.str "Ethereum") (.str "audit") (.arr [.str "DeFi"])
    (.num 7) 3 (by decide) (by decide) rfl
  have hprev : ∀ terminal, transientBefore terminal
      (fun i => if i = 3 then TransportOutcome.httpError 429 else TransportOutcome.failed) 3 :=
    fun _ i _ h3 => by simp [Nat.ne_of_lt h3, TransportOutcome.isTransientError]
  ⟨(h.1 (by decide) (hprev _)).2, (h.2.1 (by decide) (hprev _)).2,
   (h.2.2.1 (by decide) (hprev _)).2, (h.2.2.2 (by decide) (hprev _)).2⟩

/-- C4: when the inputs are accepted and every attempt is rejected with a transient
error (any error but a terminal status of the path: 429, and 401 on the category
and news paths), the fetch function does not throw: after the third attempt it
returns the fallback of its subsystem, the literal string for fetchChatResponse
and the object with empty `choices`, zero `usage` and an `error` string for the
other three. -/
theorem C4_exhaustion_returns_fallback (rt : Runtime) (t : Transport)
    (userPrompt command coinName chain category interests days : JsVal) :
    (chatAccepted userPrompt = true →
      (∀ i, 1 ≤ i → i ≤ 3 → (t i).isTransientError [429] = true) →
      (fetchChatResponse rt t userPrompt).invocations = 3 ∧
      (fetchChatResponse rt t userPrompt).completion = .returned (.str
        "Sorry, our chat service is temporarily unavailable. Please try again later.")) ∧
    (commandAccepted rt command = true →
      (∀ i, 1 ≤ i → i ≤ 3 → (t i).isTransientError [429] = true) →
      (fetchCommandResponse rt t command).invocations = 3 ∧
      (fetchCommandResponse rt t command).completion = .returned
        (.obj [("choices", .arr []),
               ("usage", .obj [("prompt_tokens", .num 0), ("completion_tokens", .num 0),
                               ("total_tokens", .num 0)]),
               ("error", .str "Chat command service is temporarily unavailable.")])) ∧
    (categoryAccepted rt coinName chain category = true →
      (∀ i, 1 ≤ i → i ≤ 3 → (t i).isTransientError [429, 401] = true) →
      (fetchCategoryResponse rt t coinName chain category).invocations = 3 ∧
      (fetchCategoryResponse rt t coinName chain category).completion = .returned
        (.obj [("choices", .arr []),
               ("usage", .obj [("prompt_tokens", .num 0), ("completion_tokens", .num 0),
                               ("total_tokens", .num 0)]),
               ("error", .str "Analysis service temporarily unavailable.")])) ∧
    (newsAccepted rt interests days = true →
      (∀ i, 1 ≤ i → i ≤ 3 → (t i).isTransientError [429, 401] = true) →
      (fetchNewsRaw rt t interests days).invocations = 3 ∧
      (fetchNewsRaw rt t interests days).completion = .returned
        (.obj [("choices", .arr []),
               ("usage", .obj [("prompt_tokens", .num 0), ("completion_tokens", .num 0),
                               ("total_tokens", .num 0)]),
               ("error", .str "News service temporarily unavailable.")])) := by
  refine ⟨?_, ?_, ?_, ?_⟩
  · intro hacc hall
    obtain ⟨req, h⟩ := fetchChatResponse_exhausts rt t userPrompt hacc
      (fun i h1 h3 => verdict_chat_transient _ (hall i h1 h3))
    rw [h]
    exact ⟨rfl, rfl⟩
  · intro hacc hall
    obtain ⟨req, h⟩ := fetchCommandResponse_exhausts rt t command hacc
      (fun i h1 h3 => verdict_raw_transient _ (hall i h1 h3))
    rw [h]
    exact ⟨rfl, rfl⟩
  · intro hacc hall
    obtain ⟨req, h⟩ := fetchCategoryResponse_exhausts rt t coinName chain category hacc
      (fun i h1 h3 => verdict_raw_transient_auth _ (hall i h1 h3))
    rw [h]
    exact ⟨rfl, rfl⟩
  · intro hacc hall
    obtain ⟨req, h⟩ := fetchNewsRaw_exhausts rt t interests days hacc
      (fun i h1 h3 => verdict_raw_transient_auth _ (hall i h1 h3))
    rw [h]
    exact ⟨rfl, rfl⟩

/-- Witness of C4: the four functions with a transport that answers HTTP 503 on
every call. -/
theorem C4_exhaustion_returns_fallback_witness :
    (fetchChatResponse asciiRuntime (fun _ => .httpError 503)
        (.str "What is Bitcoin?")).invocations = 3 ∧
    (fetchCommandResponse asciiRuntime (fun _ => .httpError 503)
        (.str "moon")).invocations = 3 ∧
    (fetchCategoryResponse asciiRuntime (fun _ => .httpError 503)
        (.str "Solana") (.str "Solana") (.str "Team")).invocations = 3 ∧
    (fetchNewsRaw asciiRuntime (fun _ => .httpError 503)
        (.arr [.str "NFT"]) (.str "30")).invocations = 3 :=
  have h := C4_exhaustion_returns_fallback asciiRuntime (fun _ => .httpError 503)
    (.str "What is Bitcoin?") (.str "moon") (.str "Solana") (.str "Solana") (.str "Team")
    (.arr [.str "NFT"]) (.str "30")
  ⟨(h.1 (by decide) (fun _ _ _ => by decide)).1,
   (h.2.1 (by decide) (fun _ _ _ => by decide)).1,
   (h.2.2.1 (by decide) (fun _ _ _ => by decide)).1,
   (h.2.2.2 (by decide) (fun _ _ _ => by decide)).1⟩


/-- C5: the fallback of the command, category and news paths is a constant.  For any
two accepted calls of the same function, whatever the runtime, the command or
category, the coin name and chain, the interests and days, and whatever made each
attempt fail (transient errors, or responses on which the success log throws),
both calls return the same value; on the three paths that value is the object with
exactly the fields `choices` (empty array), `usage` (three zero counters) and
`error` (a string). -/
theorem C5_fallback_is_constant (rt rt' : Runtime) (t t' : Transport)
    (command command' coinName coinName' chain chain' category category'
      interests interests' days days' : JsVal) :
    (commandAccepted rt command = true → commandAccepted rt' command' = true →
      (∀ i, 1 ≤ i → i ≤ 3 → rawAttemptFails [429] (t i) = true) →
      (∀ i, 1 ≤ i → i ≤ 3 → rawAttemptFails [429] (t' i) = true) →
      (fetchCommandResponse rt t command).completion =
        .returned (fallbackObject "Chat command service is temporarily unavailable.") ∧
      (fetchCommandResponse rt' t' command').completion =
        (fetchCommandResponse rt t command).completion) ∧
    (categoryAccepted rt coinName chain category = true →
      categoryAccepted rt' coinName' chain' category' = true →
      (∀ i, 1 ≤ i → i ≤ 3 → rawAttemptFails [429, 401] (t i) = true) →
      (∀ i, 1 ≤ i → i ≤ 3 → rawAttemptFails [429, 401] (t' i) = true) →
      (fetchCategoryResponse rt t coinName chain category).completion =
        .returned (fallbackObject "Analysis service temporarily unavailable.") ∧
      (fetchCategoryResponse rt' t' coinName' chain' category').completion =
        (fetchCategoryResponse rt t coinName chain category).completion) ∧
    (newsAccepted rt interests days = true → newsAccepted rt' interests' days' = true →
      (∀ i, 1 ≤ i → i ≤ 3 → rawAttemptFails [429, 401] (t i) = true) →
      (∀ i, 1 ≤ i → i ≤ 3 → rawAttemptFails [429, 401] (t' i) = true) →
      (fetchNewsRaw rt t interests days).completion =
        .returned (fallbackObject "News service temporarily unavailable.") ∧
      (fetchNewsRaw rt' t' interests' days').completion =
        (fetchNewsRaw rt t interests days).completion) ∧
    (∀ error : String, fallbackObject error =
      .obj [("choices", .arr []),
            ("usage", .obj [("prompt_tokens", .num 0), ("completion_tokens", .num 0),
                            ("total_tokens", .num 0)]),
            ("error", .str error)]) := by
  refine ⟨?_, ?_, ?_, fun _ => rfl⟩
  · intro hacc hacc' hall hall'
    obtain ⟨req, h⟩ := fetchCommandResponse_exhausts rt t command hacc
      (fun i h1 h3 => verdict_raw_fails _ (hall i h1 h3))
    obtain ⟨req', h'⟩ := fetchCommandResponse_exhausts rt' t' command' hacc'
      (fun i h1 h3 => verdict_raw_fails _ (hall' i h1 h3))
    rw [h, h']
    exact ⟨rfl, rfl⟩
  · intro hacc hacc' hall hall'
    obtain ⟨req, h⟩ := fetchCategoryResponse_exhausts rt t coinName chain category hacc
      (fun i h1 h3 => verdict_raw_fails_auth _ (hall i h1 h3))
    obtain ⟨req', h'⟩ := fetchCategoryResponse_exhausts rt' t' coinName' chain' category' hacc'
      (fun i h1 h3 => verdict_raw_fails_auth _ (hall' i h1 h3))
    rw [h, h']
    exact ⟨rfl, rfl⟩
  · intro hacc hacc' hall hall'
    obtain ⟨req, h⟩ := fetchNewsRaw_exhausts rt t interests days hacc
      (fun i h1 h3 => verdict_raw_fails_auth _ (hall i h1 h3))
    obtain ⟨req', h'⟩ := fetchNewsRaw_exhausts rt' t' interests' days' hacc'
      (fun i h1 h3 => verdict_raw_fails_auth _ (hall' i h1 h3))
    rw [h, h']
    exact ⟨rfl, rfl⟩

/-- Witness of C5: two different commands, two different categories with different
coins, two different news requests; one transport times out, the other answers
with a `null` body. -/
theorem C5_fallback_is_constant_witness :
    (fetchCommandResponse asciiRuntime (fun _ => .resolved .null) (.str "zombie")).completion =
      (fetchCommandResponse asciiRuntime (fun _ => .failed) (.str "DROP")).completion ∧
    (fetchCategoryResponse asciiRuntime (fun _ => .resolved .null)
        (.str "Cardano") (.str "Cardano") (.str "whitepaper")).completion =
      (fetchCategoryResponse asciiRuntime (fun _ => .failed)
        (.str "Ethereum") (.str "Arbitrum") (.str "scam")).completion ∧
    (fetchNewsRaw asciiRuntime (fun _ => .resolved .null) (.arr []) (.num 30)).completion =
      (fetchNewsRaw asciiRuntime (fun _ => .failed) (.arr [.str "DeFi"]) (.num 1)).completion :=
  have h := C5_fallback_is_constant asciiRuntime asciiRuntime (fun _ => .failed)
    (fun _ => .resolved .null) (.str "DROP") (.str "zombie") (.str "Ethereum") (.str "Cardano")
    (.str "Arbitrum") (.str "Cardano") (.str "scam") (.str "whitepaper")
    (.arr [.str "DeFi"]) (.arr []) (.num 1) (.num 30)
  ⟨(h.1 (by decide) (by decide) (fun _ _ _ => rfl) (fun _ _ _ => rfl)).2,
   (h.2.1 (by decide) (by decide) (fun _ _ _ => rfl) (fun _ _ _ => rfl)).2,
   (h.2.2.1 (by decide) (by decide) (fun _ _ _ => rfl) (fun _ _ _ => rfl)).2⟩

/-- C6: in fetchCategoryResponse, for k = 1, 2, 3, when attempts 1 to k-1 are
rejected with transient errors and attempt k is rejected with HTTP status 401, the
call makes exactly k transport invocations and throws the authentication error,
whose message differs from that of the rate-limit error; there is no further
attempt and no fallback. -/
theorem C6_category_auth_failure_is_terminal (rt : Runtime) (t : Transport)
    (coinName chain category : JsVal) (k : Nat)
    (hacc : categoryAccepted rt coinName chain category = true)
    (hk1 : 1 ≤ k) (hk3 : k ≤ 3) (hprev : transientBefore [429, 401] t k)
    (h401 : t k = .httpError 401) :
    (fetchCategoryResponse rt t coinName chain category).invocations = k ∧
    (fetchCategoryResponse rt t coinName chain category).completion =
      .threw (.error "Sonar API authentication failed: Invalid or missing API key") ∧
    "Sonar API authentication failed: Invalid or missing API key" ≠
      "Sonar API rate limit exceeded" := by
  obtain ⟨req, h⟩ := fetchCategoryResponse_settles rt t coinName chain category hacc k _
    hk1 hk3 (fun i h1 h2 => verdict_raw_transient_auth _ (hprev i h1 h2))
    (h401 ▸ verdict_raw_auth_401)
  rw [h]
  exact ⟨retryTrace_invocations _ _ _, rfl, by decide⟩

/-- Witness of C6: a timeout, then 401 on the second attempt. -/
theorem C6_category_auth_failure_is_terminal_witness :
    (fetchCategoryResponse asciiRuntime (fun i => if i = 2 then .httpError 401 else .failed)
        (.str "Ethereum") (.str "Ethereum") (.str "governance")).invocations = 2 ∧
    (fetchCategoryResponse asciiRuntime (fun i => if i = 2 then .httpError 401 else .failed)
        (.str "Ethereum") (.str "Ethereum") (.str "governance")).completion =
      .threw (.error "Sonar API authentication failed: Invalid or missing API key") :=
  have h := C6_category_auth_failure_is_terminal asciiRuntime
    (fun i => if i = 2 then .httpError 401 else .failed)
    (.str "Ethereum") (.str "Ethereum") (.str "governance") 2 (by decide) (by decide)
    (by decide)
    (fun i _ h2 => by simp [Nat.ne_of_lt h2, TransportOutcome.isTransientError]) rfl
  ⟨h.1, h.2.1⟩

/-- C7, as stated, fails: with a transport that answers 401 on every call,
fetchNewsRaw makes 1 invocation and throws the authentication error; it does not
make 3 invocations and does not return the fallback. -/
theorem C7_news_401_counterexample :
    (fetchNewsRaw asciiRuntime (fun _ => .httpError 401) (.arr [.str "DeFi"]) (.num 7)).invocations
      = 1 ∧
    (fetchNewsRaw asciiRuntime (fun _ => .httpError 401) (.arr [.str "DeFi"]) (.num 7)).completion
      = .threw (.error "Sonar API authentication failed: Invalid or missing API key") ∧
    ¬ ((fetchNewsRaw asciiRuntime (fun _ => .httpError 401)
          (.arr [.str "DeFi"]) (.num 7)).invocations = 3 ∧
       (fetchNewsRaw asciiRuntime (fun _ => .httpError 401)
          (.arr [.str "DeFi"]) (.num 7)).completion =
        .returned (fallbackObject "News service temporarily unavailable.")) := by
  refine ⟨by decide, rfl, ?_⟩
  intro h
  exact absurd h.1 (by decide)

/-- C7, amended: in fetchNewsRaw an HTTP 401 is a terminal error of its own.  For
k = 1, 2, 3, when attempts 1 to k-1 are rejected with transient errors and attempt
k is rejected with status 401, the call makes exactly k transport invocations and
throws the authentication error; it is not retried and not turned into the
fallback. -/
theorem C7_news_auth_failure_is_terminal (rt : Runtime) (t : Transport)
    (interests days : JsVal) (k : Nat)
    (hacc : newsAccepted rt interests days = true)
    (hk1 : 1 ≤ k) (hk3 : k ≤ 3) (hprev : transientBefore [429, 401] t k)
    (h401 : t k = .httpError 401) :
    (fetchNewsRaw rt t interests days).invocations = k ∧
    (fetchNewsRaw rt t interests days).completion =
      .threw (.error "Sonar API authentication failed: Invalid or missing API key") := by
  obtain ⟨req, h⟩ := fetchNewsRaw_settles rt t interests days hacc k _
    hk1 hk3 (fun i h1 h2 => verdict_raw_transient_auth _ (hprev i h1 h2))
    (h401 ▸ verdict_raw_auth_401)
  rw [h]
  exact ⟨retryTrace_invocations _ _ _, rfl⟩

/-- Witness of the amended C7: HTTP 500, then 401 on the second attempt. -/
theorem C7_news_auth_failure_is_terminal_witness :
    (fetchNewsRaw asciiRuntime (fun i => if i = 2 then .httpError 401 else .httpError 500)
        (.arr [.str "Web3", .str "NFT"]) (.str "14")).invocations = 2 ∧
    (fetchNewsRaw asciiRuntime (fun i => if i = 2 then .httpError 401 else .httpError 500)
        (.arr [.str "Web3", .str "NFT"]) (.str "14")).completion =
      .threw (.error "Sonar API authentication failed: Invalid or missing API key") :=
  C7_news_auth_failure_is_terminal asciiRuntime
    (fun i => if i = 2 then .httpError 401 else .httpError 500)
    (.arr [.str "Web3", .str "NFT"]) (.str "14") 2 (by decide) (by decide) (by decide)
    (fun i _ h2 => by simp [Nat.ne_of_lt h2, TransportOutcome.isTransientError]) rfl


theorem verdict_chat_fails (o : TransportOutcome) (h : chatAttemptFails o = true) :
    verdict fetchChatResponse.tryBlock terminalRateLimit o = .retry := by
  cases o with
  | resolved data =>
    have hd : contentUnusable data = true := h
    cases hn : data.isNullish with
    | true => simp [verdict, fetchChatResponse.tryBlock, hn, terminalRateLimit]
    | false =>
      cases hc : data.messageContent with
      | str content =>
        have hd' : jsLength (jsTrim content) < 20 := by
          simpa [contentUnusable, contentText, hn, hc] using hd
        simp [verdict, fetchChatResponse.tryBlock, hn, hc, hd', terminalRateLimit]
      | _ => simp [verdict, fetchChatResponse.tryBlock, hn, hc, terminalRateLimit]
  | httpError status => exact verdict_chat_transient _ h
  | failed => exact verdict_chat_transient _ h

theorem verdict_chat_usable (data : JsVal) (content : String)
    (hc : contentText data = some content) (hlen : 20 ≤ jsLength (jsTrim content)) :
    verdict fetchChatResponse.tryBlock terminalRateLimit (.resolved data) =
      .settle (.returned (.str (jsTrim content))) := by
  cases hn : data.isNullish with
  | true => simp [contentText, hn] at hc
  | false =>
    cases hm : data.messageContent with
    | str c =>
      have hcc : c = content := by simpa [contentText, hn, hm] using hc
      subst hcc
      have hne : ¬ jsTrim c = "" := by
        intro he
        rw [he] at hlen
        exact absurd hlen (by decide)
      have hlt : ¬ jsLength (jsTrim c) < 20 := by omega
      simp [verdict, fetchChatResponse.tryBlock, hn, hm, hne, hlt]
    | _ => simp [contentText, hn, hm] at hc

theorem verdict_raw_success (terminal : Option Int → Option String) (data : JsVal)
    (h : successLogThrows data = false) :
    verdict rawTryBlock terminal (.resolved data) = .settle (.returned data) := by
  simp [verdict, rawTryBlock, h]

/-- C8: in fetchChatResponse and fetchCommandResponse an HTTP 401 is handled like
any other transient failure.  A transport that answers 401 on every attempt leads
to exactly 3 invocations and to the fallback being returned, no error is thrown;
and a 401 on attempt k = 1, 2 (after transient errors) consumes that attempt and is
retried: the run goes on with the wait of 500 k ms and attempt k + 1. -/
theorem C8_chat_paths_retry_401 (rt : Runtime) (t : Transport) (userPrompt command : JsVal) :
    (chatAccepted userPrompt = true → (∀ i, 1 ≤ i → i ≤ 3 → t i = .httpError 401) →
      (fetchChatResponse rt t userPrompt).invocations = 3 ∧
      (fetchChatResponse rt t userPrompt).completion = .returned (.str
        "Sorry, our chat service is temporarily unavailable. Please try again later.")) ∧
    (commandAccepted rt command = true → (∀ i, 1 ≤ i → i ≤ 3 → t i = .httpError 401) →
      (fetchCommandResponse rt t command).invocations = 3 ∧
      (fetchCommandResponse rt t command).completion = .returned
        (fallbackObject "Chat command service is temporarily unavailable.")) ∧
    (chatAccepted userPrompt = true →
      ∀ k, 1 ≤ k → k ≤ 2 → transientBefore [429] t k → t k = .httpError 401 →
        ∃ rest, (fetchChatResponse rt t userPrompt).shape =
          fullShape.take (2 * k + 1) ++ rest) ∧
    (commandAccepted rt command = true →
      ∀ k, 1 ≤ k → k ≤ 2 → transientBefore [429] t k → t k = .httpError 401 →
        ∃ rest, (fetchCommandResponse rt t command).shape =
          fullShape.take (2 * k + 1) ++ rest) := by
  refine ⟨?_, ?_, ?_, ?_⟩
  · intro hacc hall
    obtain ⟨req, h⟩ := fetchChatResponse_exhausts rt t userPrompt hacc
      (fun i h1 h3 => verdict_chat_transient _ (by rw [hall i h1 h3]; rfl))
    rw [h]
    exact ⟨rfl, rfl⟩
  · intro hacc hall
    obtain ⟨req, h⟩ := fetchCommandResponse_exhausts rt t command hacc
      (fun i h1 h3 => verdict_raw_transient _ (by rw [hall i h1 h3]; rfl))
    rw [h]
    exact ⟨rfl, rfl⟩
  · intro hacc k hk1 hk2 hprev h401
    have := fetchChatResponse_reaches rt t userPrompt hacc (k + 1) (by omega)
      (fun i h1 h2 => by
        rcases Nat.lt_succ_iff_lt_or_eq.mp h2 with h | h
        · exact verdict_chat_transient _ (hprev i h1 h)
        · exact verdict_chat_transient _ (by rw [h, h401]; rfl))
    simpa [Nat.mul_add] using this
  · intro hacc k hk1 hk2 hprev h401
    have := fetchCommandResponse_reaches rt t command hacc (k + 1) (by omega)
      (fun i h1 h2 => by
        rcases Nat.lt_succ_iff_lt_or_eq.mp h2 with h | h
        · exact verdict_raw_transient _ (hprev i h1 h)
        · exact verdict_raw_transient _ (by rw [h, h401]; rfl))
    simpa [Nat.mul_add] using this

/-- Witness of C8: a transport that answers 401 on every call. -/
theorem C8_chat_paths_retry_401_witness :
    ((fetchChatResponse asciiRuntime (fun _ => .httpError 401)
        (.str "What is Bitcoin?")).invocations = 3 ∧
      (fetchChatResponse asciiRuntime (fun _ => .httpError 401)
        (.str "What is Bitcoin?")).completion = .returned (.str
        "Sorry, our chat service is temporarily unavailable. Please try again later.")) ∧
    ((fetchCommandResponse asciiRuntime (fun _ => .httpError 401)
        (.str "pump")).invocations = 3 ∧
      (fetchCommandResponse asciiRuntime (fun _ => .httpError 401)
        (.str "pump")).completion = .returned
        (fallbackObject "Chat command service is temporarily unavailable.")) ∧
    (∃ rest, (fetchChatResponse asciiRuntime (fun _ => .httpError 401)
        (.str "What is Bitcoin?")).shape = fullShape.take (2 * 1 + 1) ++ rest) ∧
    (∃ rest, (fetchCommandResponse asciiRuntime (fun _ => .httpError 401)
        (.str "pump")).shape = fullShape.take (2 * 1 + 1) ++ rest) :=
  have h := C8_chat_paths_retry_401 asciiRuntime (fun _ => .httpError 401)
    (.str "What is Bitcoin?") (.str "pump")
  ⟨h.1 (by decide) (fun _ _ _ => rfl), h.2.1 (by decide) (fun _ _ _ => rfl),
   h.2.2.1 (by decide) 1 (by decide) (by decide) (fun _ h1 h2 => absurd h1 (by omega)) rfl,
   h.2.2.2 (by decide) 1 (by decide) (by decide) (fun _ h1 h2 => absurd h1 (by omega)) rfl⟩

/-- C9, as stated, fails: when every call of the transport succeeds with the body
`null`, attempt 1 is the first successful transport call, yet fetchCommandResponse
does not return that body after 1 invocation: `Object.keys(response.data)` in the
success log line throws, the attempt is retried, and after 3 invocations the
fallback is returned. -/
theorem C9_null_body_counterexample :
    (fetchCommandResponse asciiRuntime (fun _ => .resolved .null) (.str "flash")).invocations
      = 3 ∧
    (fetchCommandResponse asciiRuntime (fun _ => .resolved .null) (.str "flash")).completion
      = .returned (fallbackObject "Chat command service is temporarily unavailable.") ∧
    ¬ ((fetchCommandResponse asciiRuntime (fun _ => .resolved .null)
          (.str "flash")).invocations = 1 ∧
       (fetchCommandResponse asciiRuntime (fun _ => .resolved .null)
          (.str "flash")).completion = .returned .null) := by
  refine ⟨by decide, rfl, ?_⟩
  intro h
  exact absurd h.1 (by decide)

/-- C9, amended: for fetchCommandResponse, fetchCategoryResponse and fetchNewsRaw,
when attempts 1 to k-1 are rejected with transient errors and attempt k (k = 1, 2,
3) succeeds with a body on which the success log line does not throw (a body that
is neither `null` nor `undefined`, and whose logged content length has a string
conversion), the function makes exactly k transport invocations and returns that
body unchanged. -/
theorem C9_first_success_returns_body (rt : Runtime) (t : Transport)
    (command coinName chain category interests days : JsVal) (k : Nat) (data : JsVal)
    (hk1 : 1 ≤ k) (hk3 : k ≤ 3) (hk : t k = .resolved data)
    (hlog : successLogThrows data = false) :
    (commandAccepted rt command = true → transientBefore [429] t k →
      (fetchCommandResponse rt t command).invocations = k ∧
      (fetchCommandResponse rt t command).completion = .returned data) ∧
    (categoryAccepted rt coinName chain category = true → transientBefore [429, 401] t k →
      (fetchCategoryResponse rt t coinName chain category).invocations = k ∧
      (fetchCategoryResponse rt t coinName chain category).completion = .returned data) ∧
    (newsAccepted rt interests days = true → transientBefore [429, 401] t k →
      (fetchNewsRaw rt t interests days).invocations = k ∧
      (fetchNewsRaw rt t interests days).completion = .returned data) := by
  refine ⟨?_, ?_, ?_⟩
  · intro hacc hprev
    obtain ⟨req, h⟩ := fetchCommandResponse_settles rt t command hacc k _ hk1 hk3
      (fun i h1 h2 => verdict_raw_transient _ (hprev i h1 h2))
      (hk ▸ verdict_raw_success _ data hlog)
    rw [h]
    exact ⟨retryTrace_invocations _ _ _, rfl⟩
  · intro hacc hprev
    obtain ⟨req, h⟩ := fetchCategoryResponse_settles rt t coinName chain category hacc k _
      hk1 hk3 (fun i h1 h2 => verdict_raw_transient_auth _ (hprev i h1 h2))
      (hk ▸ verdict_raw_success _ data hlog)
    rw [h]
    exact ⟨retryTrace_invocations _ _ _, rfl⟩
  · intro hacc hprev
    obtain ⟨req, h⟩ := fetchNewsRaw_settles rt t interests days hacc k _ hk1 hk3
      (fun i h1 h2 => verdict_raw_transient_auth _ (hprev i h1 h2))
      (hk ▸ verdict_raw_success _ data hlog)
    rw [h]
    exact ⟨retryTrace_invocations _ _ _, rfl⟩


/-- Witness of the amended C9: a timeout, then a response with a JSON body on the
second attempt. -/
theorem C9_first_success_returns_body_witness :
    (fetchCommandResponse asciiRuntime
        (fun i => if i = 2 then .resolved (.obj [("id", .str "r1"), ("choices", .arr [.obj
          [("message", .obj [("role", .str "assistant"), ("content", .str "\x7b\x7d")])]])])
          else .failed)
        (.str "flash")).completion =
      .returned (.obj [("id", .str "r1"), ("choices", .arr [.obj
          [("message", .obj [("role", .str "assistant"), ("content", .str "\x7b\x7d")])]])]) ∧
    (fetchCategoryResponse asciiRuntime
        (fun i => if i = 2 then .resolved (.obj [("id", .str "r1"), ("choices", .arr [.obj
          [("message", .obj [("role", .str "assistant"), ("content", .str "\x7b\x7d")])]])])
          else .failed)
        (.str "Ethereum") (.str "Ethereum") (.str "audit")).completion =
      .returned (.obj [("id", .str "r1"), ("choices", .arr [.obj
          [("message", .obj [("role", .str "assistant"), ("content", .str "\x7b\x7d")])]])]) ∧
    (fetchNewsRaw asciiRuntime
        (fun i => if i = 2 then .resolved (.obj [("id", .str "r1"), ("choices", .arr [.obj
          [("message", .obj [("role", .str "assistant"), ("content", .str "\x7b\x7d")])]])])
          else .failed)
        (.arr [.str "DeFi"]) (.num 7)).completion =
      .returned (.obj [("id", .str "r1"), ("choices", .arr [.obj
          [("message", .obj [("role", .str "assistant"), ("content", .str "\x7b\x7d")])]])]) :=
  have h := C9_first_success_returns_body asciiRuntime
    (fun i => if i = 2 then .resolved (.obj [("id", .str "r1"), ("choices", .arr [.obj
      [("message", .obj [("role", .str "assistant"), ("content", .str "\x7b\x7d")])]])])
      else .failed)
    (.str "flash") (.str "Ethereum") (.str "Ethereum") (.str "audit") (.arr [.str "DeFi"])
    (.num 7) 2 _ (by decide) (by decide) rfl (by decide)
  have hprev : ∀ terminal, transientBefore terminal
      (fun i => if i = 2 then TransportOutcome.resolved (.obj [("id", .str "r1"),
        ("choices", .arr [.obj [("message", .obj [("role", .str "assistant"),
          ("content", .str "\x7b\x7d")])]])]) else TransportOutcome.failed) 2 :=
    fun _ i _ h2 => by simp [Nat.ne_of_lt h2, TransportOutcome.isTransientError]
  ⟨(h.1 (by decide) (hprev _)).2, (h.2.1 (by decide) (hprev _)).2,
   (h.2.2 (by decide) (hprev _)).2⟩

/-- C10: in fetchChatResponse (on an accepted prompt) a successful response whose
`choices[0].message.content` is missing, empty, or shorter than 20 characters
(UTF-16 code units) after trimming is a transient failure.  On attempt k = 1, 2 it
consumes the attempt and the run goes on with the wait of 500 k ms and attempt
k + 1; three such responses in a row give 3 invocations, waits 500 and 1000, and
the chat fallback string; and a response whose trimmed content has at least 20
characters, on the first attempt that does not fail, is returned as that trimmed
content. -/
theorem C10_chat_short_content_is_retried (rt : Runtime) (t : Transport) (userPrompt : JsVal)
    (hacc : chatAccepted userPrompt = true) :
    (∀ k data, 1 ≤ k → k ≤ 2 → (∀ i, 1 ≤ i → i < k → chatAttemptFails (t i) = true) →
      t k = .resolved data → contentUnusable data = true →
      ∃ rest, (fetchChatResponse rt t userPrompt).shape =
        fullShape.take (2 * k + 1) ++ rest) ∧
    ((∀ i, 1 ≤ i → i ≤ 3 → ∃ data, t i = .resolved data ∧ contentUnusable data = true) →
      (fetchChatResponse rt t userPrompt).invocations = 3 ∧
      (fetchChatResponse rt t userPrompt).delays = [500, 1000] ∧
      (fetchChatResponse rt t userPrompt).completion = .returned (.str
        "Sorry, our chat service is temporarily unavailable. Please try again later.")) ∧
    (∀ k data content, 1 ≤ k → k ≤ 3 →
      (∀ i, 1 ≤ i → i < k → chatAttemptFails (t i) = true) →
      t k = .resolved data → contentText data = some content →
      20 ≤ jsLength (jsTrim content) →
      (fetchChatResponse rt t userPrompt).invocations = k ∧
      (fetchChatResponse rt t userPrompt).completion = .returned (.str (jsTrim content))) := by
  refine ⟨?_, ?_, ?_⟩
  · intro k data hk1 hk2 hprev hk hbad
    have := fetchChatResponse_reaches rt t userPrompt hacc (k + 1) (by omega)
      (fun i h1 h2 => by
        rcases Nat.lt_succ_iff_lt_or_eq.mp h2 with h | h
        · exact verdict_chat_fails _ (hprev i h1 h)
        · exact verdict_chat_fails _ (by rw [h, hk]; exact hbad))
    simpa [Nat.mul_add] using this
  · intro hall
    obtain ⟨req, h⟩ := fetchChatResponse_exhausts rt t userPrompt hacc
      (fun i h1 h3 => by
        obtain ⟨data, hd, hbad⟩ := hall i h1 h3
        exact verdict_chat_fails _ (by rw [hd]; exact hbad))
    rw [h]
    exact ⟨rfl, rfl, rfl⟩
  · intro k data content hk1 hk3 hprev hk hc hlen
    obtain ⟨req, h⟩ := fetchChatResponse_settles rt t userPrompt hacc k _ hk1 hk3
      (fun i h1 h2 => verdict_chat_fails _ (hprev i h1 h2))
      (hk ▸ verdict_chat_usable data content hc hlen)
    rw [h]
    exact ⟨retryTrace_invocations _ _ _, rfl⟩

/-- Witness of C10: a response with the content "ok", then a response without
`choices`, then a response with a long enough padded content. -/
theorem C10_chat_short_content_is_retried_witness :
    (fetchChatResponse asciiRuntime
        (fun i => if i = 1 then .resolved (.obj [("choices", .arr [.obj
            [("message", .obj [("content", .str "ok")])]])])
          else if i = 2 then .resolved (.obj [])
          else .resolved (.obj [("choices", .arr [.obj
            [("message", .obj [("content", .str "  Bitcoin is a digital currency.\n")])]])]))
        (.str "What is Bitcoin?")).invocations = 3 ∧
    (fetchChatResponse asciiRuntime
        (fun i => if i = 1 then .resolved (.obj [("choices", .arr [.obj
            [("message", .obj [("content", .str "ok")])]])])
          else if i = 2 then .resolved (.obj [])
          else .resolved (.obj [("choices", .arr [.obj
            [("message", .obj [("content", .str "  Bitcoin is a digital currency.\n")])]])]))
        (.str "What is Bitcoin?")).completion =
      .returned (.str (jsTrim "  Bitcoin is a digital currency.\n")) :=
  (C10_chat_short_content_is_retried asciiRuntime
    (fun i => if i = 1 then .resolved (.obj [("choices", .arr [.obj
        [("message", .obj [("content", .str "ok")])]])])
      else if i = 2 then .resolved (.obj [])
      else .resolved (.obj [("choices", .arr [.obj
        [("message", .obj [("content", .str "  Bitcoin is a digital currency.\n")])]])]))
    (.str "What is Bitcoin?") (by decide)).2.2 3 _ "  Bitcoin is a digital currency.\n"
    (by decide) (by decide)
    (fun i h1 h3 => by interval_cases i <;> decide)
    rfl (by decide) (by decide)

/-- C11, as stated, fails: a successful response whose content is the empty string
is not treated as a transient failure by fetchCommandResponse,
fetchCategoryResponse or fetchNewsRaw.  Each returns that response after a single
invocation; nothing is retried. -/
theorem C11_empty_content_counterexample :
    contentUnusable (.obj [("choices", .arr [.obj [("message", .obj [("content", .str "")])]])])
      = true ∧
    (fetchCommandResponse asciiRuntime
        (fun _ => .resolved
          (.obj [("choices", .arr [.obj [("message", .obj [("content", .str "")])]])]))
        (.str "flash")).invocations = 1 ∧
    (fetchCommandResponse asciiRuntime
        (fun _ => .resolved
          (.obj [("choices", .arr [.obj [("message", .obj [("content", .str "")])]])]))
        (.str "flash")).completion =
      .returned (.obj [("choices", .arr [.obj [("message", .obj [("content", .str "")])]])]) ∧
    (fetchCategoryResponse asciiRuntime
        (fun _ => .resolved
          (.obj [("choices", .arr [.obj [("message", .obj [("content", .str "")])]])]))
        (.str "Ethereum") (.str "Ethereum") (.str "audit")).invocations = 1 ∧
    (fetchCategoryResponse asciiRuntime
        (fun _ => .resolved
          (.obj [("choices", .arr [.obj [("message", .obj [("content", .str "")])]])]))
        (.str "Ethereum") (.str "Ethereum") (.str "audit")).completion =
      .returned (.obj [("choices", .arr [.obj [("message", .obj [("content", .str "")])]])]) ∧
    (fetchNewsRaw asciiRuntime
        (fun _ => .resolved
          (.obj [("choices", .arr [.obj [("message", .obj [("content", .str "")])]])]))
        (.arr [.str "DeFi"]) (.num 7)).invocations = 1 ∧
    (fetchNewsRaw asciiRuntime
        (fun _ => .resolved
          (.obj [("choices", .arr [.obj [("message", .obj [("content", .str "")])]])]))
        (.arr [.str "DeFi"]) (.num 7)).completion =
      .returned (.obj [("choices", .arr [.obj [("message", .obj [("content", .str "")])]])]) :=
  ⟨by decide, by decide, rfl, by decide, rfl, by decide, rfl⟩

/-- C11, amended: fetchCommandResponse, fetchCategoryResponse and fetchNewsRaw do
not inspect the content of a successful response.  When attempts 1 to k-1 are
rejected with transient errors and attempt k succeeds with a body whose content is
empty, missing or shorter than 20 characters, and on which the success log line
does not throw, the attempt is not retried: the function makes exactly k
invocations and returns that body as its result. -/
theorem C11_short_content_is_returned (rt : Runtime) (t : Transport)
    (command coinName chain category interests days : JsVal) (k : Nat) (data : JsVal)
    (hk1 : 1 ≤ k) (hk3 : k ≤ 3) (hk : t k = .resolved data)
    (_hshort : contentUnusable data = true) (hlog : successLogThrows data = false) :
    (commandAccepted rt command = true → transientBefore [429] t k →
      (fetchCommandResponse rt t command).invocations = k ∧
      (fetchCommandResponse rt t command).delays = [500, 1000].take (k - 1) ∧
      (fetchCommandResponse rt t command).completion = .returned data) ∧
    (categoryAccepted rt coinName chain category = true → transientBefore [429, 401] t k →
      (fetchCategoryResponse rt t coinName chain category).invocations = k ∧
      (fetchCategoryResponse rt t coinName chain category).delays = [500, 1000].take (k - 1) ∧
      (fetchCategoryResponse rt t coinName chain category).completion = .returned data) ∧
    (newsAccepted rt interests days = true → transientBefore [429, 401] t k →
      (fetchNewsRaw rt t interests days).invocations = k ∧
      (fetchNewsRaw rt t interests days).delays = [500, 1000].take (k - 1) ∧
      (fetchNewsRaw rt t interests days).completion = .returned data) := by
  have hd : ∀ (req : Request) (c : Completion),
      (Run.mk c (retryTrace req k)).delays = [500, 1000].take (k - 1) := by
    intro req c
    interval_cases k <;> rfl
  refine ⟨?_, ?_, ?_⟩
  · intro hacc hprev
    obtain ⟨req, h⟩ := fetchCommandResponse_settles rt t command hacc k _ hk1 hk3
      (fun i h1 h2 => verdict_raw_transient _ (hprev i h1 h2))
      (hk ▸ verdict_raw_success _ data hlog)
    rw [h]
    exact ⟨retryTrace_invocations _ _ _, hd _ _, rfl⟩
  · intro hacc hprev
    obtain ⟨req, h⟩ := fetchCategoryResponse_settles rt t coinName chain category hacc k _
      hk1 hk3 (fun i h1 h2 => verdict_raw_transient_auth _ (hprev i h1 h2))
      (hk ▸ verdict_raw_success _ data hlog)
    rw [h]
    exact ⟨retryTrace_invocations _ _ _, hd _ _, rfl⟩
  · intro hacc hprev
    obtain ⟨req, h⟩ := fetchNewsRaw_settles rt t interests days hacc k _ hk1 hk3
      (fun i h1 h2 => verdict_raw_transient_auth _ (hprev i h1 h2))
      (hk ▸ verdict_raw_success _ data hlog)
    rw [h]
    exact ⟨retryTrace_invocations _ _ _, hd _ _, rfl⟩

/-- Witness of the amended C11: a timeout, then a response without `choices`. -/
theorem C11_short_content_is_returned_witness :
    (fetchCommandResponse asciiRuntime
        (fun i => if i = 1 then .failed else .resolved (.obj [("id", .str "r1")]))
        (.str "ghost")).completion = .returned (.obj [("id", .str "r1")]) ∧
    (fetchCategoryResponse asciiRuntime
        (fun i => if i = 1 then .failed else .resolved (.obj [("id", .str "r1")]))
        (.str "Ethereum") (.str "Ethereum") (.str "value")).completion =
      .returned (.obj [("id", .str "r1")]) ∧
    (fetchNewsRaw asciiRuntime
        (fun i => if i = 1 then .failed else .resolved (.obj [("id", .str "r1")]))
        (.arr []) (.num 3)).completion = .returned (.obj [("id", .str "r1")]) :=
  have h := C11_short_content_is_returned asciiRuntime
    (fun i => if i = 1 then .failed else .resolved (.obj [("id", .str "r1")]))
    (.str "ghost") (.str "Ethereum") (.str "Ethereum") (.str "value") (.arr []) (.num 3)
    2 _ (by decide) (by decide) rfl (by decide) (by decide)
  have hprev : ∀ terminal, transientBefore terminal
      (fun i => if i = 1 then TransportOutcome.failed
        else TransportOutcome.resolved (.obj [("id", .str "r1")])) 2 :=
    fun _ i h1 h2 => by
      have hi : i = 1 := by omega
      subst hi
      rfl
  ⟨(h.1 (by decide) (hprev _)).2.2, (h.2.1 (by decide) (hprev _)).2.2,
   (h.2.2 (by decide) (hprev _)).2.2⟩

/-! ## Strings that differ only in letter case -/

theorem isJsWhiteSpace_letter (c : Char) (h1 : 65 ≤ c.toNat) (h2 : c.toNat ≤ 122) :
    isJsWhiteSpace c = false := by
  simp only [isJsWhiteSpace, Bool.or_eq_false_iff, Bool.and_eq_false_imp, beq_eq_false_iff_ne,
    decide_eq_true_eq, decide_eq_false_iff_not]
  omega

theorem sameLetter_whiteSpace (c d : Char) (h : sameLetter c d) :
    isJsWhiteSpace c = isJsWhiteSpace d := by
  rcases h with h | ⟨h1, h2, h3⟩ | ⟨h1, h2, h3⟩
  · rw [h]
  · rw [isJsWhiteSpace_letter c (by omega) (by omega),
      isJsWhiteSpace_letter d (by omega) (by omega)]
  · rw [isJsWhiteSpace_letter c (by omega) (by omega),
      isJsWhiteSpace_letter d (by omega) (by omega)]

theorem forall₂_dropWhile {R : Char → Char → Prop} (p : Char → Bool)
    (hp : ∀ c d, R c d → p c = p d) :
    ∀ {a b : List Char}, List.Forall₂ R a b →
      List.Forall₂ R (a.dropWhile p) (b.dropWhile p) := by
  intro a b h
  induction h with
  | nil => exact List.Forall₂.nil
  | @cons c d l₁ l₂ hcd hrest ih =>
    have := hp c d hcd
    cases hpc : p c with
    | true =>
      have hpd : p d = true := by rw [← this, hpc]
      simpa [List.dropWhile, hpc, hpd] using ih
    | false =>
      have hpd : p d = false := by rw [← this, hpc]
      simpa [List.dropWhile, hpc, hpd] using List.Forall₂.cons hcd hrest

theorem differOnlyInCase_trim (a b : String) (h : differOnlyInCase a b) :
    differOnlyInCase (jsTrim a) (jsTrim b) := by
  unfold differOnlyInCase jsTrim at *
  apply List.forall₂_reverse_iff.mp
  simp only [List.reverse_reverse]
  apply forall₂_dropWhile _ sameLetter_whiteSpace
  apply List.forall₂_reverse_iff.mpr
  exact forall₂_dropWhile _ sameLetter_whiteSpace h

theorem forall₂_sameLetter_units {l₁ l₂ : List Char} (h : List.Forall₂ sameLetter l₁ l₂) :
    (l₁.map (fun c => if 65536 ≤ c.toNat then 2 else 1)).sum =
      (l₂.map (fun c => if 65536 ≤ c.toNat then 2 else 1)).sum := by
  induction h with
  | nil => rfl
  | @cons c d l₁ l₂ hcd _ ih =>
    have hc : (65536 ≤ c.toNat) ↔ (65536 ≤ d.toNat) := by
      rcases hcd with h | ⟨h1, h2, h3⟩ | ⟨h1, h2, h3⟩
      · rw [h]
      · constructor <;> intro <;> omega
      · constructor <;> intro <;> omega
    simp only [List.map_cons, List.sum_cons, ih]
    by_cases h65 : 65536 ≤ c.toNat
    · simp [h65, hc.mp h65]
    · have : ¬ 65536 ≤ d.toNat := fun hd => h65 (hc.mpr hd)
      simp [h65, this]

theorem differOnlyInCase_length (a b : String) (h : differOnlyInCase a b) :
    jsLength a = jsLength b :=
  forall₂_sameLetter_units h

theorem differOnlyInCase_empty (a b : String) (h : differOnlyInCase a b) :
    a = "" ↔ b = "" := by
  unfold differOnlyInCase at h
  have hl := h.length_eq
  constructor
  · intro ha
    subst ha
    have : b.data = [] := List.length_eq_zero.mp (by simpa using hl.symm)
    exact String.ext this
  · intro hb
    subst hb
    have : a.data = [] := List.length_eq_zero.mp (by simpa using hl)
    exact String.ext this

theorem sameLetter_toLower (c d : Char) (h : sameLetter c d) : c.toLower = d.toLower := by
  rcases h with h | ⟨h1, h2, h3⟩ | ⟨h1, h2, h3⟩
  · rw [h]
  · have hd : ¬ (d.toNat ≥ 65 ∧ d.toNat ≤ 90) := by omega
    simp only [Char.toLower, h1, h2, hd, ge_iff_le, and_self, if_true, if_false]
    rw [← h3, Char.ofNat_toNat]
  · have hc : ¬ (c.toNat ≥ 65 ∧ c.toNat ≤ 90) := by omega
    simp only [Char.toLower, h1, h2, hc, ge_iff_le, and_self, if_true, if_false]
    rw [← h3, Char.ofNat_toNat]

theorem sameLetter_toUpper (c d : Char) (h : sameLetter c d) : c.toUpper = d.toUpper := by
  rcases h with h | ⟨h1, h2, h3⟩ | ⟨h1, h2, h3⟩
  · rw [h]
  · have hc : ¬ (c.toNat ≥ 97 ∧ c.toNat ≤ 122) := by omega
    have hd : d.toNat ≥ 97 ∧ d.toNat ≤ 122 := by omega
    simp only [Char.toUpper, hc, hd, and_self, if_true, if_false]
    have : d.toNat - 32 = c.toNat := by omega
    rw [this, Char.ofNat_toNat]
  · have hd : ¬ (d.toNat ≥ 97 ∧ d.toNat ≤ 122) := by omega
    have hc : c.toNat ≥ 97 ∧ c.toNat ≤ 122 := by omega
    simp only [Char.toUpper, hc, hd, and_self, if_true, if_false]
    have : c.toNat - 32 = d.toNat := by omega
    rw [this, Char.ofNat_toNat]

theorem forall₂_sameLetter_map {l₁ l₂ : List Char} (h : List.Forall₂ sameLetter l₁ l₂) :
    l₁.map Char.toLower = l₂.map Char.toLower ∧ l₁.map Char.toUpper = l₂.map Char.toUpper := by
  induction h with
  | nil => exact ⟨rfl, rfl⟩
  | cons hcd _ ih =>
    simp [sameLetter_toLower _ _ hcd, sameLetter_toUpper _ _ hcd, ih.1, ih.2]

theorem asciiRuntime_caseInsensitive : asciiRuntime.caseInsensitive := by
  intro a b h
  have := forall₂_sameLetter_map h
  exact ⟨congrArg String.mk this.1, congrArg String.mk this.2⟩

/-- C12: catalog lookup is case-insensitive.  With case mappings that identify
strings differing only in letter case, two key strings that differ only in the
case of their (ASCII) letters, such as 'flash' and 'FLASH', give
fetchCommandResponse the same
result of the COMMAND_CONFIGS lookup and the same run, and give
fetchCategoryResponse the same result of the CATEGORY_CONFIGS lookup and the same
run: both resolve to the identical entry, or both are rejected alike. -/
theorem C12_lookup_is_case_insensitive (rt : Runtime) (hrt : rt.caseInsensitive)
    (t : Transport) (a b : String) (h : differOnlyInCase a b) (coinName chain : JsVal) :
    lookupProperty COMMAND_CONFIGS (rt.toUpperCase (jsTrim a)) =
      lookupProperty COMMAND_CONFIGS (rt.toUpperCase (jsTrim b)) ∧
    fetchCommandResponse rt t (.str a) = fetchCommandResponse rt t (.str b) ∧
    lookupProperty CATEGORY_CONFIGS (rt.toLowerCase a) =
      lookupProperty CATEGORY_CONFIGS (rt.toLowerCase b) ∧
    fetchCategoryResponse rt t coinName chain (.str a) =
      fetchCategoryResponse rt t coinName chain (.str b) := by
  have htrim := differOnlyInCase_trim a b h
  have hup : rt.toUpperCase (jsTrim a) = rt.toUpperCase (jsTrim b) := (hrt _ _ htrim).2
  have hlow : rt.toLowerCase a = rt.toLowerCase b := (hrt a b h).1
  have hlen : jsLength (jsTrim a) = jsLength (jsTrim b) := differOnlyInCase_length _ _ htrim
  have hempty : (a = "") = (b = "") := propext (differOnlyInCase_empty a b h)
  refine ⟨by rw [hup], ?_, by rw [hlow], ?_⟩
  · simp only [fetchCommandResponse, JsVal.toJsString, hup, hlen, hempty]
  · simp only [fetchCategoryResponse, hlow, hempty]

/-- Witness of C12: 'flash' and 'FLASH' with the ASCII case mappings. -/
theorem C12_lookup_is_case_insensitive_witness :
    lookupProperty COMMAND_CONFIGS (asciiRuntime.toUpperCase (jsTrim "flash")) =
      lookupProperty COMMAND_CONFIGS (asciiRuntime.toUpperCase (jsTrim "FLASH")) ∧
    fetchCommandResponse asciiRuntime (fun _ => .failed) (.str "flash") =
      fetchCommandResponse asciiRuntime (fun _ => .failed) (.str "FLASH") :=
  have h := C12_lookup_is_case_insensitive asciiRuntime asciiRuntime_caseInsensitive
    (fun _ => .failed) "flash" "FLASH"
    (List.Forall₂.cons (Or.inr (Or.inr ⟨by decide, by decide, by decide⟩))
      (List.Forall₂.cons (Or.inr (Or.inr ⟨by decide, by decide, by decide⟩))
        (List.Forall₂.cons (Or.inr (Or.inr ⟨by decide, by decide, by decide⟩))
          (List.Forall₂.cons (Or.inr (Or.inr ⟨by decide, by decide, by decide⟩))
            (List.Forall₂.cons (Or.inr (Or.inr ⟨by decide, by decide, by decide⟩))
              List.Forall₂.nil)))))
    (.str "Ethereum") (.str "Ethereum")
  ⟨h.1, h.2.1⟩

/-! ## Keys absent from a catalog -/

theorem fetchCategoryResponse_missing_key (rt : Runtime) (t : Transport)
    (coinName chain : JsVal) (cat : String)
    (hcoin : isBlank coinName = false) (hchain : isBlank chain = false) (hcat : cat ≠ "")
    (habsent : lookupProperty CATEGORY_CONFIGS (rt.toLowerCase cat) = .absent) :
    fetchCategoryResponse rt t coinName chain (.str cat) =
      ⟨.threw (.error ("Configuration not found for category: " ++ rt.toLowerCase cat)), []⟩ := by
  simp [fetchCategoryResponse, hcoin, hchain, hcat, habsent]

theorem fetchCommandResponse_missing_key (rt : Runtime) (t : Transport) (command : String)
    (hblank : isBlank (.str command) = false)
    (habsent : lookupProperty COMMAND_CONFIGS (rt.toUpperCase (jsTrim command)) = .absent) :
    fetchCommandResponse rt t (.str command) =
      ⟨.threw (.error ("Invalid command: " ++ rt.toUpperCase (jsTrim command))), []⟩ := by
  have h : ¬ (command = "" ∨ jsLength (jsTrim command) = 0) := by
    simpa [isBlank] using hblank
  simp [fetchCommandResponse, JsVal.toJsString, h, habsent]

/-- C13 at its failing input: the category keys 'constructor' and '__proto__' are not
own keys of CATEGORY_CONFIGS, yet fetchCategoryResponse does not fail with the
configuration-missing error.  The lookup yields the inherited value, the test
`!config` passes, and `config.prompt.replace` throws a TypeError (before any
transport invocation).  On the command path the same names are upper-cased first
and are rejected with 'Invalid command: <KEY>'. -/
theorem C13_inherited_category_key_throws_type_error (t : Transport) :
    fetchCategoryResponse asciiRuntime t (.str "Ethereum") (.str "Ethereum")
        (.str "constructor") = ⟨.threw .typeError, []⟩ ∧
    fetchCategoryResponse asciiRuntime t (.str "Ethereum") (.str "Ethereum")
        (.str "__proto__") = ⟨.threw .typeError, []⟩ ∧
    Completion.threw .typeError ≠
      .threw (.error "Configuration not found for category: constructor") ∧
    fetchCategoryResponse asciiRuntime t (.str "Ethereum") (.str "Ethereum")
        (.str "unknown_key") =
      ⟨.threw (.error "Configuration not found for category: unknown_key"), []⟩ ∧
    fetchCommandResponse asciiRuntime t (.str "constructor") =
      ⟨.threw (.error "Invalid command: CONSTRUCTOR"), []⟩ ∧
    fetchCommandResponse asciiRuntime t (.str "__proto__") =
      ⟨.threw (.error "Invalid command: __PROTO__"), []⟩ := by
  refine ⟨rfl, rfl, ?_, rfl, rfl, rfl⟩
  intro h
  cases h

/-! ## The results object -/

theorem analysisPromise_eq (category : String) (run : Run) :
    analysisPromise category run = .fulfilled category run.entry := by
  unfold analysisPromise Run.entry
  cases run.completion <;> rfl

theorem collectResults_snoc (units : List (String × Run)) (unit : String × Run) :
    collectResults (units ++ [unit]) =
      setProperty (collectResults units) unit.1 unit.2.entry := by
  simp [collectResults, List.foldl_append, analysisPromise_eq, recordResult]

theorem setProperty_keys (results : List (String × Entry)) (key : String) (value : Entry) :
    (setProperty results key value).map Prod.fst =
      if key ∈ results.map Prod.fst then results.map Prod.fst
      else results.map Prod.fst ++ [key] := by
  unfold setProperty
  have hany : (results.any (fun kv => kv.1 == key)) = true ↔ key ∈ results.map Prod.fst := by
    simp only [List.any_eq_true, beq_iff_eq, List.mem_map]
  by_cases hk : key ∈ results.map Prod.fst
  · rw [if_pos (hany.mpr hk), if_pos hk, List.map_map]
    apply List.map_congr_left
    intro kv _
    by_cases h : kv.1 = key <;> simp [h]
  · rw [if_neg (fun h => hk (hany.mp h)), if_neg hk]
    simp

theorem lookup_cons_ite (c k : String) (v : Entry) (l : List (String × Entry)) :
    List.lookup c ((k, v) :: l) = if c = k then some v else List.lookup c l := by
  by_cases h : c = k
  · subst h; simp [List.lookup]
  · have hb : (c == k) = false := by simpa using h
    simp [List.lookup, hb, h]

theorem lookup_map_replace (l : List (String × Entry)) (key : String) (value : Entry)
    (c : String) :
    (l.map (fun kv => if kv.1 == key then (key, value) else kv)).lookup c =
      if c = key then (if l.any (fun kv => kv.1 == key) then some value else none)
      else l.lookup c := by
  induction l with
  | nil => by_cases h : c = key <;> simp [h]
  | cons kv rest ih =>
    obtain ⟨k, v⟩ := kv
    by_cases hk : k = key
    · subst hk
      simp only [List.map_cons, beq_self_eq_true, if_true, lookup_cons_ite, List.any_cons,
        Bool.true_or]
      by_cases h : c = k
      · simp [h]
      · rw [if_neg h, if_neg h, ih, if_neg h, if_neg h]
    · have hkb : (k == key) = false := by simpa using hk
      simp only [List.map_cons, hkb, Bool.false_eq_true, if_false, lookup_cons_ite, List.any_cons,
        Bool.false_or, ih]
      by_cases h : c = key
      · have : ¬ c = k := fun hck => hk (hck ▸ h)
        simp [h, this]
        intro hck
        exact absurd (hck ▸ h ▸ rfl : k = key) hk
      · simp [h]

theorem lookup_append_single (l : List (String × Entry)) (key : String) (value : Entry)
    (c : String) (hnew : l.any (fun kv => kv.1 == key) = false) :
    (l ++ [(key, value)]).lookup c = if c = key then some value else l.lookup c := by
  induction l with
  | nil => simp [lookup_cons_ite]
  | cons kv rest ih =>
    obtain ⟨k, v⟩ := kv
    simp only [List.any_cons, Bool.or_eq_false_iff, beq_eq_false_iff_ne, ne_eq] at hnew
    simp only [List.cons_append, lookup_cons_ite, ih hnew.2]
    by_cases h : c = key
    · have : ¬ c = k := fun hck => hnew.1 (hck ▸ h)
      simp [h, this]
      intro hck
      exact absurd (hck ▸ h ▸ rfl : k = key) hnew.1
    · simp [h]

theorem setProperty_lookup (results : List (String × Entry)) (key : String) (value : Entry)
    (c : String) :
    (setProperty results key value).lookup c =
      if c = key then some value else results.lookup c := by
  unfold setProperty
  cases hany : results.any (fun kv => kv.1 == key) with
  | true =>
    rw [if_pos rfl, lookup_map_replace, hany]
    simp
  | false =>
    rw [if_neg (by simp), lookup_append_single _ _ _ _ hany]

theorem collectResults_keys (units : List (String × Run)) :
    ((collectResults units).map Prod.fst).Nodup ∧
      ∀ c, c ∈ (collectResults units).map Prod.fst ↔ c ∈ units.map Prod.fst := by
  induction units using List.reverseRecOn with
  | nil => simp [collectResults]
  | append_singleton units unit ih =>
    rw [collectResults_snoc, setProperty_keys]
    by_cases hk : unit.1 ∈ (collectResults units).map Prod.fst
    · rw [if_pos hk]
      refine ⟨ih.1, fun c => ?_⟩
      rw [ih.2 c, List.map_append, List.mem_append]
      constructor
      · exact Or.inl
      · rintro (h | h)
        · exact h
        · have : c = unit.1 := by simpa using h
          exact this ▸ (ih.2 _).mp hk
    · rw [if_neg hk]
      refine ⟨?_, fun c => ?_⟩
      · rw [List.nodup_append]
        refine ⟨ih.1, List.nodup_singleton _, ?_⟩
        intro x hx hx'
        have : x = unit.1 := by simpa using hx'
        exact hk (this ▸ hx)
      · simp only [List.mem_append, List.map_append, ih.2 c]
        rfl

theorem launchUnits_keys (rt : Runtime) (transports : Nat → Transport) (asset network : String)
    (selected : List String) :
    ∀ i, (launchUnits rt transports asset network i selected).map Prod.fst = selected := by
  induction selected with
  | nil => intro i; rfl
  | cons c rest ih => intro i; simp [launchUnits, ih]

theorem isInvalidName_truthy (v : JsVal) (h : isInvalidName v = false) : v.truthy = true := by
  cases v with
  | str s =>
    simp only [isInvalidName, Bool.or_eq_false_iff, beq_eq_false_iff_ne, ne_eq] at h
    simp only [JsVal.truthy, bne_iff_ne, ne_eq]
    intro hs
    subst hs
    exact h.1 (by decide)
  | _ => simp [isInvalidName] at h

theorem processIQScoreRequest_accepted (rt : Runtime) (transports : Nat → Transport)
    (asset network categories : JsVal) (selected : List String)
    (hacc : iqAccepted rt asset network categories selected) :
    processIQScoreRequest rt transports asset network categories =
      ⟨.replied 200 (.results (collectResults
          (launchUnits rt transports (jsTrim asset.text) (jsTrim network.text) 0 selected))),
        (launchUnits rt transports (jsTrim asset.text) (jsTrim network.text) 0 selected).map
          (fun unit => unit.2)⟩ := by
  obtain ⟨ha, hn, hsel, hvalid⟩ := hacc
  have hfilter : selected.filter (fun c => !VALID_CATEGORIES.contains c) = [] := by
    rw [List.filter_eq_nil_iff]
    intro c hc
    have := hvalid c hc
    simp [this]
  simpa [processIQScoreRequest, isInvalidName_truthy _ ha, isInvalidName_truthy _ hn, ha, hn,
    hsel, hfilter] using hvalid

/-- C14, as stated, fails: a request whose categories list is ['audit', 'audit']
passes validation and launches two units, but `results` is keyed by category and
has a single entry, not two. -/
theorem C14_duplicate_category_counterexample :
    iqAccepted asciiRuntime (.str "Ethereum") (.str "Ethereum")
      (.arr [.str "audit", .str "audit"]) ["audit", "audit"] ∧
    (processIQScoreRequest asciiRuntime (fun _ _ => .httpError 429)
        (.str "Ethereum") (.str "Ethereum") (.arr [.str "audit", .str "audit"])).outcome =
      .replied 200 (.results
        [("audit", .error (.error "Sonar API rate limit exceeded"))]) ∧
    [("audit", Entry.error (.error "Sonar API rate limit exceeded"))].length ≠
      ["audit", "audit"].length :=
  ⟨⟨rfl, rfl, rfl, by decide⟩, rfl, by decide⟩

/-- C14, amended: for every IQScore request that passes validation, the reply is
200 with a `results` object that has exactly one entry for each distinct
lower-cased requested category: its keys are pairwise distinct and are exactly the
requested categories, whatever each unit's outcome, so no requested category is
dropped.  The number of entries is at most the length of the (lower-cased)
categories list, and equals it when that list has no repetition. -/
theorem C14_one_entry_per_distinct_category (rt : Runtime) (transports : Nat → Transport)
    (asset network categories : JsVal) (selected : List String)
    (hacc : iqAccepted rt asset network categories selected) :
    ∃ results,
      (processIQScoreRequest rt transports asset network categories).outcome =
        .replied 200 (.results results) ∧
      (results.map Prod.fst).Nodup ∧
      (∀ c, c ∈ results.map Prod.fst ↔ c ∈ selected) ∧
      results.length ≤ selected.length ∧
      (selected.Nodup → results.length = selected.length) := by
  refine ⟨_, by rw [processIQScoreRequest_accepted _ _ _ _ _ _ hacc], ?_⟩
  have hk := collectResults_keys
    (launchUnits rt transports (jsTrim asset.text) (jsTrim network.text) 0 selected)
  rw [launchUnits_keys] at hk
  refine ⟨hk.1, hk.2, ?_, ?_⟩
  · have := (List.Nodup.subperm hk.1 (fun c hc => (hk.2 c).mp hc)).length_le
    simpa using this
  · intro hnodup
    have := ((List.perm_ext_iff_of_nodup hk.1 hnodup).mpr hk.2).length_eq
    simpa using this

/-- Witness of the amended C14: three distinct categories in mixed case. -/
theorem C14_one_entry_per_distinct_category_witness :
    ∃ results,
      (processIQScoreRequest asciiRuntime (fun _ _ => .failed)
          (.str "Ethereum") (.str "Ethereum")
          (.arr [.str "Audit", .str "team", .str "SCAM"])).outcome =
        .replied 200 (.results results) ∧
      (results.map Prod.fst).Nodup ∧
      (∀ c, c ∈ results.map Prod.fst ↔ c ∈ ["audit", "team", "scam"]) ∧
      results.length ≤ ["audit", "team", "scam"].length ∧
      (["audit", "team", "scam"].Nodup → results.length = ["audit", "team", "scam"].length) :=
  C14_one_entry_per_distinct_category asciiRuntime (fun _ _ => .failed)
    (.str "Ethereum") (.str "Ethereum") (.arr [.str "Audit", .str "team", .str "SCAM"])
    ["audit", "team", "scam"] ⟨rfl, rfl, rfl, by decide⟩

theorem collectResults_lookup_last (pre : List (String × Run)) (c : String) (run : Run) :
    ∀ post : List (String × Run), c ∉ post.map Prod.fst →
      (collectResults (pre ++ (c, run) :: post)).lookup c = some run.entry := by
  intro post
  induction post using List.reverseRecOn with
  | nil =>
    intro _
    rw [collectResults_snoc, setProperty_lookup, if_pos rfl]
  | append_singleton post unit ih =>
    intro hc
    have hc1 : c ∉ post.map Prod.fst := fun h => hc (by simp [h])
    have hc2 : ¬ c = unit.1 := fun h => hc (by simp [h])
    have : pre ++ (c, run) :: (post ++ [unit]) = (pre ++ (c, run) :: post) ++ [unit] := by simp
    rw [this, collectResults_snoc, setProperty_lookup, if_neg hc2, ih hc1]

theorem collectResults_lookup_filter (c : String) (units : List (String × Run)) :
    (collectResults units).lookup c =
      (collectResults (units.filter (fun unit => unit.1 == c))).lookup c := by
  induction units using List.reverseRecOn with
  | nil => rfl
  | append_singleton units unit ih =>
    rw [collectResults_snoc, setProperty_lookup, List.filter_append]
    by_cases h : c = unit.1
    · have hf : [unit].filter (fun unit => unit.1 == c) = [unit] := by simp [h]
      rw [if_pos h, hf, collectResults_snoc, setProperty_lookup, if_pos h]
    · have hf : [unit].filter (fun unit => unit.1 == c) = [] := by
        simp only [List.filter_cons, List.filter_nil]
        have hb : (unit.1 == c) = false := by
          simp only [beq_eq_false_iff_ne, ne_eq]
          exact fun h' => h h'.symm
        simp [hb]
      rw [if_neg h, hf, List.append_nil, ih]

theorem launchUnits_append (rt : Runtime) (transports : Nat → Transport)
    (asset network : String) (l₁ l₂ : List String) :
    ∀ i, launchUnits rt transports asset network i (l₁ ++ l₂) =
      launchUnits rt transports asset network i l₁ ++
        launchUnits rt transports asset network (i + l₁.length) l₂ := by
  induction l₁ with
  | nil => intro i; simp [launchUnits]
  | cons c rest ih =>
    intro i
    have hi : i + 1 + rest.length = i + (rest.length + 1) := by omega
    show (c, _) :: launchUnits rt transports asset network (i + 1) (rest ++ l₂) = _
    rw [ih, hi]
    rfl

theorem launchUnits_filter_congr (rt : Runtime) (transports transports' : Nat → Transport)
    (asset network : String) (c' : String) (selected : List String) :
    ∀ i, (∀ before c after, selected = before ++ c :: after → c = c' →
        transports (i + before.length) = transports' (i + before.length)) →
      (launchUnits rt transports asset network i selected).filter (fun unit => unit.1 == c') =
        (launchUnits rt transports' asset network i selected).filter
          (fun unit => unit.1 == c') := by
  induction selected with
  | nil => intro i _; rfl
  | cons x rest ih =>
    intro i h
    have hrest := ih (i + 1) (fun before c after hsel hc => by
      have := h (x :: before) c after (by rw [hsel]; rfl) hc
      simpa [Nat.add_assoc, Nat.add_comm 1] using this)
    simp only [launchUnits, List.filter_cons]
    by_cases hx : x = c'
    · have := h [] x rest rfl hx
      simp only [List.length_nil, Nat.add_zero] at this
      simp [hx, this, hrest]
    · have hb : (x == c') = false := by simpa using hx
      simp [hb, hrest]

/-- C15, as stated, fails: with the categories list ['audit', 'audit'] the first
unit throws the rate-limit error and the second unit succeeds; the reply is 200,
but the first unit is not recorded as an error under its category: the entry of
'audit' is the success of the second unit. -/
theorem C15_overwritten_error_counterexample :
    iqAccepted asciiRuntime (.str "Ethereum") (.str "Ethereum")
      (.arr [.str "audit", .str "audit"]) ["audit", "audit"] ∧
    (fetchCategoryResponse asciiRuntime (fun _ => .httpError 429)
        (.str "Ethereum") (.str "Ethereum") (.str "audit")).completion =
      .threw (.error "Sonar API rate limit exceeded") ∧
    (processIQScoreRequest asciiRuntime
        (fun i _ => if i = 0 then .httpError 429 else .resolved (.obj [("id", .str "r1")]))
        (.str "Ethereum") (.str "Ethereum") (.arr [.str "audit", .str "audit"])).outcome =
      .replied 200 (.results [("audit", .success (.obj [("id", .str "r1")]))]) :=
  ⟨⟨rfl, rfl, rfl, by decide⟩, rfl, rfl⟩

/-- C15, amended: for every request that passes validation and every assignment of
transport outcomes to units, processIQScoreRequest answers 200 with a `results`
object.  A unit after which the list holds no further unit of the same category
determines the entry of its category: `{ status: 'error', response: { error:
message } }` when its fetchCategoryResponse throws, `{ status: 'success',
response }` when it returns.  And changing the transport outcomes of one unit
leaves the entry of every other category unchanged. -/
theorem C15_batch_isolates_units (rt : Runtime) (transports transports' : Nat → Transport)
    (asset network categories : JsVal) (selected : List String)
    (hacc : iqAccepted rt asset network categories selected) :
    ∃ results results',
      (processIQScoreRequest rt transports asset network categories).outcome =
        .replied 200 (.results results) ∧
      (processIQScoreRequest rt transports' asset network categories).outcome =
        .replied 200 (.results results') ∧
      (∀ before c after, selected = before ++ c :: after → c ∉ after →
        (∀ e, (fetchCategoryResponse rt (transports before.length) (.str (jsTrim asset.text))
            (.str (jsTrim network.text)) (.str c)).completion = .threw e →
          results.lookup c = some (.error e)) ∧
        (∀ v, (fetchCategoryResponse rt (transports before.length) (.str (jsTrim asset.text))
            (.str (jsTrim network.text)) (.str c)).completion = .returned v →
          results.lookup c = some (.success v))) ∧
      (∀ before c after, selected = before ++ c :: after →
        (∀ j, j ≠ before.length → transports j = transports' j) →
        ∀ c', c' ≠ c → results.lookup c' = results'.lookup c') := by
  refine ⟨_, _, by rw [processIQScoreRequest_accepted _ _ _ _ _ _ hacc],
    by rw [processIQScoreRequest_accepted _ _ _ _ _ _ hacc], ?_, ?_⟩
  · intro before c after hsel hlast
    have hentry : (collectResults (launchUnits rt transports (jsTrim asset.text)
        (jsTrim network.text) 0 selected)).lookup c =
        some (fetchCategoryResponse rt (transports before.length) (.str (jsTrim asset.text))
          (.str (jsTrim network.text)) (.str c)).entry := by
      rw [hsel, launchUnits_append]
      simp only [launchUnits, Nat.zero_add]
      apply collectResults_lookup_last
      rw [launchUnits_keys]
      exact hlast
    constructor
    · intro e he
      rw [hentry, Run.entry, he]
    · intro v hv
      rw [hentry, Run.entry, hv]
  · intro before c after hsel hsame c' hc'
    rw [collectResults_lookup_filter c', collectResults_lookup_filter c' (launchUnits rt transports' _ _ _ _)]
    rw [launchUnits_filter_congr rt transports transports' _ _ c' selected 0]
    intro before' d after' hsel' hd
    rw [Nat.zero_add]
    apply hsame
    intro hlen
    rw [hsel] at hsel'
    have := List.append_inj hsel' hlen.symm
    have hcc : c = d := by
      have h2 := this.2
      simp only [List.cons.injEq] at h2
      exact h2.1
    exact hc' (hd.symm.trans hcc.symm)

/-- Witness of the amended C15: three categories, the second unit is rate limited. -/
theorem C15_batch_isolates_units_witness :
    ∃ results,
      (processIQScoreRequest asciiRuntime
          (fun i _ => if i = 1 then .httpError 429 else .resolved (.obj [("id", .str "r1")]))
          (.str "Ethereum") (.str "Ethereum")
          (.arr [.str "audit", .str "team", .str "scam"])).outcome =
        .replied 200 (.results results) ∧
      results.lookup "team" = some (.error (.error "Sonar API rate limit exceeded")) :=
  have ⟨results, _, h1, _, h2, _⟩ := C15_batch_isolates_units asciiRuntime
    (fun i _ => if i = 1 then .httpError 429 else .resolved (.obj [("id", .str "r1")]))
    (fun i _ => if i = 1 then .httpError 429 else .resolved (.obj [("id", .str "r1")]))
    (.str "Ethereum") (.str "Ethereum") (.arr [.str "audit", .str "team", .str "scam"])
    ["audit", "team", "scam"] ⟨rfl, rfl, rfl, by decide⟩
  ⟨results, h1, (h2 ["audit"] "team" ["scam"] rfl (by decide)).1 _ rfl⟩

theorem collectResults_three (a b c : String) (ra rb rc : Run)
    (hab : a ≠ b) (hac : a ≠ c) (hbc : b ≠ c) :
    collectResults [(a, ra), (b, rb), (c, rc)] =
      [(a, ra.entry), (b, rb.entry), (c, rc.entry)] := by
  have h1 : (a == b) = false := by simpa using hab
  have h2 : (a == c) = false := by simpa using hac
  have h3 : (b == c) = false := by simpa using hbc
  simp [collectResults, analysisPromise_eq, recordResult, setProperty, h1, h2, h3]

/-- C16, as stated, fails: with categories audit, team, scam, where the transport of
team fails on every attempt and audit and scam succeed on the first attempt, the
batch result has 3 entries, but the entry of team is tagged 'success' (with the
fallback payload as its response), not 'fallback': no entry tag tells a fallback
from a genuine success. -/
theorem C16_fallback_is_tagged_success_counterexample :
    (processIQScoreRequest asciiRuntime
        (fun i _ => if i = 1 then .failed else .resolved (.obj [("id", .str "r1")]))
        (.str "Ethereum") (.str "Ethereum")
        (.arr [.str "audit", .str "team", .str "scam"])).outcome =
      .replied 200 (.results
        [("audit", .success (.obj [("id", .str "r1")])),
         ("team", .success (fallbackObject "Analysis service temporarily unavailable.")),
         ("scam", .success (.obj [("id", .str "r1")]))]) ∧
    (Entry.success (fallbackObject "Analysis service temporarily unavailable.")).status =
      "success" ∧
    (Entry.success (fallbackObject "Analysis service temporarily unavailable.")).status ≠
      "fallback" :=
  ⟨rfl, rfl, by decide⟩

/-- C16, amended: given three distinct categories A, B, C of a request that passes
validation (with a configured API key), where B's transport is rejected with a
transient error on every attempt and A and C succeed on the first attempt, the
batch result has exactly 3 entries, for A, B and C in this order, all three tagged
'success': A and C hold their response bodies, B holds the canonical fallback
payload.  The fallback is told from a genuine success by its payload only. -/
theorem C16_fallback_entry_in_batch (rt : Runtime) (transports : Nat → Transport)
    (asset network categories : JsVal) (A B C : String) (dataA dataC : JsVal)
    (hacc : iqAccepted rt asset network categories [A, B, C])
    (hAB : A ≠ B) (hAC : A ≠ C) (hBC : B ≠ C)
    (hA : categoryAccepted rt (.str (jsTrim asset.text)) (.str (jsTrim network.text))
      (.str A) = true)
    (hB : categoryAccepted rt (.str (jsTrim asset.text)) (.str (jsTrim network.text))
      (.str B) = true)
    (hC : categoryAccepted rt (.str (jsTrim asset.text)) (.str (jsTrim network.text))
      (.str C) = true)
    (htA : transports 0 1 = .resolved dataA) (hlogA : successLogThrows dataA = false)
    (htB : ∀ i, 1 ≤ i → i ≤ 3 → (transports 1 i).isTransientError [429, 401] = true)
    (htC : transports 2 1 = .resolved dataC) (hlogC : successLogThrows dataC = false) :
    (processIQScoreRequest rt transports asset network categories).outcome =
      .replied 200 (.results
        [(A, .success dataA),
         (B, .success (fallbackObject "Analysis service temporarily unavailable.")),
         (C, .success dataC)]) ∧
    (processIQScoreRequest rt transports asset network categories).invocations = 5 := by
  obtain ⟨reqA, hrA⟩ := fetchCategoryResponse_settles rt (transports 0) _ _ _ hA 1 _
    (by omega) (by omega) (fun i h1 h2 => absurd h1 (by omega))
    (htA ▸ verdict_raw_success terminalRateLimitOrAuth dataA hlogA)
  obtain ⟨reqB, hrB⟩ := fetchCategoryResponse_exhausts rt (transports 1) _ _ _ hB
    (fun i h1 h3 => verdict_raw_transient_auth _ (htB i h1 h3))
  obtain ⟨reqC, hrC⟩ := fetchCategoryResponse_settles rt (transports 2) _ _ _ hC 1 _
    (by omega) (by omega) (fun i h1 h2 => absurd h1 (by omega))
    (htC ▸ verdict_raw_success terminalRateLimitOrAuth dataC hlogC)
  rw [processIQScoreRequest_accepted _ _ _ _ _ _ hacc]
  simp only [launchUnits, Nat.zero_add, hrA, hrB, hrC]
  refine ⟨?_, ?_⟩
  · rw [collectResults_three _ _ _ _ _ _ hAB hAC hBC]
    rfl
  · simp [Handled.invocations, retryTrace_invocations]

/-- Witness of the amended C16: audit, team and scam, where team times out. -/
theorem C16_fallback_entry_in_batch_witness :
    (processIQScoreRequest asciiRuntime
        (fun i _ => if i = 1 then .failed else .resolved (.obj [("id", .str "r1")]))
        (.str "Ethereum") (.str "Ethereum")
        (.arr [.str "audit", .str "team", .str "scam"])).invocations = 5 :=
  (C16_fallback_entry_in_batch asciiRuntime
    (fun i _ => if i = 1 then .failed else .resolved (.obj [("id", .str "r1")]))
    (.str "Ethereum") (.str "Ethereum") (.arr [.str "audit", .str "team", .str "scam"])
    "audit" "team" "scam" _ _ ⟨rfl, rfl, rfl, by decide⟩ (by decide) (by decide) (by decide)
    (by decide) (by decide) (by decide) rfl (by decide) (fun _ _ _ => rfl) rfl (by decide)).2

/-! ## The sanitizer, character by character -/

theorem sanitize_image (c : Char) :
    ((escapeQuote c).flatMap blankControl).flatMap dropNonPrintable = sanitizedImage c := by
  have h92 : (Char.ofNat 92).toNat = 92 := by decide
  have h32 : (Char.ofNat 32).toNat = 32 := by decide
  unfold escapeQuote blankControl dropNonPrintable sanitizedImage
  by_cases hq : c.toNat = 34
  · simp [hq, h92]
  · by_cases hctl : c.toNat = 9 ∨ c.toNat = 10 ∨ c.toNat = 13
    · have hctl' : c.toNat = 10 ∨ c.toNat = 13 ∨ c.toNat = 9 := by omega
      simp [hq, hctl, hctl', h32]
    · have hctl' : ¬ (c.toNat = 10 ∨ c.toNat = 13 ∨ c.toNat = 9) := by omega
      simp [hq, hctl, hctl']

theorem sanitize_passes (l : List Char) :
    ((l.flatMap escapeQuote).flatMap blankControl).flatMap dropNonPrintable =
      l.flatMap sanitizedImage := by
  induction l with
  | nil => rfl
  | cons c rest ih =>
    simp only [List.flatMap_cons, List.flatMap_append, ih, sanitize_image]

theorem sanitizeJsonString_str (s : String) :
    sanitizeJsonString (.str s) = .str ⟨s.data.flatMap sanitizedImage⟩ := by
  show JsVal.str ⟨((s.data.flatMap escapeQuote).flatMap blankControl).flatMap
    dropNonPrintable⟩ = _
  rw [sanitize_passes]

theorem sanitizedImage_fixes (l : List Char) (hprint : ∀ c ∈ l, 32 ≤ c.toNat ∧ c.toNat ≤ 126)
    (hquote : ∀ c ∈ l, c.toNat ≠ 34) : l.flatMap sanitizedImage = l := by
  induction l with
  | nil => rfl
  | cons c rest ih =>
    have hc := hprint c (List.mem_cons_self _ _)
    have hq := hquote c (List.mem_cons_self _ _)
    have hctl : ¬ (c.toNat = 9 ∨ c.toNat = 10 ∨ c.toNat = 13) := by omega
    have himg : sanitizedImage c = [c] := by simp [sanitizedImage, hctl, hq, hc]
    rw [List.flatMap_cons, himg,
      ih (fun d hd => hprint d (List.mem_cons_of_mem _ hd))
        (fun d hd => hquote d (List.mem_cons_of_mem _ hd))]
    rfl

theorem sanitizedImage_printable (c d : Char) (h : d ∈ sanitizedImage c) :
    32 ≤ d.toNat ∧ d.toNat ≤ 126 := by
  have h92 : (Char.ofNat 92).toNat = 92 := by decide
  have h32 : (Char.ofNat 32).toNat = 32 := by decide
  unfold sanitizedImage at h
  split_ifs at h with h1 h2 h3
  · have : d = Char.ofNat 32 := by simpa using h
    rw [this, h32]; omega
  · rcases List.mem_cons.mp h with h | h
    · rw [h, h92]; omega
    · have : d = c := by simpa using h
      rw [this, h2]; omega
  · have : d = c := by simpa using h
    rw [this]; exact h3
  · simp at h

/-- C18: for every string s, sanitizeJsonString(s) contains only characters in the
printable ASCII range 0x20-0x7E.  It is s with each character replaced by its
image, where the image of a tab, newline or carriage return is exactly one space
and the image of every other character outside 0x20-0x7E is empty (the character
is removed).  An argument that is not a string is returned unchanged. -/
theorem C18_sanitizer_output_is_printable (s : String) :
    (∃ out, sanitizeJsonString (.str s) = .str out ∧ isPrintableAscii out ∧
      out.data = s.data.flatMap sanitizedImage) ∧
    (∀ c : Char, c.toNat = 9 ∨ c.toNat = 10 ∨ c.toNat = 13 →
      sanitizedImage c = [Char.ofNat 32]) ∧
    (∀ c : Char, ¬ (c.toNat = 9 ∨ c.toNat = 10 ∨ c.toNat = 13) →
      ¬ (32 ≤ c.toNat ∧ c.toNat ≤ 126) → sanitizedImage c = []) ∧
    (∀ v : JsVal, (∀ text, v ≠ .str text) → sanitizeJsonString v = v) := by
  refine ⟨⟨_, sanitizeJsonString_str s, ?_, rfl⟩, ?_, ?_, ?_⟩
  · intro d hd
    obtain ⟨c, _, hc⟩ := List.mem_flatMap.mp hd
    exact sanitizedImage_printable c d hc
  · intro c hc
    simp [sanitizedImage, hc]
  · intro c hctl hprint
    have hq : ¬ c.toNat = 34 := fun h => hprint (by omega)
    simp [sanitizedImage, hctl, hq, hprint]
  · intro v hv
    cases v with
    | str text => exact absurd rfl (hv text)
    | _ => rfl

/-- C19, as stated, fails: the string `say "hi"` is printable ASCII, but
sanitizeJsonString changes it: each double quote is escaped with a backslash. -/
theorem C19_quote_is_escaped_counterexample :
    isPrintableAscii "say \"hi\"" ∧
    sanitizeJsonString (.str "say \"hi\"") = .str "say \\\"hi\\\"" ∧
    "say \\\"hi\\\"" ≠ "say \"hi\"" :=
  ⟨by unfold isPrintableAscii; decide, rfl, by decide⟩

/-- C19, amended: for every string s made only of printable ASCII characters
(0x20-0x7E) other than the double quote, sanitizeJsonString(s) = s. -/
theorem C19_sanitizer_fixes_quote_free_printable (s : String) (hprint : isPrintableAscii s)
    (hquote : ∀ c ∈ s.data, c.toNat ≠ 34) :
    sanitizeJsonString (.str s) = .str s := by
  rw [sanitizeJsonString_str, sanitizedImage_fixes s.data hprint hquote]

/-- Witness of the amended C19. -/
theorem C19_sanitizer_fixes_quote_free_printable_witness :
    sanitizeJsonString (.str "Ethereum (ETH) ~ $1,000!") = .str "Ethereum (ETH) ~ $1,000!" :=
  C19_sanitizer_fixes_quote_free_printable "Ethereum (ETH) ~ $1,000!"
    (by unfold isPrintableAscii; decide) (by decide)

/-! ## The prompt of fetchCategoryResponse -/

theorem expandReplacement_plain (matched before after : List Char) :
    ∀ repl : List Char, (∀ c ∈ repl, c.toNat ≠ 36) →
      expandReplacement matched before after repl = repl := by
  intro repl
  induction repl with
  | nil => intro _; rfl
  | cons c rest ih =>
    intro h
    have hc : ¬ c.toNat = 36 := h c (List.mem_cons_self _ _)
    have hrest := ih (fun d hd => h d (List.mem_cons_of_mem _ hd))
    cases rest with
    | nil => rfl
    | cons d rest' =>
      rw [expandReplacement, if_neg hc, hrest]

theorem replaceScan_plain (pat repl : List Char) (hplain : ∀ c ∈ repl, c.toNat ≠ 36) :
    ∀ (s : List Char) (skip : Nat) (before : List Char),
      replaceScan pat repl skip before s = substituteScan pat repl skip s := by
  intro s
  induction s with
  | nil => intro skip before; cases skip <;> rfl
  | cons c rest ih =>
    intro skip before
    cases skip with
    | succ n => simp only [replaceScan, substituteScan, ih]
    | zero =>
      simp only [replaceScan, substituteScan, ih, expandReplacement_plain _ _ _ repl hplain]

theorem replaceLiteralAll_plain (pat repl s : String) (hplain : ∀ c ∈ repl.data, c.toNat ≠ 36) :
    replaceLiteralAll pat repl s = substituteLiteral pat repl s := by
  unfold replaceLiteralAll substituteLiteral
  rw [replaceScan_plain _ _ hplain]

theorem retryLoop_prompts (tryBlock : TransportOutcome → Except (Option Int) JsVal)
    (terminal : Option Int → Option String) (fallback : JsVal)
    (req : Request) (t : Transport) :
    ∃ n, 1 ≤ n ∧ n ≤ 3 ∧
      (retryLoop tryBlock terminal fallback req t 3 3 1 []).prompts =
        List.replicate n req.userPrompt := by
  simp only [retryLoop]
  split
  · exact ⟨1, by omega, by omega, rfl⟩
  · split
    · exact ⟨1, by omega, by omega, rfl⟩
    · split
      · exact ⟨2, by omega, by omega, rfl⟩
      · split
        · exact ⟨2, by omega, by omega, rfl⟩
        · split
          · exact ⟨3, by omega, by omega, rfl⟩
          · split
            · exact ⟨3, by omega, by omega, rfl⟩
            · simp_all

theorem fetchCategoryResponse_request (rt : Runtime) (t : Transport)
    (coinName chain cat : String) (config : Config)
    (hcoin : isBlank (.str coinName) = false) (hchain : isBlank (.str chain) = false)
    (hcat : cat ≠ "")
    (hcfg : lookupProperty CATEGORY_CONFIGS (rt.toLowerCase cat) = .own config)
    (hkey : rt.hasApiKey = true) :
    fetchCategoryResponse rt t (.str coinName) (.str chain) (.str cat) =
      retryLoop rawTryBlock terminalRateLimitOrAuth
        (fallbackObject "Analysis service temporarily unavailable.")
        ⟨rt.apiUrl, rt.bearer, config.model,
          replaceLiteralAll "\x7b\x7bchain\x7d\x7d" (jsTrim chain)
            (replaceLiteralAll "\x7b\x7bcoinName\x7d\x7d" (jsTrim coinName) config.prompt),
          1000, 120000⟩ t 3 3 1 [] := by
  rw [← fetchCategoryResponse_loop_eq]
  unfold Runtime.hasApiKey at hkey
  split at hkey
  · rename_i apiKey hk
    have hne : ¬ apiKey = "" := by simpa using hkey
    simp [fetchCategoryResponse, hcoin, hchain, hcat, hcfg, hk, hne, JsVal.text]
  · simp at hkey

set_option maxRecDepth 100000

/-- C20, as stated, fails: fetchCategoryResponse does not sanitize its inputs.  With
the coin name 'Eth<TAB>ereum' the user prompt posted for the audit category holds
the coin name with its tab, not the sanitized 'Eth ereum'. -/
theorem C20_unsanitized_input_counterexample :
    ∃ config, CATEGORY_CONFIGS.lookup "audit" = some config ∧
      (fetchCategoryResponse asciiRuntime (fun _ => .resolved (.obj []))
          (.str "Eth\tereum") (.str "Ethereum") (.str "audit")).prompts =
        [substituteLiteral "\x7b\x7bchain\x7d\x7d" "Ethereum"
          (substituteLiteral "\x7b\x7bcoinName\x7d\x7d" "Eth\tereum" config.prompt)] ∧
      sanitizeJsonString (.str "Eth\tereum") = .str "Eth ereum" ∧
      substituteLiteral "\x7b\x7bchain\x7d\x7d" "Ethereum"
          (substituteLiteral "\x7b\x7bcoinName\x7d\x7d" "Eth\tereum" config.prompt) ≠
        substituteLiteral "\x7b\x7bchain\x7d\x7d" "Ethereum"
          (substituteLiteral "\x7b\x7bcoinName\x7d\x7d" "Eth ereum" config.prompt) := by
  refine ⟨_, rfl, ?_, rfl, by decide⟩
  rw [fetchCategoryResponse_request asciiRuntime _ "Eth\tereum" "Ethereum" "audit" _
    (by decide) (by decide) (by decide) rfl (by decide)]
  rw [retryLoop_settle rawTryBlock terminalRateLimitOrAuth _ _
    (fun _ => TransportOutcome.resolved (.obj [])) 1 (.returned (.obj []))
    (by decide) (by decide) (fun i h1 h2 => absurd h1 (by omega)) rfl]
  rw [replaceLiteralAll_plain _ _ _ (by decide), replaceLiteralAll_plain _ _ _ (by decide)]
  rfl

/-- C20, amended: for every category of the catalog and every non-blank coinName
and chain without a `$` character, the trimmed coinName not containing the text
`{{chain}}`, every user prompt that fetchCategoryResponse posts (one per attempt,
at least one) is the category's prompt template with every `{{coinName}}` replaced
by the trimmed coinName and then every `{{chain}}` replaced by the trimmed chain.
The inputs are trimmed, not sanitized.  The hypothesis on `{{chain}}` keeps the
statement to the inputs whose inserted coin name the second `replace` leaves as
it is. -/
theorem C20_prompt_substitutes_trimmed_inputs (rt : Runtime) (t : Transport)
    (coinName chain cat : String) (config : Config)
    (hcoin : isBlank (.str coinName) = false) (hchain : isBlank (.str chain) = false)
    (hcat : cat ≠ "")
    (hcfg : lookupProperty CATEGORY_CONFIGS (rt.toLowerCase cat) = .own config)
    (hkey : rt.hasApiKey = true)
    (hcoinPlain : ∀ c ∈ (jsTrim coinName).data, c.toNat ≠ 36)
    (hchainPlain : ∀ c ∈ (jsTrim chain).data, c.toNat ≠ 36)
    (_hcoinNoPlaceholder : jsIncludes (jsTrim coinName) "\x7b\x7bchain\x7d\x7d" = false) :
    ∃ n, 1 ≤ n ∧ n ≤ 3 ∧
      (fetchCategoryResponse rt t (.str coinName) (.str chain) (.str cat)).prompts =
        List.replicate n
          (substituteLiteral "\x7b\x7bchain\x7d\x7d" (jsTrim chain)
            (substituteLiteral "\x7b\x7bcoinName\x7d\x7d" (jsTrim coinName) config.prompt)) := by
  rw [fetchCategoryResponse_request rt t coinName chain cat config hcoin hchain hcat hcfg hkey]
  obtain ⟨n, h1, h3, h⟩ := retryLoop_prompts rawTryBlock terminalRateLimitOrAuth
    (fallbackObject "Analysis service temporarily unavailable.")
    ⟨rt.apiUrl, rt.bearer, config.model,
      replaceLiteralAll "\x7b\x7bchain\x7d\x7d" (jsTrim chain)
        (replaceLiteralAll "\x7b\x7bcoinName\x7d\x7d" (jsTrim coinName) config.prompt),
      1000, 120000⟩ t
  refine ⟨n, h1, h3, ?_⟩
  rw [h, replaceLiteralAll_plain _ _ _ hchainPlain, replaceLiteralAll_plain _ _ _ hcoinPlain]

/-- Witness of the amended C20: a padded coin name with an inner tab. -/
theorem C20_prompt_substitutes_trimmed_inputs_witness :
    ∃ n, 1 ≤ n ∧ n ≤ 3 ∧
      (fetchCategoryResponse asciiRuntime (fun _ => .failed)
          (.str "  Eth\tereum ") (.str "Arbitrum One") (.str "Team")).prompts =
        List.replicate n
          (substituteLiteral "\x7b\x7bchain\x7d\x7d" (jsTrim "Arbitrum One")
            (substituteLiteral "\x7b\x7bcoinName\x7d\x7d" (jsTrim "  Eth\tereum ")
              ((CATEGORY_CONFIGS.lookup "team").getD ⟨"", "", ""⟩).prompt)) :=
  C20_prompt_substitutes_trimmed_inputs asciiRuntime (fun _ => .failed)
    "  Eth\tereum " "Arbitrum One" "Team" _ (by decide) (by decide) (by decide) rfl
    (by decide) (by decide) (by decide) (by decide)

/-! ## Every call completes -/

theorem verdict_cases (tryBlock : TransportOutcome → Except (Option Int) JsVal)
    (terminal : Option Int → Option String) (o : TransportOutcome) :
    verdict tryBlock terminal o = .retry ∨
      (∃ value, tryBlock o = .ok value ∧
        verdict tryBlock terminal o = .settle (.returned value)) ∨
      (∃ status message, tryBlock o = .error status ∧ terminal status = some message ∧
        verdict tryBlock terminal o = .settle (.threw (.error message))) := by
  unfold verdict
  cases h : tryBlock o with
  | ok value => exact Or.inr (Or.inl ⟨value, rfl, rfl⟩)
  | error status =>
    cases hm : terminal status with
    | none => exact Or.inl (by simp only [hm])
    | some message => exact Or.inr (Or.inr ⟨status, message, rfl, hm, by simp only [hm]⟩)

theorem settle_completes (tryBlock : TransportOutcome → Except (Option Int) JsVal)
    (terminal : Option Int → Option String) (fallback : JsVal) (t : Transport)
    (k : Nat) (hk1 : 1 ≤ k) (hk3 : k ≤ 3) (c : Completion)
    (h : verdict tryBlock terminal (t k) = .settle c) :
    completesWith tryBlock terminal fallback t c := by
  rcases verdict_cases tryBlock terminal (t k) with hr | ⟨value, hv, hs⟩ | ⟨status, message, hv, hm, hs⟩
  · rw [hr] at h; cases h
  · rw [hs] at h; cases h
    exact Or.inr (Or.inr ⟨k, value, hk1, hk3, hv, rfl⟩)
  · rw [hs] at h; cases h
    exact Or.inl ⟨k, status, message, hk1, hk3, hv, hm, rfl⟩

theorem retryLoop_completes (tryBlock : TransportOutcome → Except (Option Int) JsVal)
    (terminal : Option Int → Option String) (fallback : JsVal)
    (req : Request) (t : Transport) :
    completesWith tryBlock terminal fallback t
      (retryLoop tryBlock terminal fallback req t 3 3 1 []).completion := by
  simp only [retryLoop]
  cases h1 : verdict tryBlock terminal (t 1) with
  | settle c => exact settle_completes _ _ _ _ 1 (by omega) (by omega) c h1
  | retry =>
    simp only [show ¬ (1 = 3) by omega, if_false]
    cases h2 : verdict tryBlock terminal (t (1 + 1)) with
    | settle c => exact settle_completes _ _ _ _ 2 (by omega) (by omega) c h2
    | retry =>
      simp only [show ¬ (1 + 1 = 3) by omega, if_false]
      cases h3 : verdict tryBlock terminal (t (1 + 1 + 1)) with
      | settle c => exact settle_completes _ _ _ _ 3 (by omega) (by omega) c h3
      | retry => exact Or.inr (Or.inl (by simp))

theorem rawTryBlock_ok (o : TransportOutcome) (value : JsVal)
    (h : rawTryBlock o = .ok value) : o = .resolved value ∧ value.isNullish = false := by
  cases o with
  | resolved data =>
    simp only [rawTryBlock] at h
    split at h
    · cases h
    · rename_i hs
      cases h
      refine ⟨rfl, ?_⟩
      cases hn : value.isNullish with
      | false => rfl
      | true => simp [successLogThrows, hn] at hs
  | httpError status => cases h
  | failed => cases h

theorem chatTryBlock_ok (o : TransportOutcome) (value : JsVal)
    (h : fetchChatResponse.tryBlock o = .ok value) : ∃ text, value = .str text := by
  cases o with
  | resolved data =>
    simp only [fetchChatResponse.tryBlock] at h
    split at h
    · cases h
    · split at h
      · cases h
      · cases h
      · split at h
        · cases h
        · cases h; exact ⟨_, rfl⟩
      · cases h
  | httpError status => cases h
  | failed => cases h

theorem completesWith_raw_defined (terminal : Option Int → Option String) (message : String)
    (t : Transport) (c : Completion)
    (h : completesWith rawTryBlock terminal (fallbackObject message) t c) :
    c ≠ .returned .undefined := by
  rcases h with ⟨k, status, m, -, -, -, -, rfl⟩ | rfl | ⟨k, value, -, -, hv, rfl⟩
  · intro h; cases h
  · intro h; cases h
  · intro h
    cases h
    have := (rawTryBlock_ok _ _ hv).2
    simp [JsVal.isNullish] at this

theorem completesWith_chat_defined (t : Transport) (c : Completion)
    (h : completesWith fetchChatResponse.tryBlock terminalRateLimit chatFallback t c) :
    c ≠ .returned .undefined := by
  rcases h with ⟨k, status, m, -, -, -, -, rfl⟩ | rfl | ⟨k, value, -, -, hv, rfl⟩
  · intro h; cases h
  · intro h; cases h
  · intro h
    cases h
    obtain ⟨text, ht⟩ := chatTryBlock_ok _ _ hv
    cases ht

/-- C21: once input validation has passed, each of fetchChatResponse,
fetchCommandResponse, fetchCategoryResponse and fetchNewsRaw completes in one of
three ways: it throws the error of a terminal status met on one of the attempts 1
to 3, it returns its fallback, or it returns the value that the `try` block of one
of the attempts 1 to 3 returns; and it never resolves to `undefined`, that is the
retry loop never falls through its end. -/
theorem C21_call_completes_with_one_outcome (rt : Runtime) (t : Transport)
    (userPrompt command coinName chain category interests days : JsVal) :
    (chatAccepted userPrompt = true →
      completesWith fetchChatResponse.tryBlock terminalRateLimit chatFallback t
          (fetchChatResponse rt t userPrompt).completion ∧
        (fetchChatResponse rt t userPrompt).completion ≠ .returned .undefined) ∧
    (commandAccepted rt command = true →
      completesWith rawTryBlock terminalRateLimit
          (fallbackObject "Chat command service is temporarily unavailable.") t
          (fetchCommandResponse rt t command).completion ∧
        (fetchCommandResponse rt t command).completion ≠ .returned .undefined) ∧
    (categoryAccepted rt coinName chain category = true →
      completesWith rawTryBlock terminalRateLimitOrAuth
          (fallbackObject "Analysis service temporarily unavailable.") t
          (fetchCategoryResponse rt t coinName chain category).completion ∧
        (fetchCategoryResponse rt t coinName chain category).completion ≠
          .returned .undefined) ∧
    (newsAccepted rt interests days = true →
      completesWith rawTryBlock terminalRateLimitOrAuth
          (fallbackObject "News service temporarily unavailable.") t
          (fetchNewsRaw rt t interests days).completion ∧
        (fetchNewsRaw rt t interests days).completion ≠ .returned .undefined) := by
  refine ⟨?_, ?_, ?_, ?_⟩
  · intro h
    obtain ⟨req, hr⟩ := fetchChatResponse_accepted rt t userPrompt h
    have hc := retryLoop_completes fetchChatResponse.tryBlock terminalRateLimit chatFallback req t
    rw [← hr] at hc
    exact ⟨hc, completesWith_chat_defined t _ hc⟩
  · intro h
    obtain ⟨req, hr⟩ := fetchCommandResponse_accepted rt t command h
    have hc := retryLoop_completes rawTryBlock terminalRateLimit
      (fallbackObject "Chat command service is temporarily unavailable.") req t
    rw [← hr] at hc
    exact ⟨hc, completesWith_raw_defined _ _ t _ hc⟩
  · intro h
    obtain ⟨req, hr⟩ := fetchCategoryResponse_accepted rt t coinName chain category h
    have hc := retryLoop_completes rawTryBlock terminalRateLimitOrAuth
      (fallbackObject "Analysis service temporarily unavailable.") req t
    rw [← hr] at hc
    exact ⟨hc, completesWith_raw_defined _ _ t _ hc⟩
  · intro h
    obtain ⟨req, hr⟩ := fetchNewsRaw_accepted rt t interests days h
    have hc := retryLoop_completes rawTryBlock terminalRateLimitOrAuth
      (fallbackObject "News service temporarily unavailable.") req t
    rw [← hr] at hc
    exact ⟨hc, completesWith_raw_defined _ _ t _ hc⟩

/-- Witness of C21: the four functions on accepted inputs, with a transport whose
every call fails without a response. -/
theorem C21_call_completes_with_one_outcome_witness :
    (fetchChatResponse asciiRuntime (fun _ => .failed)
        (.str "What is Bitcoin?")).completion ≠ .returned .undefined ∧
    (fetchCommandResponse asciiRuntime (fun _ => .failed)
        (.str "pump")).completion ≠ .returned .undefined ∧
    (fetchCategoryResponse asciiRuntime (fun _ => .failed)
        (.str "Bitcoin") (.str "Ethereum") (.str "audit")).completion ≠
          .returned .undefined ∧
    (fetchNewsRaw asciiRuntime (fun _ => .failed)
        (.arr [.str "DeFi"]) (.num 7)).completion ≠ .returned .undefined :=
  have h := C21_call_completes_with_one_outcome asciiRuntime (fun _ => .failed)
    (.str "What is Bitcoin?") (.str "pump") (.str "Bitcoin") (.str "Ethereum")
    (.str "audit") (.arr [.str "DeFi"]) (.num 7)
  ⟨(h.1 (by decide)).2, (h.2.1 (by decide)).2, (h.2.2.1 (by decide)).2,
    (h.2.2.2 (by decide)).2⟩

/-! ## The news controller -/

/-- C22 at its failing input: a news request without `interests` (or with the empty
list) and with `days` 7.  The controller puts the default topic
'cryptocurrency market trends' into `interestArray`, but that topic is not in
ALLOWED_INTERESTS, so fetchNewsRaw throws its 'Invalid interest' error before any
transport invocation and the reply is 500 PROCESS_NEWS_ERROR, not 200. -/
theorem C22_default_topic_is_rejected (rt : Runtime) (t : Transport) :
    isAllowedInterest (.str "cryptocurrency market trends") = false ∧
    processNewsRequest rt t .undefined (.num 7) =
      ⟨.replied 500 (.failure
          ("Invalid interest: cryptocurrency market trends. Must be one of " ++
            ", ".intercalate ALLOWED_INTERESTS) "PROCESS_NEWS_ERROR"),
        [⟨.threw (.error
          ("Invalid interest: cryptocurrency market trends. Must be one of " ++
            ", ".intercalate ALLOWED_INTERESTS)), []⟩]⟩ ∧
    processNewsRequest rt t (.arr []) (.num 7) =
      processNewsRequest rt t .undefined (.num 7) ∧
    (processNewsRequest rt t .undefined (.num 7)).invocations = 0 ∧
    (processNewsRequest rt t (.arr []) (.num 7)).invocations = 0 := by
  refine ⟨by decide, rfl, rfl, rfl, rfl⟩

/-- C23 at its failing inputs: a news request with the interest 'DeFi' and with
`days` 0, or with the non-numeric string 'abc'.  `parseInt(days, 10) || 7` turns 0
and NaN into 7, so the request is handled exactly as one with `days` 7: with a
transport that succeeds it makes one invocation, asks for the last 7 days and is
answered 200, not 400 INVALID_DAYS.  An omitted `days` is handled as 7 as well,
and the values 31 and -3 are answered 400 INVALID_DAYS without any invocation. -/
theorem C23_zero_and_non_numeric_days_become_seven (rt : Runtime) (t : Transport) :
    processNewsRequest rt t (.arr [.str "DeFi"]) (.num 0) =
      processNewsRequest rt t (.arr [.str "DeFi"]) (.num 7) ∧
    processNewsRequest rt t (.arr [.str "DeFi"]) (.str "abc") =
      processNewsRequest rt t (.arr [.str "DeFi"]) (.num 7) ∧
    processNewsRequest rt t (.arr [.str "DeFi"]) .undefined =
      processNewsRequest rt t (.arr [.str "DeFi"]) (.num 7) ∧
    (processNewsRequest asciiRuntime emptyChoices (.arr [.str "DeFi"]) (.num 0)).outcome =
      .replied 200 (.raw (.obj [("choices", .arr [])])) ∧
    (processNewsRequest asciiRuntime emptyChoices (.arr [.str "DeFi"]) (.num 0)).invocations
      = 1 ∧
    (processNewsRequest asciiRuntime emptyChoices (.arr [.str "DeFi"]) (.num 0)).units.map
      Run.prompts = [[newsUserPrompt "DeFi" 7]] ∧
    processNewsRequest rt t (.arr [.str "DeFi"]) (.num 31) =
      ⟨.replied 400 (.failure "Days must be between 1 and 30." "INVALID_DAYS"), []⟩ ∧
    processNewsRequest rt t (.arr [.str "DeFi"]) (.num (-3)) =
      ⟨.replied 400 (.failure "Days must be between 1 and 30." "INVALID_DAYS"), []⟩ := by
  refine ⟨rfl, rfl, rfl, rfl, rfl, rfl, rfl, rfl⟩

/-- C30 at its failing input: a news request with the interest 'API key' and with
`days` 7.  fetchNewsRaw throws its 'Invalid interest' error, which is neither the
authentication error nor the missing-key error; its message quotes the interest,
so `error.message.includes('API key')` holds and the reply is 401 AUTH_FAILED, not
500 PROCESS_NEWS_ERROR (likewise 429 RATE_LIMIT_EXCEEDED for the interest
'rate limit').  The messages of the rate-limit, authentication and missing-key
errors are mapped as the claim says, and so is an 'Invalid interest' error that
quotes neither text. -/
theorem C30_quoted_interest_decides_the_status (rt : Runtime) (t : Transport) :
    processNewsRequest rt t (.arr [.str "API key"]) (.num 7) =
      ⟨.replied 401 (.failure
          ("Invalid interest: API key. Must be one of " ++
            ", ".intercalate ALLOWED_INTERESTS) "AUTH_FAILED"),
        [⟨.threw (.error
          ("Invalid interest: API key. Must be one of " ++
            ", ".intercalate ALLOWED_INTERESTS)), []⟩]⟩ ∧
    (processNewsRequest rt t (.arr [.str "rate limit"]) (.num 7)).outcome =
      .replied 429 (.failure
          ("Invalid interest: rate limit. Must be one of " ++
            ", ".intercalate ALLOWED_INTERESTS) "RATE_LIMIT_EXCEEDED") ∧
    (processNewsRequest rt t (.arr [.str "Staking"]) (.num 7)).outcome =
      .replied 500 (.failure
          ("Invalid interest: Staking. Must be one of " ++
            ", ".intercalate ALLOWED_INTERESTS) "PROCESS_NEWS_ERROR") ∧
    newsErrorStatus "Sonar API rate limit exceeded" = (429, "RATE_LIMIT_EXCEEDED") ∧
    newsErrorStatus "Sonar API authentication failed: Invalid or missing API key" =
      (401, "AUTH_FAILED") ∧
    newsErrorStatus "Sonar API key is not configured" = (401, "AUTH_FAILED") ∧
    processNewsRequest asciiRuntime (fun _ => .httpError 429) (.arr [.str "DeFi"]) (.num 7) =
      ⟨.replied 429 (.failure "Sonar API rate limit exceeded" "RATE_LIMIT_EXCEEDED"),
        [⟨.threw (.error "Sonar API rate limit exceeded"),
          [.post ⟨asciiRuntime.apiUrl, asciiRuntime.bearer, "sonar",
            newsUserPrompt "DeFi" 7, 1000, 120000⟩]⟩]⟩ ∧
    (processNewsRequest asciiRuntime (fun _ => .httpError 401) (.arr [.str "DeFi"])
        (.num 7)).outcome =
      .replied 401 (.failure "Sonar API authentication failed: Invalid or missing API key"
        "AUTH_FAILED") ∧
    (processNewsRequest ⟨none, none, id, id⟩ t (.arr [.str "DeFi"]) (.num 7)).outcome =
      .replied 401 (.failure "Sonar API key is not configured" "AUTH_FAILED") := by
  refine ⟨rfl, rfl, rfl, by decide, by decide, by decide, rfl, rfl, rfl⟩

/-! ## The engine on ASCII strings -/

theorem asciiRuntime_mapsAsciiCase : asciiRuntime.mapsAsciiCase :=
  fun _ _ => ⟨rfl, rfl⟩

theorem toLowerCase_valid (rt : Runtime) (h : rt.mapsAsciiCase) :
    ∀ k ∈ VALID_CATEGORIES, rt.toLowerCase k = k := by
  intro k hk
  simp only [VALID_CATEGORIES, List.mem_cons, List.mem_singleton, List.not_mem_nil,
    or_false] at hk
  rcases hk with rfl | rfl | rfl | rfl | rfl | rfl | rfl | rfl | rfl | rfl | rfl | rfl | rfl <;>
    exact (h _ (by decide)).1.trans (by decide)

theorem map_toLowerCase_valid (rt : Runtime) (h : rt.mapsAsciiCase) :
    VALID_CATEGORIES.map rt.toLowerCase = VALID_CATEGORIES := by
  have := toLowerCase_valid rt h
  calc VALID_CATEGORIES.map rt.toLowerCase = VALID_CATEGORIES.map id :=
        List.map_congr_left (fun k hk => this k hk)
    _ = VALID_CATEGORIES := List.map_id _

/-! ## The categories of an IQScore request -/

theorem selectedCategories_default (rt : Runtime) (categories : JsVal)
    (h : ∀ first rest, categories ≠ .arr (first :: rest)) :
    selectedCategories rt categories = some (VALID_CATEGORIES.map rt.toLowerCase) := by
  cases categories with
  | arr items =>
    cases items with
    | nil => rfl
    | cons first rest => exact absurd rfl (h first rest)
  | _ => rfl

theorem collectResults_keys_nodup (units : List (String × Run)) :
    (units.map Prod.fst).Nodup → (collectResults units).map Prod.fst = units.map Prod.fst := by
  induction units using List.reverseRecOn with
  | nil => intro _; rfl
  | append_singleton units unit ih =>
    intro hnd
    rw [List.map_append, List.nodup_append] at hnd
    obtain ⟨h1, -, hdisj⟩ := hnd
    rw [collectResults_snoc, setProperty_keys, ih h1, List.map_append]
    have : unit.1 ∉ units.map Prod.fst := fun hm => hdisj hm (by simp)
    rw [if_neg this]
    rfl

theorem launchUnits_runs (rt : Runtime) (transports : Nat → Transport) (asset network : String)
    (selected : List String) :
    ∀ i, (launchUnits rt transports asset network i selected).map (fun unit => unit.2) =
      (selected.enumFrom i).map (fun p =>
        fetchCategoryResponse rt (transports p.1) (.str asset) (.str network) (.str p.2)) := by
  induction selected with
  | nil => intro i; rfl
  | cons c rest ih =>
    intro i
    simp only [launchUnits, List.map_cons, List.enumFrom_cons, ih (i + 1)]

/-- C24: when `asset` and `network` are valid and `categories` is omitted, is the
empty list or is not an array, processIQScoreRequest launches one call of
fetchCategoryResponse for each of the 13 names of VALID_CATEGORIES, in order, and
replies 200 with a results object whose keys are exactly those 13 names.  The
engine is taken to lower-case ASCII strings as ASCII does. -/
theorem C24_default_is_all_categories (rt : Runtime) (transports : Nat → Transport)
    (asset network categories : JsVal) (hengine : rt.mapsAsciiCase)
    (hasset : isInvalidName asset = false) (hnetwork : isInvalidName network = false)
    (hcategories : ∀ first rest, categories ≠ .arr (first :: rest)) :
    ∃ results,
      (processIQScoreRequest rt transports asset network categories).outcome =
        .replied 200 (.results results) ∧
      results.map Prod.fst = VALID_CATEGORIES ∧
      results.length = 13 ∧
      (processIQScoreRequest rt transports asset network categories).units =
        (VALID_CATEGORIES.enumFrom 0).map (fun p =>
          fetchCategoryResponse rt (transports p.1) (.str (jsTrim asset.text))
            (.str (jsTrim network.text)) (.str p.2)) ∧
      (processIQScoreRequest rt transports asset network categories).units.length = 13 := by
  have hsel : selectedCategories rt categories = some VALID_CATEGORIES := by
    rw [selectedCategories_default rt categories hcategories, map_toLowerCase_valid rt hengine]
  have hacc : iqAccepted rt asset network categories VALID_CATEGORIES :=
    ⟨hasset, hnetwork, hsel, fun _ h => h⟩
  have hrun := processIQScoreRequest_accepted rt transports asset network categories
    VALID_CATEGORIES hacc
  have hkeys : (collectResults (launchUnits rt transports (jsTrim asset.text)
      (jsTrim network.text) 0 VALID_CATEGORIES)).map Prod.fst = VALID_CATEGORIES := by
    rw [collectResults_keys_nodup, launchUnits_keys]
    rw [launchUnits_keys]
    decide
  refine ⟨_, by rw [hrun], hkeys, ?_, ?_, ?_⟩
  · have := congrArg List.length hkeys
    simpa using this
  · rw [hrun]
    exact launchUnits_runs rt transports _ _ VALID_CATEGORIES 0
  · rw [hrun]
    show (List.map _ _).length = 13
    rw [launchUnits_runs]
    rfl

/-- Witness of C24: a request for 'Bitcoin' on 'Ethereum' without `categories`. -/
theorem C24_default_is_all_categories_witness :
    ∃ results,
      (processIQScoreRequest asciiRuntime (fun _ _ => .failed) (.str "Bitcoin")
        (.str "Ethereum") .undefined).outcome = .replied 200 (.results results) ∧
      results.map Prod.fst = VALID_CATEGORIES ∧
      results.length = 13 ∧
      (processIQScoreRequest asciiRuntime (fun _ _ => .failed) (.str "Bitcoin")
        (.str "Ethereum") .undefined).units =
        (VALID_CATEGORIES.enumFrom 0).map (fun p =>
          fetchCategoryResponse asciiRuntime ((fun _ _ => .failed) p.1)
            (.str (jsTrim (JsVal.str "Bitcoin").text))
            (.str (jsTrim (JsVal.str "Ethereum").text)) (.str p.2)) ∧
      (processIQScoreRequest asciiRuntime (fun _ _ => .failed) (.str "Bitcoin")
        (.str "Ethereum") .undefined).units.length = 13 :=
  C24_default_is_all_categories asciiRuntime (fun _ _ => .failed) (.str "Bitcoin")
    (.str "Ethereum") .undefined asciiRuntime_mapsAsciiCase (by decide) (by decide)
    (fun _ _ h => by cases h)

/-! ## The catalog behind the accepted categories -/

theorem lookup_valid_category :
    ∀ k ∈ VALID_CATEGORIES, ∃ config, lookupProperty CATEGORY_CONFIGS k = .own config := by
  intro k hk
  simp only [VALID_CATEGORIES, List.mem_cons, List.mem_singleton, List.not_mem_nil,
    or_false] at hk
  rcases hk with rfl | rfl | rfl | rfl | rfl | rfl | rfl | rfl | rfl | rfl | rfl | rfl | rfl <;>
    exact ⟨_, rfl⟩

theorem head_ne_of_message (m key : String) (c : Char) (hc : c ≠ 'C')
    (h : m.data.head? = some c) :
    Completion.threw (.error m) ≠
      .threw (.error ("Configuration not found for category: " ++ key)) := by
  intro he
  injection he with he
  injection he with he
  rw [he] at h
  simp [String.data_append] at h
  exact hc h.symm

theorem rejectLogged_not_missing (v : JsVal) (m key : String) (c : Char) (hc : c ≠ 'C')
    (h : m.data.head? = some c) :
    (rejectLogged v (fun _ => m)).completion ≠
      .threw (.error ("Configuration not found for category: " ++ key)) := by
  unfold rejectLogged
  split
  · intro he; cases he
  · exact head_ne_of_message m key c hc h

theorem retryLoop_not_missing (fallback : JsVal) (req : Request) (t : Transport)
    (key : String) :
    (retryLoop rawTryBlock terminalRateLimitOrAuth fallback req t 3 3 1 []).completion ≠
      .threw (.error ("Configuration not found for category: " ++ key)) := by
  rcases retryLoop_completes rawTryBlock terminalRateLimitOrAuth fallback req t with
    ⟨k, status, m, -, -, -, hm, hc⟩ | hc | ⟨k, value, -, -, -, hc⟩
  · rw [hc]
    unfold terminalRateLimitOrAuth at hm
    split at hm
    · cases hm; exact head_ne_of_message _ key 'S' (by decide) rfl
    · split at hm
      · cases hm; exact head_ne_of_message _ key 'S' (by decide) rfl
      · cases hm
  · rw [hc]; intro he; cases he
  · rw [hc]; intro he; cases he

/-- C25: VALID_CATEGORIES of the IQScore controller is the list of keys of
CATEGORY_CONFIGS of the service: the same 13 names (in the same order, without
repetition).  Hence for a category of VALID_CATEGORIES the lookup in
fetchCategoryResponse finds an own entry, and the call never throws
'Configuration not found for category: ...', whatever the other arguments and the
transport.  The engine is taken to lower-case ASCII strings as ASCII does. -/
theorem C25_valid_categories_are_the_config_keys (rt : Runtime) (t : Transport)
    (coinName chain : JsVal) (category key : String) (hengine : rt.mapsAsciiCase)
    (hvalid : category ∈ VALID_CATEGORIES) :
    CATEGORY_CONFIGS.map Prod.fst = VALID_CATEGORIES ∧
    VALID_CATEGORIES.Nodup ∧ VALID_CATEGORIES.length = 13 ∧
    (∃ config, lookupProperty CATEGORY_CONFIGS (rt.toLowerCase category) = .own config) ∧
    (fetchCategoryResponse rt t coinName chain (.str category)).completion ≠
      .threw (.error ("Configuration not found for category: " ++ key)) := by
  have hlow := toLowerCase_valid rt hengine category hvalid
  obtain ⟨config, hcfg⟩ := lookup_valid_category category hvalid
  refine ⟨by decide, by decide, rfl, ⟨config, by rw [hlow, hcfg]⟩, ?_⟩
  unfold fetchCategoryResponse
  split
  · exact rejectLogged_not_missing _ _ key 'I' (by decide) rfl
  · split
    · exact rejectLogged_not_missing _ _ key 'I' (by decide) rfl
    · dsimp only
      split
      · exact head_ne_of_message _ key 'I' (by decide) rfl
      · rw [hlow, hcfg]
        dsimp only
        split
        · exact head_ne_of_message _ key 'S' (by decide) rfl
        · split
          · exact head_ne_of_message _ key 'S' (by decide) rfl
          · rw [fetchCategoryResponse_loop_eq]
            exact retryLoop_not_missing _ _ t key

/-- Witness of C25: the category 'audit' with a transport that always fails. -/
theorem C25_valid_categories_are_the_config_keys_witness :
    "audit" ∈ VALID_CATEGORIES ∧
    (fetchCategoryResponse asciiRuntime (fun _ => .failed) (.str "Bitcoin") (.str "Ethereum")
        (.str "audit")).completion ≠
      .threw (.error ("Configuration not found for category: " ++ "audit")) :=
  ⟨by decide,
    (C25_valid_categories_are_the_config_keys asciiRuntime (fun _ => .failed) (.str "Bitcoin")
      (.str "Ethereum") "audit" "audit" asciiRuntime_mapsAsciiCase (by decide)).2.2.2.2⟩

/-! ## The keys of the results object -/

/-- C27: the promise of a unit is never rejected (a rejection of
fetchCategoryResponse becomes a fulfilled, labelled error entry), and for a
request that passes validation every key of the results object is one of the
requested, lower-cased categories, hence a name of VALID_CATEGORIES; the key
'unknown' of the `rejected` branch is never produced. -/
theorem C27_result_keys_are_requested_categories (rt : Runtime)
    (transports : Nat → Transport) (asset network categories : JsVal)
    (selected : List String)
    (hacc : iqAccepted rt asset network categories selected) :
    (∀ category run reason, analysisPromise category run ≠ .rejected reason) ∧
    ∃ results,
      (processIQScoreRequest rt transports asset network categories).outcome =
        .replied 200 (.results results) ∧
      (∀ k ∈ results.map Prod.fst, k ∈ selected ∧ k ∈ VALID_CATEGORIES) ∧
      "unknown" ∉ results.map Prod.fst := by
  refine ⟨?_, ?_⟩
  · intro category run reason h
    rw [analysisPromise_eq] at h
    cases h
  · have hrun := processIQScoreRequest_accepted rt transports asset network categories
      selected hacc
    have hkeys : ∀ k ∈ (collectResults (launchUnits rt transports (jsTrim asset.text)
        (jsTrim network.text) 0 selected)).map Prod.fst, k ∈ selected := by
      intro k hk
      have := ((collectResults_keys _).2 k).mp hk
      rwa [launchUnits_keys] at this
    refine ⟨_, by rw [hrun], fun k hk => ⟨hkeys k hk, hacc.2.2.2 k (hkeys k hk)⟩, ?_⟩
    intro hk
    have := hacc.2.2.2 _ (hkeys _ hk)
    revert this
    decide

/-- Witness of C27: a request for the categories 'Audit' and 'scam'. -/
theorem C27_result_keys_are_requested_categories_witness :
    ∃ results,
      (processIQScoreRequest asciiRuntime (fun _ _ => .failed) (.str "Bitcoin")
        (.str "Ethereum") (.arr [.str "Audit", .str "scam"])).outcome =
        .replied 200 (.results results) ∧
      (∀ k ∈ results.map Prod.fst, k ∈ ["audit", "scam"] ∧ k ∈ VALID_CATEGORIES) ∧
      "unknown" ∉ results.map Prod.fst :=
  (C27_result_keys_are_requested_categories asciiRuntime (fun _ _ => .failed)
    (.str "Bitcoin") (.str "Ethereum") (.arr [.str "Audit", .str "scam"]) ["audit", "scam"]
    ⟨by decide, by decide, rfl, by decide⟩).2

/-! ## Invalid categories -/

/-- C29: when `asset` and `network` are valid and some lower-cased element of the
`categories` list is not in VALID_CATEGORIES, processIQScoreRequest replies 400
with errorCode 'INVALID_CATEGORIES', the message lists the lower-cased elements
that are not in VALID_CATEGORIES (each as often as it occurs, in request order) and
no others, and no unit is launched: zero transport invocations, also for the valid
categories of the request. -/
theorem C29_invalid_category_rejects_the_request (rt : Runtime)
    (transports : Nat → Transport) (asset network categories : JsVal)
    (selected : List String) (invalid : String)
    (hasset : isInvalidName asset = false) (hnetwork : isInvalidName network = false)
    (hselected : selectedCategories rt categories = some selected)
    (hmem : invalid ∈ selected) (hinvalid : invalid ∉ VALID_CATEGORIES) :
    processIQScoreRequest rt transports asset network categories =
      ⟨.replied 400 (.failure
        ("Invalid categories: " ++
          ", ".intercalate (selected.filter (fun c => !VALID_CATEGORIES.contains c)) ++
          ". Must be one of " ++ ", ".intercalate VALID_CATEGORIES ++ ".")
        "INVALID_CATEGORIES"), []⟩ ∧
    (processIQScoreRequest rt transports asset network categories).invocations = 0 ∧
    (∀ c, c ∈ selected.filter (fun c => !VALID_CATEGORIES.contains c) ↔
      c ∈ selected ∧ c ∉ VALID_CATEGORIES) := by
  have hfilter : ∀ c, c ∈ selected.filter (fun c => !VALID_CATEGORIES.contains c) ↔
      c ∈ selected ∧ c ∉ VALID_CATEGORIES := by
    intro c
    simp [List.mem_filter]
  have hpos : (selected.filter (fun c => !VALID_CATEGORIES.contains c)).length > 0 :=
    List.length_pos_of_mem ((hfilter invalid).mpr ⟨hmem, hinvalid⟩)
  have hrun : processIQScoreRequest rt transports asset network categories =
      ⟨.replied 400 (.failure
        ("Invalid categories: " ++
          ", ".intercalate (selected.filter (fun c => !VALID_CATEGORIES.contains c)) ++
          ". Must be one of " ++ ", ".intercalate VALID_CATEGORIES ++ ".")
        "INVALID_CATEGORIES"), []⟩ := by
    unfold processIQScoreRequest
    rw [if_neg (by simp [isInvalidName_truthy asset hasset, isInvalidName_truthy network hnetwork]),
      if_neg (by simp [hasset]), if_neg (by simp [hnetwork])]
    simp only [hselected]
    rw [if_pos hpos]
  refine ⟨hrun, ?_, hfilter⟩
  rw [hrun]
  rfl

/-- Witness of C29: a request for the categories 'audit' and 'Price'. -/
theorem C29_invalid_category_rejects_the_request_witness :
    (processIQScoreRequest asciiRuntime (fun _ _ => .failed) (.str "Bitcoin")
      (.str "Ethereum") (.arr [.str "audit", .str "Price"])).outcome =
      .replied 400 (.failure
        ("Invalid categories: price. Must be one of " ++
          ", ".intercalate VALID_CATEGORIES ++ ".") "INVALID_CATEGORIES") ∧
    (processIQScoreRequest asciiRuntime (fun _ _ => .failed) (.str "Bitcoin")
      (.str "Ethereum") (.arr [.str "audit", .str "Price"])).invocations = 0 :=
  have h := C29_invalid_category_rejects_the_request asciiRuntime (fun _ _ => .failed)
    (.str "Bitcoin") (.str "Ethereum") (.arr [.str "audit", .str "Price"])
    ["audit", "price"] "price" (by decide) (by decide) rfl (by decide) (by decide)
  ⟨by rw [h.1]; rfl, h.2.1⟩

/-! ## Replacement patterns in the inputs of fetchCategoryResponse -/

theorem audit_prompt_pattern :
    replaceLiteralAll "\x7b\x7bcoinName\x7d\x7d" (jsTrim "$&")
        ((CATEGORY_CONFIGS.lookup "audit").getD ⟨"", "", ""⟩).prompt =
      ((CATEGORY_CONFIGS.lookup "audit").getD ⟨"", "", ""⟩).prompt := by
  rfl

/-- C26 at its failing inputs, for the audit category and the chain 'Ethereum'.
With the coin name '$&' the call of `replace` reads the coin name as a replacement
pattern and puts the matched text back: the posted prompt still holds the
placeholder `{{coinName}}` and not the text '$&'.  With the coin name
'{{chain}}' the second `replace` reads the inserted coin name as a placeholder:
the posted prompt holds 'Ethereum' in the place of the coin name. -/
theorem C26_input_is_read_as_pattern :
    ∃ config, CATEGORY_CONFIGS.lookup "audit" = some config ∧
      (fetchCategoryResponse asciiRuntime emptyChoices
          (.str "$&") (.str "Ethereum") (.str "audit")).prompts =
        [substituteLiteral "\x7b\x7bchain\x7d\x7d" "Ethereum" config.prompt] ∧
      substituteLiteral "\x7b\x7bchain\x7d\x7d" "Ethereum" config.prompt ≠
        substituteLiteral "\x7b\x7bchain\x7d\x7d" "Ethereum"
          (substituteLiteral "\x7b\x7bcoinName\x7d\x7d" "$&" config.prompt) ∧
      jsIncludes (substituteLiteral "\x7b\x7bchain\x7d\x7d" "Ethereum" config.prompt)
        "\x7b\x7bcoinName\x7d\x7d" = true ∧
      jsIncludes (substituteLiteral "\x7b\x7bchain\x7d\x7d" "Ethereum" config.prompt)
        "$&" = false ∧
      (fetchCategoryResponse asciiRuntime emptyChoices
          (.str "\x7b\x7bchain\x7d\x7d") (.str "Ethereum") (.str "audit")).prompts =
        [substituteLiteral "\x7b\x7bchain\x7d\x7d" "Ethereum"
          (substituteLiteral "\x7b\x7bcoinName\x7d\x7d" "Ethereum" config.prompt)] ∧
      jsIncludes (substituteLiteral "\x7b\x7bchain\x7d\x7d" "Ethereum"
          (substituteLiteral "\x7b\x7bcoinName\x7d\x7d" "Ethereum" config.prompt))
        "\x7b\x7bchain\x7d\x7d" = false := by
  refine ⟨_, rfl, ?_, by decide, by decide, by decide, ?_, by decide⟩
  · rw [fetchCategoryResponse_request asciiRuntime _ "$&" "Ethereum" "audit" _
      (by decide) (by decide) (by decide) rfl (by decide)]
    rw [retryLoop_settle rawTryBlock terminalRateLimitOrAuth _ _
      emptyChoices 1 (.returned (.obj [("choices", .arr [])]))
      (by decide) (by decide) (fun i h1 h2 => absurd h1 (by omega)) rfl]
    rw [replaceLiteralAll_plain _ _ _ (by decide)]
    show [substituteLiteral "\x7b\x7bchain\x7d\x7d" (jsTrim "Ethereum")
      (replaceLiteralAll "\x7b\x7bcoinName\x7d\x7d" (jsTrim "$&")
        ((CATEGORY_CONFIGS.lookup "audit").getD ⟨"", "", ""⟩).prompt)] =
      [substituteLiteral "\x7b\x7bchain\x7d\x7d" (jsTrim "Ethereum")
        ((CATEGORY_CONFIGS.lookup "audit").getD ⟨"", "", ""⟩).prompt]
    rw [audit_prompt_pattern]
  · rw [fetchCategoryResponse_request asciiRuntime _ "\x7b\x7bchain\x7d\x7d" "Ethereum"
      "audit" _ (by decide) (by decide) (by decide) rfl (by decide)]
    rw [retryLoop_settle rawTryBlock terminalRateLimitOrAuth _ _
      emptyChoices 1 (.returned (.obj [("choices", .arr [])]))
      (by decide) (by decide) (fun i h1 h2 => absurd h1 (by omega)) rfl]
    rw [replaceLiteralAll_plain _ _ _ (by decide), replaceLiteralAll_plain _ _ _ (by decide)]
    have h : substituteLiteral "\x7b\x7bchain\x7d\x7d" (jsTrim "Ethereum")
        (substituteLiteral "\x7b\x7bcoinName\x7d\x7d" (jsTrim "\x7b\x7bchain\x7d\x7d")
          ((CATEGORY_CONFIGS.lookup "audit").getD ⟨"", "", ""⟩).prompt) =
        substituteLiteral "\x7b\x7bchain\x7d\x7d" "Ethereum"
        (substituteLiteral "\x7b\x7bcoinName\x7d\x7d" "Ethereum"
          ((CATEGORY_CONFIGS.lookup "audit").getD ⟨"", "", ""⟩).prompt) := by rfl
    refine Eq.trans (b := [substituteLiteral "\x7b\x7bchain\x7d\x7d" (jsTrim "Ethereum")
      (substituteLiteral "\x7b\x7bcoinName\x7d\x7d" (jsTrim "\x7b\x7bchain\x7d\x7d")
        ((CATEGORY_CONFIGS.lookup "audit").getD ⟨"", "", ""⟩).prompt)]) rfl ?_
    rw [h]
    rfl

/-! ## The second check of fetchCommandResponse -/

theorem toUpperCase_category (rt : Runtime) (h : rt.mapsAsciiCase) :
    ∀ entry ∈ COMMAND_CONFIGS, rt.toUpperCase entry.2.category = entry.1 := by
  intro entry hentry
  simp only [COMMAND_CONFIGS, List.mem_cons, List.mem_singleton, List.not_mem_nil,
    or_false] at hentry
  rcases hentry with rfl | rfl | rfl | rfl | rfl | rfl | rfl | rfl | rfl | rfl | rfl <;>
    exact (h _ (by decide)).2.trans (by decide)

theorem lookup_mem (table : List (String × Config)) (key : String) (config : Config) :
    table.lookup key = some config → (key, config) ∈ table := by
  induction table with
  | nil => intro h; cases h
  | cons entry rest ih =>
    obtain ⟨k, c⟩ := entry
    intro h
    simp only [List.lookup] at h
    split at h
    · rename_i heq
      cases h
      have : key = k := by simpa using heq
      subst this
      exact List.mem_cons_self _ _
    · exact List.mem_cons_of_mem _ (ih h)

theorem lookupProperty_own_mem (table : List (String × Config)) (key : String)
    (config : Config) (h : lookupProperty table key = .own config) :
    (key, config) ∈ table := by
  unfold lookupProperty at h
  split at h
  · rename_i found hfound
    cases h
    exact lookup_mem table key _ hfound
  · split at h <;> cases h

theorem message_length_ne (a b : String) (h : a.length ≠ b.length) :
    Completion.threw (.error a) ≠ .threw (.error b) := by
  intro he
  injection he with he
  injection he with he
  exact h (by rw [he])

theorem message_head_ne (a b : String) (h : a.data.head? ≠ b.data.head?) :
    Completion.threw (.error a) ≠ .threw (.error b) := by
  intro he
  injection he with he
  injection he with he
  exact h (by rw [he])

theorem retryLoop_not_invalid (fallback : JsVal) (req : Request) (t : Transport)
    (key : String) :
    (retryLoop rawTryBlock terminalRateLimit fallback req t 3 3 1 []).completion ≠
      .threw (.error ("Invalid " ++ key ++ " command")) := by
  rcases retryLoop_completes rawTryBlock terminalRateLimit fallback req t with
    ⟨k, status, m, -, -, -, hm, hc⟩ | hc | ⟨k, value, -, -, -, hc⟩
  · rw [hc]
    unfold terminalRateLimit at hm
    split at hm
    · cases hm
      refine message_head_ne _ _ ?_
      simp [String.data_append]
    · cases hm
  · rw [hc]; intro he; cases he
  · rw [hc]; intro he; cases he

/-- C28: every key K of COMMAND_CONFIGS is the upper-cased `category` of its entry,
and the 11 upper-cased category names are pairwise distinct.  Hence whenever the
lookup of fetchCommandResponse finds an own entry, the trimmed upper-cased command
equals the upper-cased category of that entry, and no call of fetchCommandResponse
throws the error 'Invalid <KEY> command' of the second check.  The engine is taken
to upper-case ASCII strings as ASCII does. -/
theorem C28_second_command_check_is_unreachable (rt : Runtime) (t : Transport)
    (command : JsVal) (hengine : rt.mapsAsciiCase) :
    (∀ entry ∈ COMMAND_CONFIGS, entry.1 = rt.toUpperCase entry.2.category) ∧
    (COMMAND_CONFIGS.map (fun entry => rt.toUpperCase entry.2.category)).Nodup ∧
    COMMAND_CONFIGS.length = 11 ∧
    (∀ key config, lookupProperty COMMAND_CONFIGS key = .own config →
      key = rt.toUpperCase config.category) ∧
    (fetchCommandResponse rt t command).completion ≠
      .threw (.error ("Invalid " ++ rt.toUpperCase (jsTrim command.text) ++ " command")) := by
  have hkeys := toUpperCase_category rt hengine
  have hown : ∀ key config, lookupProperty COMMAND_CONFIGS key = .own config →
      key = rt.toUpperCase config.category := fun key config h =>
    (hkeys (key, config) (lookupProperty_own_mem _ _ _ h)).symm
  refine ⟨fun entry h => (hkeys entry h).symm, ?_, rfl, hown, ?_⟩
  · have : COMMAND_CONFIGS.map (fun entry => rt.toUpperCase entry.2.category) =
        COMMAND_CONFIGS.map Prod.fst := List.map_congr_left (fun entry h => hkeys entry h)
    rw [this]
    decide
  · unfold fetchCommandResponse
    split
    · intro he; cases he
    · split
      · split
        · refine message_length_ne _ _ ?_
          simp only [String.length_append]
          have h1 : "Invalid command".length = 15 := by decide
          have h2 : "Invalid ".length = 8 := by decide
          have h3 : " command".length = 8 := by decide
          omega
        · dsimp only
          split
          · refine message_length_ne _ _ ?_
            simp only [String.length_append, JsVal.text]
            have h1 : "Invalid command: ".length = 17 := by decide
            have h2 : "Invalid ".length = 8 := by decide
            have h3 : " command".length = 8 := by decide
            omega
          · intro he; cases he
          · rename_i config hcfg
            rw [if_neg (by simpa using hown _ _ hcfg), fetchCommandResponse_loop_eq]
            exact retryLoop_not_invalid _ _ t _
      · refine message_length_ne _ _ ?_
        simp only [String.length_append]
        have h1 : "Invalid command".length = 15 := by decide
        have h2 : "Invalid ".length = 8 := by decide
        have h3 : " command".length = 8 := by decide
        omega

/-- Witness of C28: the command 'pump' on the ASCII runtime. -/
theorem C28_second_command_check_is_unreachable_witness :
    (∀ entry ∈ COMMAND_CONFIGS, entry.1 = asciiRuntime.toUpperCase entry.2.category) ∧
    (fetchCommandResponse asciiRuntime (fun _ => .failed) (.str "pump")).completion ≠
      .threw (.error ("Invalid " ++ asciiRuntime.toUpperCase (jsTrim (JsVal.str "pump").text)
        ++ " command")) :=
  have h := C28_second_command_check_is_unreachable asciiRuntime (fun _ => .failed)
    (.str "pump") asciiRuntime_mapsAsciiCase
  ⟨h.1, h.2.2.2.2⟩

end Sonar
